import Mathlib

/-!
# USB-PD source partner emulator (`emul_tcpci_partner_src.c`)

Shallow embedding of the PDO validator `tcpci_src_emul_check_pdos`, of the
capability sender `tcpci_src_emul_send_capability_msg` and of the response
engine `tcpci_src_emul_transmit_op`, followed by theorems about them.

The C arrays `uint32_t pdo[PDO_MAX_OBJECTS]` are functions on
`Fin PDO_MAX_OBJECTS`; `int` locals are `Int`; the bounded `for` loops are
structural recursions on a fuel argument that is started at
`PDO_MAX_OBJECTS` (every loop is guarded by `i < PDO_MAX_OBJECTS`, so that
fuel is never exhausted, see `fixed_loop_fuel` and its siblings).
-/

/-! ## Constants and macros of `usb_pd.h` -/

/-- Modelled from the spec: `PDO_MAX_OBJECTS` of `usb_pd.h` (not in the source
tree), the fixed maximum of 7 data objects of a PD message. -/
abbrev PDO_MAX_OBJECTS : Nat := 7

/-- Modelled from the spec: `PDO_TYPE_FIXED` of `usb_pd.h`, type field
(bits 31..30) of a Fixed PDO in the standard PD layout. -/
def PDO_TYPE_FIXED : Nat := 0 <<< 30

/-- Modelled from the spec: `PDO_TYPE_BATTERY` of `usb_pd.h`. -/
def PDO_TYPE_BATTERY : Nat := 1 <<< 30

/-- Modelled from the spec: `PDO_TYPE_VARIABLE` of `usb_pd.h`. -/
def PDO_TYPE_VARIABLE : Nat := 2 <<< 30

/-- Modelled from the spec: `PDO_TYPE_MASK` of `usb_pd.h`. -/
def PDO_TYPE_MASK : Nat := 3 <<< 30

/-- Modelled from the spec: `PDO_FIXED_DUAL_ROLE` of `usb_pd.h`, bit 29. -/
def PDO_FIXED_DUAL_ROLE : Nat := 1 <<< 29

/-- Modelled from the spec: `PDO_FIXED_UNCONSTRAINED` of `usb_pd.h`, bit 27. -/
def PDO_FIXED_UNCONSTRAINED : Nat := 1 <<< 27

/-- Modelled from the spec: `PDO_FIXED_COMM_CAP` of `usb_pd.h`, bit 26. -/
def PDO_FIXED_COMM_CAP : Nat := 1 <<< 26

/-- Modelled from the spec: `PDO_FIXED_DATA_SWAP` of `usb_pd.h`, bit 25. -/
def PDO_FIXED_DATA_SWAP : Nat := 1 <<< 25

/-- Modelled from the spec: `PDO_FIXED_VOLTAGE(p)` of `usb_pd.h`, bits 19..10
of the PDO in 50 mV units. -/
def PDO_FIXED_VOLTAGE (p : Nat) : Nat := ((p >>> 10) &&& 0x3FF) * 50

/-- Modelled from the spec: `PDO_BATT_MIN_VOLTAGE(p)` of `usb_pd.h`, bits
19..10 in 50 mV units. -/
def PDO_BATT_MIN_VOLTAGE (p : Nat) : Nat := ((p >>> 10) &&& 0x3FF) * 50

/-- Modelled from the spec: `PDO_BATT_MAX_VOLTAGE(p)` of `usb_pd.h`, bits
29..20 in 50 mV units. -/
def PDO_BATT_MAX_VOLTAGE (p : Nat) : Nat := ((p >>> 20) &&& 0x3FF) * 50

/-- Modelled from the spec: `PDO_VAR_MIN_VOLTAGE(p)` of `usb_pd.h`, bits
19..10 in 50 mV units. -/
def PDO_VAR_MIN_VOLTAGE (p : Nat) : Nat := ((p >>> 10) &&& 0x3FF) * 50

/-- Modelled from the spec: `PDO_VAR_MAX_VOLTAGE(p)` of `usb_pd.h`, bits
29..20 in 50 mV units. -/
def PDO_VAR_MAX_VOLTAGE (p : Nat) : Nat := ((p >>> 20) &&& 0x3FF) * 50

/-- Modelled from the spec: `PDO_FIXED(mv, ma, flags)` of `usb_pd.h`, the
constructor of a Fixed PDO (voltage in 50 mV units at bit 10, current in
10 mA units at bit 0). -/
def PDO_FIXED (mv ma flags : Nat) : Nat :=
  ((mv / 50) <<< 10) ||| ((ma / 10) <<< 0) ||| flags

/-- Modelled from the spec: `PDO_BATT(min_mv, max_mv, op_mw)` of `usb_pd.h`,
the constructor of a Battery PDO. -/
def PDO_BATT (min_mv max_mv op_mw : Nat) : Nat :=
  (((min_mv / 50) &&& 0x3FF) <<< 10) ||| (((max_mv / 50) &&& 0x3FF) <<< 20) |||
    (((op_mw / 250) &&& 0x3FF) <<< 0) ||| PDO_TYPE_BATTERY

/-- Modelled from the spec: `PDO_VAR(min_mv, max_mv, op_ma)` of `usb_pd.h`,
the constructor of a Variable PDO. -/
def PDO_VAR (min_mv max_mv op_ma : Nat) : Nat :=
  (((min_mv / 50) &&& 0x3FF) <<< 10) ||| (((max_mv / 50) &&& 0x3FF) <<< 20) |||
    (((op_ma / 10) &&& 0x3FF) <<< 0) ||| PDO_TYPE_VARIABLE

/-- The macro `PDO_FIXED_FLAGS_MASK` of `emul_tcpci_partner_src.c`. -/
def PDO_FIXED_FLAGS_MASK : Nat :=
  PDO_FIXED_DUAL_ROLE ||| PDO_FIXED_UNCONSTRAINED ||| PDO_FIXED_COMM_CAP |||
    PDO_FIXED_DATA_SWAP

/-! ## Data model -/

/-- Modelled from the spec: `enum check_pdos_res` of `emul_tcpci_partner_src.h`
(not in the source tree); one constructor per code returned by
`tcpci_src_emul_check_pdos`. -/
inductive check_pdos_res where
  | TCPCI_SRC_EMUL_CHECK_PDO_OK
  | TCPCI_SRC_EMUL_FIRST_PDO_NO_FIXED_5V
  | TCPCI_SRC_EMUL_FIXED_VOLT_REPEATED
  | TCPCI_SRC_EMUL_FIXED_VOLT_NOT_IN_ORDER
  | TCPCI_SRC_EMUL_NON_FIRST_PDO_FIXED_FLAGS
  | TCPCI_SRC_EMUL_BATT_VOLT_REPEATED
  | TCPCI_SRC_EMUL_BATT_VOLT_NOT_IN_ORDER
  | TCPCI_SRC_EMUL_VAR_VOLT_REPEATED
  | TCPCI_SRC_EMUL_VAR_VOLT_NOT_IN_ORDER
  | TCPCI_SRC_EMUL_PDO_AFTER_ZERO
  deriving DecidableEq

open check_pdos_res

/-- The fields of `struct tcpci_partner_data` that the message layer reads
and writes: next SOP message id, power role, data role, revision and the
handle of the connected TCPCI emulator (`none` while unset). The work item,
the queue and its mutex are not part of the embedding. -/
structure tcpci_partner_data where
  tcpci_emul : Option Nat
  msg_id : Int
  power_role : Nat
  data_role : Nat
  rev : Nat
  deriving DecidableEq

/-- The fields of `struct tcpci_src_emul_data` used by the source emulator:
the common partner data and the PDO array. -/
structure tcpci_src_emul_data where
  common_data : tcpci_partner_data
  pdo : Fin PDO_MAX_OBJECTS → Nat

/-- A PDO array given by its leading entries, padded with zeros. -/
def pdo_of_list (l : List Nat) : Fin PDO_MAX_OBJECTS → Nat :=
  fun i => l.getD i.val 0

/-! ## `tcpci_src_emul_check_pdos` -/

/-- First `for` loop of `tcpci_src_emul_check_pdos` (source lines 182-201),
entered at index `i` with the saved voltage `volt_min`; returns the early
return code, or the index at which the loop condition fails. -/
def fixed_loop (pdo : Fin PDO_MAX_OBJECTS → Nat) :
    Nat → Nat → Int → Except check_pdos_res Nat
  | 0, i, _ => .ok i
  | fuel + 1, i, volt_min =>
    if h : i < PDO_MAX_OBJECTS then
      if pdo ⟨i, h⟩ ≠ 0 ∧ (pdo ⟨i, h⟩ &&& PDO_TYPE_MASK) ≠ PDO_TYPE_FIXED then
        let volt_i_min : Int := (PDO_FIXED_VOLTAGE (pdo ⟨i, h⟩) : Nat)
        if volt_i_min = volt_min ∨ volt_i_min = 5000 then
          .error TCPCI_SRC_EMUL_FIXED_VOLT_REPEATED
        else if volt_i_min < volt_min then
          .error TCPCI_SRC_EMUL_FIXED_VOLT_NOT_IN_ORDER
        else if (pdo ⟨i, h⟩ &&& PDO_FIXED_FLAGS_MASK) ≠ 0 then
          .error TCPCI_SRC_EMUL_NON_FIRST_PDO_FIXED_FLAGS
        else fixed_loop pdo fuel (i + 1) volt_i_min
      else .ok i
    else .ok i

/-- Second `for` loop of `tcpci_src_emul_check_pdos` (source lines 204-225). -/
def batt_loop (pdo : Fin PDO_MAX_OBJECTS → Nat) :
    Nat → Nat → Int → Int → Except check_pdos_res Nat
  | 0, i, _, _ => .ok i
  | fuel + 1, i, volt_min, volt_max =>
    if h : i < PDO_MAX_OBJECTS then
      if pdo ⟨i, h⟩ ≠ 0 ∧ (pdo ⟨i, h⟩ &&& PDO_TYPE_MASK) ≠ PDO_TYPE_BATTERY then
        let volt_i_min : Int := (PDO_BATT_MIN_VOLTAGE (pdo ⟨i, h⟩) : Nat)
        let volt_i_max : Int := (PDO_BATT_MAX_VOLTAGE (pdo ⟨i, h⟩) : Nat)
        if volt_i_min = volt_min ∧ volt_i_max = volt_max then
          .error TCPCI_SRC_EMUL_BATT_VOLT_REPEATED
        else if volt_i_min < volt_min ∨
            (volt_i_min = volt_min ∧ volt_i_max < volt_max) then
          .error TCPCI_SRC_EMUL_BATT_VOLT_NOT_IN_ORDER
        else batt_loop pdo fuel (i + 1) volt_i_min volt_i_max
      else .ok i
    else .ok i

/-- Third `for` loop of `tcpci_src_emul_check_pdos` (source lines 228-249). -/
def var_loop (pdo : Fin PDO_MAX_OBJECTS → Nat) :
    Nat → Nat → Int → Int → Except check_pdos_res Nat
  | 0, i, _, _ => .ok i
  | fuel + 1, i, volt_min, volt_max =>
    if h : i < PDO_MAX_OBJECTS then
      if pdo ⟨i, h⟩ ≠ 0 ∧ (pdo ⟨i, h⟩ &&& PDO_TYPE_MASK) ≠ PDO_TYPE_VARIABLE then
        let volt_i_min : Int := (PDO_VAR_MIN_VOLTAGE (pdo ⟨i, h⟩) : Nat)
        let volt_i_max : Int := (PDO_VAR_MAX_VOLTAGE (pdo ⟨i, h⟩) : Nat)
        if volt_i_min = volt_min ∧ volt_i_max = volt_max then
          .error TCPCI_SRC_EMUL_VAR_VOLT_REPEATED
        else if volt_i_min < volt_min ∨
            (volt_i_min = volt_min ∧ volt_i_max < volt_max) then
          .error TCPCI_SRC_EMUL_VAR_VOLT_NOT_IN_ORDER
        else var_loop pdo fuel (i + 1) volt_i_min volt_i_max
      else .ok i
    else .ok i

/-- Last `for` loop of `tcpci_src_emul_check_pdos` (source lines 252-258)
together with the final `return TCPCI_SRC_EMUL_CHECK_PDO_OK`. -/
def zero_loop (pdo : Fin PDO_MAX_OBJECTS → Nat) : Nat → Nat → check_pdos_res
  | 0, _ => TCPCI_SRC_EMUL_CHECK_PDO_OK
  | fuel + 1, i =>
    if h : i < PDO_MAX_OBJECTS then
      if pdo ⟨i, h⟩ ≠ 0 then TCPCI_SRC_EMUL_PDO_AFTER_ZERO
      else zero_loop pdo fuel (i + 1)
    else TCPCI_SRC_EMUL_CHECK_PDO_OK

/-- The body of `tcpci_src_emul_check_pdos` with every loop given `fuel`
iterations. -/
def check_pdos_fuel (fuel : Nat) (pdo : Fin PDO_MAX_OBJECTS → Nat) : check_pdos_res :=
  if (pdo 0 &&& PDO_TYPE_MASK) ≠ PDO_TYPE_FIXED ∨ PDO_FIXED_VOLTAGE (pdo 0) ≠ 5000 then
    TCPCI_SRC_EMUL_FIRST_PDO_NO_FIXED_5V
  else
    match fixed_loop pdo fuel 1 (-1) with
    | .error e => e
    | .ok i =>
      match batt_loop pdo fuel i (-1) (-1) with
      | .error e => e
      | .ok i =>
        match var_loop pdo fuel i (-1) (-1) with
        | .error e => e
        | .ok i => zero_loop pdo fuel i

/-- The function `tcpci_src_emul_check_pdos`. -/
def tcpci_src_emul_check_pdos (data : tcpci_src_emul_data) : check_pdos_res :=
  check_pdos_fuel PDO_MAX_OBJECTS data.pdo

/-- An emulator structure for examples, given by the leading PDO entries. -/
def src_data (l : List Nat) : tcpci_src_emul_data :=
  ⟨⟨none, 0, 0, 0, 0⟩, pdo_of_list l⟩

/-! ## Message layer used by the response engine -/

/-- Modelled from the spec: `TCPCI_MSG_SOP` of `enum tcpci_msg_type` (not in
the source tree), the type of a message addressed to the attached partner. -/
def TCPCI_MSG_SOP : Nat := 0

/-- Modelled from the spec: `enum tcpci_emul_tx_status` of `emul_tcpci.h` (not
in the source tree), the transmit status reported to the transport. -/
inductive tcpci_emul_tx_status where
  | TCPCI_EMUL_TX_SUCCESS
  | TCPCI_EMUL_TX_DISCARDED
  | TCPCI_EMUL_TX_FAILED
  deriving DecidableEq

/-- Modelled from the spec: `PD_CTRL_ACCEPT` of `enum pd_ctrl_msg_type` in
`usb_pd.h`, the standard PD control message number of Accept. -/
def PD_CTRL_ACCEPT : Nat := 3

/-- Modelled from the spec: `PD_CTRL_REJECT` of `enum pd_ctrl_msg_type`. -/
def PD_CTRL_REJECT : Nat := 4

/-- Modelled from the spec: `PD_CTRL_PS_RDY` of `enum pd_ctrl_msg_type`. -/
def PD_CTRL_PS_RDY : Nat := 6

/-- Modelled from the spec: `PD_CTRL_GET_SOURCE_CAP` of `enum pd_ctrl_msg_type`. -/
def PD_CTRL_GET_SOURCE_CAP : Nat := 7

/-- Modelled from the spec: `PD_CTRL_GET_SINK_CAP` of `enum pd_ctrl_msg_type`. -/
def PD_CTRL_GET_SINK_CAP : Nat := 8

/-- Modelled from the spec: `PD_CTRL_DR_SWAP` of `enum pd_ctrl_msg_type`. -/
def PD_CTRL_DR_SWAP : Nat := 9

/-- Modelled from the spec: `PD_CTRL_SOFT_RESET` of `enum pd_ctrl_msg_type`. -/
def PD_CTRL_SOFT_RESET : Nat := 13

/-- Modelled from the spec: `PD_DATA_SOURCE_CAP` of `enum pd_data_msg_type` in
`usb_pd.h`, the standard PD data message number of Source_Capabilities. -/
def PD_DATA_SOURCE_CAP : Nat := 1

/-- Modelled from the spec: `PD_DATA_REQUEST` of `enum pd_data_msg_type`. -/
def PD_DATA_REQUEST : Nat := 2

/-- Modelled from the spec: `PD_DATA_VENDOR_DEF` of `enum pd_data_msg_type`. -/
def PD_DATA_VENDOR_DEF : Nat := 15

/-- Modelled from the spec: `PD_HEADER_CNT(header)` of `usb_pd.h`, the object
count in bits 14..12 of the 16-bit PD header. -/
def PD_HEADER_CNT (header : Nat) : Nat := (header >>> 12) &&& 7

/-- Modelled from the spec: `PD_HEADER_TYPE(header)` of `usb_pd.h`, the
message type in the low bits of the 16-bit PD header. -/
def PD_HEADER_TYPE (header : Nat) : Nat := header &&& 0x1F

/-- The fields of `struct tcpci_emul_msg` read by the response engine: the
byte buffer (memory behind `uint8_t *buf`, indexed from 0) and the byte
count. -/
structure tcpci_emul_msg where
  buf : Nat → Nat
  cnt : Int

/-- Modelled from the spec: `enum tcpc_cc_voltage_status` (not in the source
tree), the Type-C signalling levels of a CC line. -/
inductive tcpc_cc_voltage_status where
  | TYPEC_CC_VOLT_OPEN
  | TYPEC_CC_VOLT_RA
  | TYPEC_CC_VOLT_RD
  | TYPEC_CC_VOLT_RP_DEF
  | TYPEC_CC_VOLT_RP_1_5
  | TYPEC_CC_VOLT_RP_3_0
  deriving DecidableEq

/-- Modelled from the spec: `enum tcpc_cc_polarity` (not in the source tree),
the CC line on which the partner is attached. -/
inductive tcpc_cc_polarity where
  | POLARITY_CC1
  | POLARITY_CC2
  deriving DecidableEq

/-- Modelled from the spec: `PD_ROLE_SOURCE` of `enum pd_power_role` in
`usb_pd.h` (`PD_ROLE_SINK` is 0). -/
def PD_ROLE_SOURCE : Nat := 1

/-- Modelled from the spec: `PD_ROLE_UFP` of `enum pd_data_role` in `usb_pd.h`
(`PD_ROLE_DFP` is 1). -/
def PD_ROLE_UFP : Nat := 0

/-- Modelled from the spec: `PD_REV20` of `enum pd_rev_type` in `usb_pd.h`
(`PD_REV10` is 0, `PD_REV30` is 2). -/
def PD_REV20 : Nat := 1

/-- A call made by the source emulator into code outside
`emul_tcpci_partner_src.c`, with its arguments: the status report
`tcpci_emul_partner_msg_status(emul, status)`, and the two send routines of
`emul_tcpci_partner_common.h`, each recorded with the common partner data it
is handed (`&data->common_data` at the moment of the call); further
`tcpci_partner_init(&data->common_data)`,
`tcpci_emul_set_partner_ops(tcpci_emul, &data->ops)` and
`tcpci_emul_connect_partner(tcpci_emul, power_role, cc1, cc2, polarity)`. -/
inductive emul_call where
  | partner_msg_status (emul : Nat) (status : tcpci_emul_tx_status)
  | send_control_msg (common_data : tcpci_partner_data) (type : Nat) (delay : Nat)
  | send_data_msg (common_data : tcpci_partner_data) (type : Nat)
      (data_obj : Fin PDO_MAX_OBJECTS → Nat) (data_obj_num : Nat) (delay : Nat)
  | partner_init (common_data : tcpci_partner_data)
  | set_partner_ops (emul : Nat)
  | connect_partner (emul : Nat) (partner_power_role : Nat)
      (partner_cc1 partner_cc2 : tcpc_cc_voltage_status) (polarity : tcpc_cc_polarity)

/-- An outbound send request as the spec describes it: a control message of
a type with a delay, or a data message of a type with its data objects and
a delay. -/
inductive send_request where
  | Control (type : Nat) (delay : Nat)
  | Data (type : Nat) (objects : List Nat) (delay : Nat)
  deriving DecidableEq

/-- The send request made by a call, if it is one; a data message carries
the first `data_obj_num` entries of the array it is given ("data objects are
copied to message", `emul_tcpci_partner_common.h`). -/
def emul_call.request : emul_call → Option send_request
  | .partner_msg_status _ _ => none
  | .send_control_msg _ type delay => some (.Control type delay)
  | .send_data_msg _ type data_obj data_obj_num delay =>
      some (.Data type ((List.ofFn data_obj).take data_obj_num) delay)
  | .partner_init _ => none
  | .set_partner_ops _ => none
  | .connect_partner _ _ _ _ _ => none

/-- The send requests among a sequence of calls, in call order. -/
def send_requests (calls : List emul_call) : List send_request :=
  calls.filterMap emul_call.request

/-- Behaviour of the routines that `emul_tcpci_partner_src.c` calls and whose
bodies are not in the source tree, over a state `σ` of everything outside
the emulator structure (transport, message queue, allocator). A send routine
may change the common partner data it is handed and returns an `int`. -/
structure partner_api (σ : Type) where
  tcpci_emul_partner_msg_status : σ → Nat → tcpci_emul_tx_status → σ
  tcpci_partner_send_control_msg :
    σ → tcpci_partner_data → Nat → Nat → σ × tcpci_partner_data × Int
  tcpci_partner_send_data_msg :
    σ → tcpci_partner_data → Nat → (Fin PDO_MAX_OBJECTS → Nat) → Nat → Nat →
      σ × tcpci_partner_data × Int

/-- State threaded through the emulator's functions: the outside state, the
emulator structure, and the calls made so far, oldest first. -/
structure emul_run (σ : Type) where
  world : σ
  data : tcpci_src_emul_data
  calls : List emul_call

/-- The call `tcpci_emul_partner_msg_status(emul, status)`. -/
def call_partner_msg_status {σ : Type} (api : partner_api σ) (s : emul_run σ)
    (emul : Nat) (status : tcpci_emul_tx_status) : emul_run σ :=
  { world := api.tcpci_emul_partner_msg_status s.world emul status
    data := s.data
    calls := s.calls ++ [.partner_msg_status emul status] }

/-- The call `tcpci_partner_send_control_msg(&data->common_data, type, delay)`;
returns the state after the call and the routine's return value. -/
def call_send_control_msg {σ : Type} (api : partner_api σ) (s : emul_run σ)
    (type delay : Nat) : emul_run σ × Int :=
  let r := api.tcpci_partner_send_control_msg s.world s.data.common_data type delay
  ({ world := r.1
     data := { s.data with common_data := r.2.1 }
     calls := s.calls ++ [.send_control_msg s.data.common_data type delay] }, r.2.2)

/-- The call `tcpci_partner_send_data_msg(&data->common_data, type, data_obj,
data_obj_num, delay)`; returns the state after the call and the routine's
return value. -/
def call_send_data_msg {σ : Type} (api : partner_api σ) (s : emul_run σ)
    (type : Nat) (data_obj : Fin PDO_MAX_OBJECTS → Nat) (data_obj_num delay : Nat) :
    emul_run σ × Int :=
  let r := api.tcpci_partner_send_data_msg s.world s.data.common_data type data_obj
    data_obj_num delay
  ({ world := r.1
     data := { s.data with common_data := r.2.1 }
     calls := s.calls ++ [.send_data_msg s.data.common_data type data_obj data_obj_num delay] },
   r.2.2)

/-! ## `tcpci_src_emul_send_capability_msg` and `tcpci_src_emul_transmit_op` -/

/-- The `for` loop of `tcpci_src_emul_send_capability_msg` (source lines
33-37) entered with counter `pdos`; returns the counter at exit. -/
def count_pdos (pdo : Fin PDO_MAX_OBJECTS → Nat) : Nat → Nat → Nat
  | 0, pdos => pdos
  | fuel + 1, pdos =>
    if h : pdos < PDO_MAX_OBJECTS then
      if pdo ⟨pdos, h⟩ = 0 then pdos
      else count_pdos pdo fuel (pdos + 1)
    else pdos

/-- The function `tcpci_src_emul_send_capability_msg`. -/
def tcpci_src_emul_send_capability_msg {σ : Type} (api : partner_api σ)
    (s : emul_run σ) (delay : Nat) : emul_run σ × Int :=
  let pdos := count_pdos s.data.pdo PDO_MAX_OBJECTS 0
  call_send_data_msg api s PD_DATA_SOURCE_CAP s.data.pdo pdos delay

/-- The `uint16_t header` computed by `tcpci_src_emul_transmit_op` (source
line 74) from the first two bytes of the received message. -/
def tx_header (tx_msg : tcpci_emul_msg) : Nat :=
  (((tx_msg.buf 1 % 256) <<< 8) ||| (tx_msg.buf 0 % 256)) % 2 ^ 16

/-- The function `tcpci_src_emul_transmit_op`; `s.data` is the emulator data
that contains `ops`. The `switch` statements are chains of comparisons in
the order of their `case` labels. -/
def tcpci_src_emul_transmit_op {σ : Type} (api : partner_api σ) (s : emul_run σ)
    (emul : Nat) (tx_msg : tcpci_emul_msg) (type : Nat) (_retry : Int) : emul_run σ :=
  let s := call_partner_msg_status api s emul .TCPCI_EMUL_TX_SUCCESS
  if type ≠ TCPCI_MSG_SOP then s
  else
    let header := tx_header tx_msg
    if PD_HEADER_CNT header ≠ 0 then
      if PD_HEADER_TYPE header = PD_DATA_REQUEST then
        let s := (call_send_control_msg api s PD_CTRL_ACCEPT 0).1
        (call_send_control_msg api s PD_CTRL_PS_RDY 15).1
      else if PD_HEADER_TYPE header = PD_DATA_VENDOR_DEF then s
      else (call_send_control_msg api s PD_CTRL_REJECT 0).1
    else
      if PD_HEADER_TYPE header = PD_CTRL_GET_SOURCE_CAP then
        (tcpci_src_emul_send_capability_msg api s 0).1
      else if PD_HEADER_TYPE header = PD_CTRL_GET_SINK_CAP then
        (call_send_control_msg api s PD_CTRL_REJECT 0).1
      else if PD_HEADER_TYPE header = PD_CTRL_DR_SWAP then
        (call_send_control_msg api s PD_CTRL_REJECT 0).1
      else if PD_HEADER_TYPE header = PD_CTRL_SOFT_RESET then
        let s : emul_run σ :=
          { s with data := { s.data with common_data := { s.data.common_data with msg_id := 0 } } }
        let s := (call_send_control_msg api s PD_CTRL_ACCEPT 0).1
        (tcpci_src_emul_send_capability_msg api s 15).1
      else (call_send_control_msg api s PD_CTRL_REJECT 0).1

/-- A message layer for running examples: every send succeeds (returns 0)
and advances the message id, the outside state counts the calls. -/
def counting_api : partner_api Nat where
  tcpci_emul_partner_msg_status := fun w _ _ => w + 1
  tcpci_partner_send_control_msg := fun w cd _ _ => (w + 1, { cd with msg_id := cd.msg_id + 1 }, 0)
  tcpci_partner_send_data_msg := fun w cd _ _ _ _ => (w + 1, { cd with msg_id := cd.msg_id + 1 }, 0)

/-- A received message given by its bytes. -/
def msg_of_bytes (l : List Nat) : tcpci_emul_msg :=
  ⟨fun i => l.getD i 0, l.length⟩

/-- A message layer for running examples in which every send fails: it
returns `-ENOMEM` (-12) and leaves the partner data as it is. -/
def failing_api : partner_api Nat where
  tcpci_emul_partner_msg_status := fun w _ _ => w + 1
  tcpci_partner_send_control_msg := fun w cd _ _ => (w + 1, cd, -12)
  tcpci_partner_send_data_msg := fun w cd _ _ _ _ => (w + 1, cd, -12)

/-- Frame condition on the send routines: a send leaves the power role, the
data role and the revision of the partner data it is handed as they are
(the spec: "role/revision never change"). -/
def api_keeps_roles {σ : Type} (api : partner_api σ) : Prop :=
  (∀ (w : σ) (cd : tcpci_partner_data) (type delay : Nat),
    (api.tcpci_partner_send_control_msg w cd type delay).2.1.power_role = cd.power_role ∧
    (api.tcpci_partner_send_control_msg w cd type delay).2.1.data_role = cd.data_role ∧
    (api.tcpci_partner_send_control_msg w cd type delay).2.1.rev = cd.rev) ∧
  (∀ (w : σ) (cd : tcpci_partner_data) (type : Nat) (data_obj : Fin PDO_MAX_OBJECTS → Nat)
      (data_obj_num delay : Nat),
    (api.tcpci_partner_send_data_msg w cd type data_obj data_obj_num delay).2.1.power_role =
      cd.power_role ∧
    (api.tcpci_partner_send_data_msg w cd type data_obj data_obj_num delay).2.1.data_role =
      cd.data_role ∧
    (api.tcpci_partner_send_data_msg w cd type data_obj data_obj_num delay).2.1.rev = cd.rev)

/-! ## `tcpci_src_emul_init` and `tcpci_src_emul_connect_to_tcpci` -/

/-- Behaviour of the routines called by `tcpci_src_emul_init` and
`tcpci_src_emul_connect_to_tcpci` whose bodies are not in the source tree:
`tcpci_partner_init` may write the common partner data it is handed, the two
transport routines act on the outside state, and
`tcpci_emul_connect_partner` returns an `int`. -/
structure setup_api (σ : Type) where
  tcpci_partner_init : σ → tcpci_partner_data → σ × tcpci_partner_data
  tcpci_emul_set_partner_ops : σ → Nat → σ
  tcpci_emul_connect_partner :
    σ → Nat → Nat → tcpc_cc_voltage_status → tcpc_cc_voltage_status → tcpc_cc_polarity →
      σ × Int

/-- The call `tcpci_partner_init(&data->common_data)`. -/
def call_partner_init {σ : Type} (sapi : setup_api σ) (s : emul_run σ) : emul_run σ :=
  let r := sapi.tcpci_partner_init s.world s.data.common_data
  { world := r.1
    data := { s.data with common_data := r.2 }
    calls := s.calls ++ [.partner_init s.data.common_data] }

/-- The call `tcpci_emul_set_partner_ops(tcpci_emul, &data->ops)`. -/
def call_set_partner_ops {σ : Type} (sapi : setup_api σ) (s : emul_run σ)
    (tcpci_emul : Nat) : emul_run σ :=
  { world := sapi.tcpci_emul_set_partner_ops s.world tcpci_emul
    data := s.data
    calls := s.calls ++ [.set_partner_ops tcpci_emul] }

/-- The call `tcpci_emul_connect_partner(tcpci_emul, partner_power_role,
partner_cc1, partner_cc2, polarity)`; returns the state after the call and
the routine's return value. -/
def call_connect_partner {σ : Type} (sapi : setup_api σ) (s : emul_run σ)
    (tcpci_emul partner_power_role : Nat) (partner_cc1 partner_cc2 : tcpc_cc_voltage_status)
    (polarity : tcpc_cc_polarity) : emul_run σ × Int :=
  let r := sapi.tcpci_emul_connect_partner s.world tcpci_emul partner_power_role partner_cc1
    partner_cc2 polarity
  ({ world := r.1
     data := s.data
     calls := s.calls ++
       [.connect_partner tcpci_emul partner_power_role partner_cc1 partner_cc2 polarity] },
   r.2)

/-- The function `tcpci_src_emul_connect_to_tcpci`; `tcpci_emul` is the handle
of the TCPCI emulator. -/
def tcpci_src_emul_connect_to_tcpci {σ : Type} (sapi : setup_api σ) (api : partner_api σ)
    (s : emul_run σ) (tcpci_emul : Nat) : emul_run σ × Int :=
  let s := call_set_partner_ops sapi s tcpci_emul
  let r := call_connect_partner sapi s tcpci_emul PD_ROLE_SOURCE
    .TYPEC_CC_VOLT_RP_3_0 .TYPEC_CC_VOLT_OPEN .POLARITY_CC1
  let ec := r.2
  if ec ≠ 0 then (r.1, ec)
  else
    let s : emul_run σ :=
      { r.1 with data := { r.1.data with
          common_data := { r.1.data.common_data with tcpci_emul := some tcpci_emul } } }
    tcpci_src_emul_send_capability_msg api s 0

/-- The assignment `pdo[i] = v`. -/
def pdo_set (pdo : Fin PDO_MAX_OBJECTS → Nat) (i : Fin PDO_MAX_OBJECTS) (v : Nat) :
    Fin PDO_MAX_OBJECTS → Nat :=
  fun k => if k = i then v else pdo k

/-- The `for` loop of `tcpci_src_emul_init` (source lines 276-278) entered at
index `i`. -/
def init_pdo_loop (pdo : Fin PDO_MAX_OBJECTS → Nat) : Nat → Nat → Fin PDO_MAX_OBJECTS → Nat
  | 0, _ => pdo
  | fuel + 1, i =>
    if h : i < PDO_MAX_OBJECTS then init_pdo_loop (pdo_set pdo ⟨i, h⟩ 0) fuel (i + 1)
    else pdo

/-- The function `tcpci_src_emul_init`. The three assignments to the function
pointers of `data->ops` are not part of the embedding (the emulator
structure of the model has no `ops` field). -/
def tcpci_src_emul_init {σ : Type} (sapi : setup_api σ) (s : emul_run σ) : emul_run σ :=
  let s := call_partner_init sapi s
  let cd := s.data.common_data
  let cd := { cd with data_role := PD_ROLE_UFP }
  let cd := { cd with power_role := PD_ROLE_SOURCE }
  let cd := { cd with rev := PD_REV20 }
  let pdo := pdo_set s.data.pdo 0 (PDO_FIXED 5000 3000 PDO_FIXED_UNCONSTRAINED)
  let pdo := init_pdo_loop pdo PDO_MAX_OBJECTS 1
  { s with data := { common_data := cd, pdo := pdo } }

/-- A transport for running examples: `tcpci_partner_init` clears the message
id and the handle, registration returns the code `ec`, and the outside state
counts the calls. -/
def counting_setup (ec : Int) : setup_api Nat where
  tcpci_partner_init := fun w cd => (w + 1, { cd with msg_id := 0, tcpci_emul := none })
  tcpci_emul_set_partner_ops := fun w _ => w + 1
  tcpci_emul_connect_partner := fun w _ _ _ _ _ => (w + 1, ec)

/-! ## ISL923x charger emulator (`emul_isl923x.c`) -/

/-- Modelled from the spec: `GENMASK(h, l)` of Zephyr's `sys/util.h` (not in
the source tree), the word whose bits `l` to `h` are set; the driver test
`test_options` relies on `GENMASK(15, 1)` being 0xfffe. -/
def GENMASK (h l : Nat) : Nat := 2 ^ (h + 1) - 2 ^ l

/-- Modelled from the spec: `BIT(n)` of Zephyr's `sys/util.h` (not in the
source tree), `1UL << n`. -/
def BIT (n : Nat) : Nat := 2 ^ n

/-- Modelled from the spec: `ISL923X_C1_LEARN_MODE_ENABLE` of
`driver/charger/isl923x.h` (not in the source tree), bit 12 of the control 1
register. -/
def ISL923X_C1_LEARN_MODE_ENABLE : Nat := BIT 12

/-- Modelled from the spec: `EINVAL` of `errno.h`. -/
def EINVAL : Int := 22

/-- Mask used for the charge current register. -/
def REG_CHG_CURRENT_MASK : Nat := GENMASK 12 2

/-- Mask used for the system voltage min register. -/
def REG_SYS_VOLTAGE_MIN_MASK : Nat := GENMASK 13 8

/-- Mask used for the system voltage max register. -/
def REG_SYS_VOLTAGE_MAX_MASK : Nat := GENMASK 14 3

/-- Mask used for the adapter current limit 1 register. -/
def REG_ADAPTER_CURRENT_LIMIT1_MASK : Nat := GENMASK 12 2

/-- Mask used for the adapter current limit 2 register. -/
def REG_ADAPTER_CURRENT_LIMIT2_MASK : Nat := GENMASK 12 2

/-- Mask used for the control 0 register. -/
def REG_CONTROL0_MASK : Nat := GENMASK 15 1

/-- Mask used for the control 1 register. -/
def REG_CONTROL1_MASK : Nat := GENMASK 15 8 ||| GENMASK 6 0

/-- Mask used for the control 2 register. -/
def REG_CONTROL2_MASK : Nat := GENMASK 15 0

/-- Mask used for the control 3 register. -/
def REG_CONTROL3_MASK : Nat := GENMASK 15 0

/-- Mask used for the control 4 register. -/
def REG_CONTROL4_MASK : Nat := GENMASK 15 0

/-- Mask used for the control 8 register. -/
def REG_CONTROL8_MASK : Nat := GENMASK 15 0

/-- Mask used for the AC PROCHOT register. -/
def REG_PROCHOT_AC_MASK : Nat := GENMASK 12 7

/-- Mask used for the DC PROCHOT register. -/
def REG_PROCHOT_DC_MASK : Nat := GENMASK 13 8

/-- Modelled from the spec: the register addresses of
`driver/charger/isl923x.h` (not in the source tree) as an enumeration, one
constructor for each `case` label of the emulator's `switch (reg)`
statements and `unimplemented` for every other value of `int reg`. -/
inductive isl923x_reg where
  | ISL923X_REG_CHG_CURRENT
  | ISL923X_REG_SYS_VOLTAGE_MIN
  | ISL923X_REG_SYS_VOLTAGE_MAX
  | ISL923X_REG_ADAPTER_CURRENT_LIMIT1
  | ISL923X_REG_ADAPTER_CURRENT_LIMIT2
  | ISL923X_REG_MANUFACTURER_ID
  | ISL923X_REG_DEVICE_ID
  | ISL923X_REG_CONTROL0
  | ISL923X_REG_CONTROL1
  | ISL923X_REG_CONTROL2
  | ISL9238_REG_CONTROL3
  | ISL9238_REG_CONTROL4
  | RAA489000_REG_CONTROL8
  | ISL9238_REG_INFO2
  | ISL923X_REG_PROCHOT_AC
  | ISL923X_REG_PROCHOT_DC
  | RAA489000_REG_ADC_VBUS
  | unimplemented (reg : Int)
  deriving DecidableEq

/-- The structure `struct isl923x_emul_data`; the content of the common I2C
data (`struct i2c_common_emul_data`, declared outside the source tree) is
one value, the `uint16_t` registers are natural numbers. -/
structure isl923x_emul_data where
  common : Nat
  current_limit_reg : Nat
  adapter_current_limit1_reg : Nat
  adapter_current_limit2_reg : Nat
  min_volt_reg : Nat
  max_volt_reg : Nat
  manufacturer_id_reg : Nat
  device_id_reg : Nat
  control_0_reg : Nat
  control_1_reg : Nat
  control_2_reg : Nat
  control_3_reg : Nat
  control_4_reg : Nat
  control_8_reg : Nat
  info_2_reg : Nat
  ac_prochot_reg : Nat
  dc_prochot_reg : Nat
  adc_vbus_reg : Nat
  battery_ord : Int
  deriving DecidableEq

/-- The function `isl923x_emul_reset`: the structure is zeroed and the
common I2C data and `battery_ord` are restored. -/
def isl923x_emul_reset (data : isl923x_emul_data) : isl923x_emul_data :=
  let common_backup := data.common
  let battery_ord := data.battery_ord
  let data : isl923x_emul_data :=
    ⟨0, 0, 0, 0, 0, 0, 0, 0, 0, 0, 0, 0, 0, 0, 0, 0, 0, 0, 0⟩
  let data := { data with common := common_backup }
  { data with battery_ord := battery_ord }

/-- The function `isl923x_emul_is_learn_mode_enabled`. -/
def isl923x_emul_is_learn_mode_enabled (data : isl923x_emul_data) : Bool :=
  decide ((data.control_1_reg &&& ISL923X_C1_LEARN_MODE_ENABLE) ≠ 0)

/-- The function `isl923x_emul_set_learn_mode_enabled`; the complement is
taken on a 32-bit `unsigned long` and the result is stored in a `uint16_t`. -/
def isl923x_emul_set_learn_mode_enabled (data : isl923x_emul_data) (enabled : Bool) :
    isl923x_emul_data :=
  if enabled then
    { data with control_1_reg :=
        (data.control_1_reg ||| ISL923X_C1_LEARN_MODE_ENABLE) % 2 ^ 16 }
  else
    { data with control_1_reg :=
        (data.control_1_reg &&& ((2 ^ 32 - 1) ^^^ ISL923X_C1_LEARN_MODE_ENABLE)) % 2 ^ 16 }

/-- The macro `READ_REG_16`: the byte stored in `*(OUT)`; the assertion on
`BYTES` is not part of the embedding. -/
def READ_REG_16 (REG : Nat) (BYTES : Int) : Nat :=
  if BYTES = 0 then (REG &&& 0xff) % 256
  else ((REG >>> 8) &&& 0xff) % 256

/-- The function `isl923x_emul_read_byte`: `.ok b` when `*val = b` is stored
and 0 is returned, `.error (-EINVAL)` when the register is not implemented
(`*val` is then left as it was). -/
def isl923x_emul_read_byte (data : isl923x_emul_data) (reg : isl923x_reg) (bytes : Int) :
    Except Int Nat :=
  match reg with
  | .ISL923X_REG_CHG_CURRENT => .ok (READ_REG_16 data.current_limit_reg bytes)
  | .ISL923X_REG_SYS_VOLTAGE_MIN => .ok (READ_REG_16 data.min_volt_reg bytes)
  | .ISL923X_REG_SYS_VOLTAGE_MAX => .ok (READ_REG_16 data.max_volt_reg bytes)
  | .ISL923X_REG_ADAPTER_CURRENT_LIMIT1 =>
      .ok (READ_REG_16 data.adapter_current_limit1_reg bytes)
  | .ISL923X_REG_ADAPTER_CURRENT_LIMIT2 =>
      .ok (READ_REG_16 data.adapter_current_limit2_reg bytes)
  | .ISL923X_REG_MANUFACTURER_ID => .ok (READ_REG_16 data.manufacturer_id_reg bytes)
  | .ISL923X_REG_DEVICE_ID => .ok (READ_REG_16 data.device_id_reg bytes)
  | .ISL923X_REG_CONTROL0 => .ok (READ_REG_16 data.control_0_reg bytes)
  | .ISL923X_REG_CONTROL1 => .ok (READ_REG_16 data.control_1_reg bytes)
  | .ISL923X_REG_CONTROL2 => .ok (READ_REG_16 data.control_2_reg bytes)
  | .ISL9238_REG_CONTROL3 => .ok (READ_REG_16 data.control_3_reg bytes)
  | .ISL9238_REG_CONTROL4 => .ok (READ_REG_16 data.control_4_reg bytes)
  | .RAA489000_REG_CONTROL8 => .ok (READ_REG_16 data.control_8_reg bytes)
  | .ISL9238_REG_INFO2 => .ok (READ_REG_16 data.info_2_reg bytes)
  | .ISL923X_REG_PROCHOT_AC => .ok (READ_REG_16 data.ac_prochot_reg bytes)
  | .ISL923X_REG_PROCHOT_DC => .ok (READ_REG_16 data.dc_prochot_reg bytes)
  | .RAA489000_REG_ADC_VBUS => .ok (READ_REG_16 data.adc_vbus_reg bytes)
  | .unimplemented _ => .error (-EINVAL)

/-- The function `isl923x_emul_peek_reg`: the `uint16_t` built from the two
bytes read; `none` when the register is not implemented, in which case the C
function returns the indeterminate content of its local array. -/
def isl923x_emul_peek_reg (data : isl923x_emul_data) (reg : isl923x_reg) : Option Nat :=
  match isl923x_emul_read_byte data reg 0, isl923x_emul_read_byte data reg 1 with
  | .ok b0, .ok b1 => some (((b1 <<< 8) ||| b0) % 2 ^ 16)
  | _, _ => none

/-- The macro `WRITE_REG_16`: the new value of the `uint16_t` lvalue `REG`;
the assertion on `BYTES` is not part of the embedding. -/
def WRITE_REG_16 (REG : Nat) (BYTES : Int) (VAL MASK : Nat) : Nat :=
  if BYTES = 1 then (VAL &&& MASK) % 2 ^ 16
  else (REG ||| ((VAL <<< 8) &&& MASK)) % 2 ^ 16

/-- The function `isl923x_emul_write_byte`; `val` is converted to `uint8_t`
on entry. Returns the structure after the call and the return value. -/
def isl923x_emul_write_byte (data : isl923x_emul_data) (reg : isl923x_reg) (val : Nat)
    (bytes : Int) : isl923x_emul_data × Int :=
  let val := val % 256
  match reg with
  | .ISL923X_REG_CHG_CURRENT =>
      ({ data with current_limit_reg :=
          WRITE_REG_16 data.current_limit_reg bytes val REG_CHG_CURRENT_MASK }, 0)
  | .ISL923X_REG_SYS_VOLTAGE_MIN =>
      ({ data with min_volt_reg :=
          WRITE_REG_16 data.min_volt_reg bytes val REG_SYS_VOLTAGE_MIN_MASK }, 0)
  | .ISL923X_REG_SYS_VOLTAGE_MAX =>
      ({ data with max_volt_reg :=
          WRITE_REG_16 data.max_volt_reg bytes val REG_SYS_VOLTAGE_MAX_MASK }, 0)
  | .ISL923X_REG_ADAPTER_CURRENT_LIMIT1 =>
      ({ data with adapter_current_limit1_reg :=
          WRITE_REG_16 data.adapter_current_limit1_reg bytes val
                      REG_ADAPTER_CURRENT_LIMIT1_MASK }, 0)
  | .ISL923X_REG_ADAPTER_CURRENT_LIMIT2 =>
      ({ data with adapter_current_limit2_reg :=
          WRITE_REG_16 data.adapter_current_limit2_reg bytes val
                      REG_ADAPTER_CURRENT_LIMIT2_MASK }, 0)
  | .ISL923X_REG_CONTROL0 =>
      ({ data with control_0_reg :=
          WRITE_REG_16 data.control_0_reg bytes val REG_CONTROL0_MASK }, 0)
  | .ISL923X_REG_CONTROL1 =>
      ({ data with control_1_reg :=
          WRITE_REG_16 data.control_1_reg bytes val REG_CONTROL1_MASK }, 0)
  | .ISL923X_REG_CONTROL2 =>
      ({ data with control_2_reg :=
          WRITE_REG_16 data.control_2_reg bytes val REG_CONTROL2_MASK }, 0)
  | .ISL9238_REG_CONTROL3 =>
      ({ data with control_3_reg :=
          WRITE_REG_16 data.control_3_reg bytes val REG_CONTROL3_MASK }, 0)
  | .ISL9238_REG_CONTROL4 =>
      ({ data with control_4_reg :=
          WRITE_REG_16 data.control_4_reg bytes val REG_CONTROL4_MASK }, 0)
  | .RAA489000_REG_CONTROL8 =>
      ({ data with control_8_reg :=
          WRITE_REG_16 data.control_8_reg bytes val REG_CONTROL8_MASK }, 0)
  | .ISL9238_REG_INFO2 => (data, 0)
  | .ISL923X_REG_PROCHOT_AC =>
      ({ data with ac_prochot_reg :=
          WRITE_REG_16 data.ac_prochot_reg bytes val REG_PROCHOT_AC_MASK }, 0)
  | .ISL923X_REG_PROCHOT_DC =>
      ({ data with dc_prochot_reg :=
          WRITE_REG_16 data.dc_prochot_reg bytes val REG_PROCHOT_DC_MASK }, 0)
  | _ => (data, -EINVAL)

/-- The mask that `isl923x_emul_write_byte` applies to a register, read off
its `switch`; 0 for a register it does not write. -/
def isl923x_reg_mask : isl923x_reg → Nat
  | .ISL923X_REG_CHG_CURRENT => REG_CHG_CURRENT_MASK
  | .ISL923X_REG_SYS_VOLTAGE_MIN => REG_SYS_VOLTAGE_MIN_MASK
  | .ISL923X_REG_SYS_VOLTAGE_MAX => REG_SYS_VOLTAGE_MAX_MASK
  | .ISL923X_REG_ADAPTER_CURRENT_LIMIT1 => REG_ADAPTER_CURRENT_LIMIT1_MASK
  | .ISL923X_REG_ADAPTER_CURRENT_LIMIT2 => REG_ADAPTER_CURRENT_LIMIT2_MASK
  | .ISL923X_REG_CONTROL0 => REG_CONTROL0_MASK
  | .ISL923X_REG_CONTROL1 => REG_CONTROL1_MASK
  | .ISL923X_REG_CONTROL2 => REG_CONTROL2_MASK
  | .ISL9238_REG_CONTROL3 => REG_CONTROL3_MASK
  | .ISL9238_REG_CONTROL4 => REG_CONTROL4_MASK
  | .RAA489000_REG_CONTROL8 => REG_CONTROL8_MASK
  | .ISL923X_REG_PROCHOT_AC => REG_PROCHOT_AC_MASK
  | .ISL923X_REG_PROCHOT_DC => REG_PROCHOT_DC_MASK
  | _ => 0

/-- The registers that `isl923x_emul_write_byte` writes. -/
def isl923x_reg_writable : isl923x_reg → Bool
  | .ISL923X_REG_CHG_CURRENT => true
  | .ISL923X_REG_SYS_VOLTAGE_MIN => true
  | .ISL923X_REG_SYS_VOLTAGE_MAX => true
  | .ISL923X_REG_ADAPTER_CURRENT_LIMIT1 => true
  | .ISL923X_REG_ADAPTER_CURRENT_LIMIT2 => true
  | .ISL923X_REG_CONTROL0 => true
  | .ISL923X_REG_CONTROL1 => true
  | .ISL923X_REG_CONTROL2 => true
  | .ISL9238_REG_CONTROL3 => true
  | .ISL9238_REG_CONTROL4 => true
  | .RAA489000_REG_CONTROL8 => true
  | .ISL923X_REG_PROCHOT_AC => true
  | .ISL923X_REG_PROCHOT_DC => true
  | _ => false

/-- The registers that the emulator implements, that is, the `case` labels of
`isl923x_emul_read_byte`. -/
def isl923x_reg_emulated : isl923x_reg → Bool
  | .unimplemented _ => false
  | _ => true

/-- An emulator state for examples, every register holding 0xffff. -/
def isl923x_all_ones : isl923x_emul_data :=
  ⟨3, 0xffff, 0xffff, 0xffff, 0xffff, 0xffff, 0xffff, 0xffff, 0xffff, 0xffff, 0xffff,
    0xffff, 0xffff, 0xffff, 0xffff, 0xffff, 0xffff, 0xffff, 5⟩

/-! ## Fan shim (`shim/src/fan.c`) -/

/-- Modelled from the spec: the macro `ABS(x)` of `common.h` (not in the
source tree), `((x) >= 0 ? (x) : -(x))`. -/
def ABS (x : Int) : Int := if x ≥ 0 then x else -x

/-- Modelled from the spec: the macro `MIN(a, b)` of `common.h` (not in the
source tree), `a < b ? a : b`. -/
def MIN (a b : Int) : Int := if a < b then a else b

/-- Modelled from the spec: the macro `MAX(a, b)` of `common.h` (not in the
source tree), `a > b ? a : b`. -/
def MAX (a b : Int) : Int := if a > b then a else b

/-- Modelled from the spec: `enum fan_status` of `fan.h` (not in the source
tree), the four states that `fan.c` assigns. -/
inductive fan_status where
  | FAN_STATUS_STOPPED
  | FAN_STATUS_CHANGING
  | FAN_STATUS_LOCKED
  | FAN_STATUS_FRUSTRATED
  deriving DecidableEq

/-- The enumeration `enum fan_mode`. -/
inductive fan_mode where
  | FAN_RPM
  | FAN_DUTY
  deriving DecidableEq

/-- The structure `struct fan_status_t`. -/
structure fan_status_t where
  current_fan_mode : fan_mode
  rpm_actual : Int
  rpm_target : Int
  flags : Nat
  auto_status : fan_status
  deriving DecidableEq

/-- Modelled from the spec: `struct fan_rpm` of `fan.h` (not in the source
tree), the rpm limits of a fan filled in by `FAN_CONFIGS`. -/
structure fan_rpm where
  rpm_min : Int
  rpm_start : Int
  rpm_max : Int
  deriving DecidableEq

/-- The constant tables of `fan.c` that the functions below read: the rpm
limits `fans[ch].rpm` and the PWM channel `fan_control[ch].pwm_id`. -/
structure fan_tables where
  rpm : Nat → fan_rpm
  pwm_id : Nat → Nat

/-- A call made by `fan.c` into the PWM and sleep-mask code, with its
arguments. -/
inductive fan_call where
  | pwm_get_enabled (pwm_id : Nat)
  | pwm_enable (pwm_id : Nat) (enabled : Int)
  | pwm_set_duty (pwm_id : Nat) (percent : Int)
  | enable_sleep
  | disable_sleep
  deriving DecidableEq

/-- Behaviour of the routines that `fan.c` calls and whose bodies are not in
the source tree, over a state `σ` of the PWM driver and the sleep mask. -/
structure fan_api (σ : Type) where
  fan_get_count : Nat
  pwm_get_enabled : σ → Nat → Int
  pwm_enable : σ → Nat → Int → σ
  pwm_set_duty : σ → Nat → Int → σ
  enable_sleep : σ → σ
  disable_sleep : σ → σ

/-- State threaded through the functions of `fan.c`: the outside state, the
array `fan_status`, and the calls made so far, oldest first. -/
structure fan_run (σ : Type) where
  world : σ
  fan_status : Nat → fan_status_t
  calls : List fan_call

/-- The assignment `fan_status[ch] = v`. -/
def fan_status_set (f : Nat → fan_status_t) (ch : Nat) (v : fan_status_t) :
    Nat → fan_status_t :=
  fun k => if k = ch then v else f k

/-- The loop of `fan_all_disabled` entered at channel `ch`, with `fuel`
channels left below `fan_get_count()`. -/
def fan_all_disabled_loop (f : Nat → fan_status_t) : Nat → Nat → Int
  | 0, _ => 1
  | fuel + 1, ch =>
    if (f ch).auto_status ≠ fan_status.FAN_STATUS_STOPPED then 0
    else fan_all_disabled_loop f fuel (ch + 1)

/-- The function `fan_all_disabled`. -/
def fan_all_disabled {σ : Type} (api : fan_api σ) (s : fan_run σ) : Int :=
  fan_all_disabled_loop s.fan_status api.fan_get_count 0

/-- The function `fan_set_duty`. -/
def fan_set_duty {σ : Type} (t : fan_tables) (api : fan_api σ) (s : fan_run σ)
    (ch : Nat) (percent : Int) : fan_run σ :=
  let pwm_id := t.pwm_id ch
  let s : fan_run σ :=
    if percent = 0 then
      let stopped : fan_status_t :=
        { s.fan_status ch with auto_status := fan_status.FAN_STATUS_STOPPED }
      let s : fan_run σ := { s with fan_status := fan_status_set s.fan_status ch stopped }
      if fan_all_disabled api s ≠ 0 then
        { s with world := api.enable_sleep s.world, calls := s.calls ++ [.enable_sleep] }
      else s
    else
      { s with world := api.disable_sleep s.world, calls := s.calls ++ [.disable_sleep] }
  { s with world := api.pwm_set_duty s.world pwm_id percent
           calls := s.calls ++ [.pwm_set_duty pwm_id percent] }

/-- The duty step chosen by `fan_adjust_duty` (source lines 153-163). -/
def fan_adjust_duty_step (rpm_diff : Int) : Int :=
  if ABS rpm_diff ≥ 2000 then 20
  else if ABS rpm_diff ≥ 1000 then 10
  else if ABS rpm_diff ≥ 500 then 5
  else if ABS rpm_diff ≥ 250 then 3
  else 1

/-- The duty that `fan_adjust_duty` computes (source lines 165-169) and
passes to `fan_set_duty`. -/
def fan_adjust_duty_value (rpm_diff duty : Int) : Int :=
  let duty_step := fan_adjust_duty_step rpm_diff
  if rpm_diff > 0 then MIN (duty + duty_step) 100
  else MAX (duty - duty_step) 1

/-- The function `fan_adjust_duty`. -/
def fan_adjust_duty {σ : Type} (t : fan_tables) (api : fan_api σ) (s : fan_run σ)
    (ch : Nat) (rpm_diff duty : Int) : fan_run σ :=
  fan_set_duty t api s ch (fan_adjust_duty_value rpm_diff duty)

/-- The function `fan_get_enabled`; returns the state after the call and the
value returned. -/
def fan_get_enabled {σ : Type} (t : fan_tables) (api : fan_api σ) (s : fan_run σ)
    (ch : Nat) : fan_run σ × Int :=
  let pwm_id := t.pwm_id ch
  ({ s with calls := s.calls ++ [.pwm_get_enabled pwm_id] },
   api.pwm_get_enabled s.world pwm_id)

/-- The function `fan_set_enabled`. -/
def fan_set_enabled {σ : Type} (t : fan_tables) (api : fan_api σ) (s : fan_run σ)
    (ch : Nat) (enabled : Int) : fan_run σ :=
  let pwm_id := t.pwm_id ch
  let s : fan_run σ :=
    if enabled = 0 then
      let stopped : fan_status_t :=
        { s.fan_status ch with auto_status := fan_status.FAN_STATUS_STOPPED }
      { s with fan_status := fan_status_set s.fan_status ch stopped }
    else s
  { s with world := api.pwm_enable s.world pwm_id enabled
           calls := s.calls ++ [.pwm_enable pwm_id enabled] }

/-- The function `fan_get_rpm_target`. -/
def fan_get_rpm_target {σ : Type} (s : fan_run σ) (ch : Nat) : Int :=
  (s.fan_status ch).rpm_target

/-- The function `fan_set_rpm_target`. -/
def fan_set_rpm_target {σ : Type} (t : fan_tables) (api : fan_api σ) (s : fan_run σ)
    (ch : Nat) (rpm : Int) : fan_run σ :=
  let r : fan_run σ × Int :=
    if rpm = 0 then (fan_set_duty t api s ch 0, rpm)
    else
      let g := fan_get_enabled t api s ch
      let s := if g.2 = 0 then fan_set_enabled t api g.1 ch 1 else g.1
      if rpm > (t.rpm ch).rpm_max then (s, (t.rpm ch).rpm_max)
      else if rpm < (t.rpm ch).rpm_min then (s, (t.rpm ch).rpm_min)
      else (s, rpm)
  let updated : fan_status_t := { r.1.fan_status ch with rpm_target := r.2 }
  { r.1 with fan_status := fan_status_set r.1.fan_status ch updated }

/-- A PWM driver for running examples: the outside state is the enable flag
of the single PWM channel. -/
def simple_fan_api : fan_api Int where
  fan_get_count := 1
  pwm_get_enabled := fun w _ => w
  pwm_enable := fun _ _ enabled => enabled
  pwm_set_duty := fun w _ _ => w
  enable_sleep := fun w => w
  disable_sleep := fun w => w

/-- Fan tables for running examples: every fan runs between 1000 and 5000
rpm on PWM channel 0. -/
def simple_fan_tables : fan_tables where
  rpm := fun _ => ⟨1000, 1000, 5000⟩
  pwm_id := fun _ => 0

/-- A fan state for running examples: duty mode, stopped, no target. -/
def simple_fan_run : fan_run Int :=
  ⟨0, fun _ => ⟨fan_mode.FAN_DUTY, 0, 0, 0, fan_status.FAN_STATUS_STOPPED⟩, []⟩

/-! ## Delayed send queue (`emul_tcpci_partner_common.h`) -/

/-- The fields of `struct tcpci_partner_msg` other than the list node: the
bytes of the TCPCI emulator message, the time when the message should be
sent, the type of the message and the number of data objects. -/
structure tcpci_partner_msg where
  msg : List Nat
  time : Nat
  type : Int
  data_objects : Int
  deriving DecidableEq

/-- Modelled from the spec: the insertion made by `schedule` into the queue
`to_send`, whose body is not in the source tree: the message "inserts in
time order", with "ties broken by insertion order (FIFO among equal-time
entries)", so it goes after every pending message that is due no later. -/
def to_send_insert (m : tcpci_partner_msg) : List tcpci_partner_msg → List tcpci_partner_msg
  | [] => [m]
  | x :: xs => if x.time ≤ m.time then x :: to_send_insert m xs else m :: x :: xs

/-- Modelled from the spec: `tcpci_partner_send_msg`, declared in
`emul_tcpci_partner_common.h` with its body not in the source tree, as the
spec's `schedule(msg, delay)`: it "sets scheduled_time = now + delay
(delay 0 is immediate)" and "inserts in time order"; returns the queue after
the call and 0. -/
def tcpci_partner_send_msg (to_send : List tcpci_partner_msg) (now : Nat)
    (msg : tcpci_partner_msg) (delay : Nat) : List tcpci_partner_msg × Int :=
  (to_send_insert { msg with time := now + delay } to_send, 0)

/-- Modelled from the spec: `dispatch_due()`, the delayed-send handler whose
body is not in the source tree: it "removes and hands off every Message
whose scheduled_time <= now, preserving order"; returns the messages handed
off and the queue that remains. -/
def dispatch_due (to_send : List tcpci_partner_msg) (now : Nat) :
    List tcpci_partner_msg × List tcpci_partner_msg :=
  (to_send.filter (fun m => decide (m.time ≤ now)),
   to_send.filter (fun m => !decide (m.time ≤ now)))

/-- Modelled from the spec: `tcpci_partner_clear_msg_queue`, declared in
`emul_tcpci_partner_common.h` with its body not in the source tree, as the
spec's `clear()`: it "removes and frees all pending Messages"; returns the
queue after the call and 0. -/
def tcpci_partner_clear_msg_queue (_to_send : List tcpci_partner_msg) :
    List tcpci_partner_msg × Int :=
  ([], 0)

/-- An operation on the queue: a `schedule` call with its message and delay,
or a run of the dispatcher. -/
inductive queue_op where
  | schedule (msg : tcpci_partner_msg) (delay : Nat)
  | dispatch
  deriving DecidableEq

/-- The queue `to_send` together with the record of the messages handed to
the transport so far, oldest first, each with the time of its hand-off. -/
structure queue_run where
  to_send : List tcpci_partner_msg
  delivered : List (Nat × tcpci_partner_msg)

/-- One operation performed at time `now`. -/
def queue_step (s : queue_run) (now : Nat) : queue_op → queue_run
  | .schedule msg delay =>
      { s with to_send := (tcpci_partner_send_msg s.to_send now msg delay).1 }
  | .dispatch =>
      { to_send := (dispatch_due s.to_send now).2
        delivered := s.delivered ++ (dispatch_due s.to_send now).1.map (fun m => (now, m)) }

/-- A sequence of operations, each with the time at which it is performed. -/
def queue_exec (s : queue_run) : List (Nat × queue_op) → queue_run
  | [] => s
  | p :: rest => queue_exec (queue_step s p.1 p.2) rest

/-- The messages scheduled by a sequence of operations, each with its
scheduled time, in the order of the calls. -/
def scheduled_msgs : List (Nat × queue_op) → List tcpci_partner_msg
  | [] => []
  | (now, .schedule msg delay) :: rest => { msg with time := now + delay } :: scheduled_msgs rest
  | (_, .dispatch) :: rest => scheduled_msgs rest

/-- Invariant of the queue at a time `T` not later than the operations still
to come: the queue is in time order, the hand-offs so far are in time order,
none was made before its scheduled time or after `T`, and every message
handed off is due no later than every pending one. -/
def queue_ok (s : queue_run) (T : Nat) : Prop :=
  s.to_send.Pairwise (fun a b => a.time ≤ b.time) ∧
  s.delivered.Pairwise (fun a b => a.2.time ≤ b.2.time) ∧
  (∀ e ∈ s.delivered, e.2.time ≤ e.1) ∧
  (∀ e ∈ s.delivered, e.1 ≤ T) ∧
  (∀ e ∈ s.delivered, ∀ m ∈ s.to_send, e.2.time ≤ m.time)

/-- A control message for examples, given by its type. -/
def ctrl_msg (type : Int) : tcpci_partner_msg :=
  ⟨[], 0, type, 0⟩

/-! ## Lemmas on the loops of `tcpci_src_emul_check_pdos` -/

theorem fixed_loop_fuel (pdo : Fin PDO_MAX_OBJECTS → Nat) :
    ∀ (fuel fuel' i : Nat) (v : Int), PDO_MAX_OBJECTS ≤ i + fuel → PDO_MAX_OBJECTS ≤ i + fuel' →
      fixed_loop pdo fuel i v = fixed_loop pdo fuel' i v := by
  intro fuel
  induction fuel with
  | zero =>
    intro fuel' i v h h'
    have hi : ¬ i < PDO_MAX_OBJECTS := by omega
    cases fuel' with
    | zero => rfl
    | succ m => simp only [fixed_loop]; rw [dif_neg hi]
  | succ n ih =>
    intro fuel' i v h h'
    cases fuel' with
    | zero =>
      have hi : ¬ i < PDO_MAX_OBJECTS := by omega
      simp only [fixed_loop]; rw [dif_neg hi]
    | succ m =>
      simp only [fixed_loop]
      by_cases h1 : i < PDO_MAX_OBJECTS
      · rw [dif_pos h1, dif_pos h1, ih m (i + 1) _ (by omega) (by omega)]
      · rw [dif_neg h1, dif_neg h1]

theorem batt_loop_fuel (pdo : Fin PDO_MAX_OBJECTS → Nat) :
    ∀ (fuel fuel' i : Nat) (v w : Int), PDO_MAX_OBJECTS ≤ i + fuel →
      PDO_MAX_OBJECTS ≤ i + fuel' → batt_loop pdo fuel i v w = batt_loop pdo fuel' i v w := by
  intro fuel
  induction fuel with
  | zero =>
    intro fuel' i v w h h'
    have hi : ¬ i < PDO_MAX_OBJECTS := by omega
    cases fuel' with
    | zero => rfl
    | succ m => simp only [batt_loop]; rw [dif_neg hi]
  | succ n ih =>
    intro fuel' i v w h h'
    cases fuel' with
    | zero =>
      have hi : ¬ i < PDO_MAX_OBJECTS := by omega
      simp only [batt_loop]; rw [dif_neg hi]
    | succ m =>
      simp only [batt_loop]
      by_cases h1 : i < PDO_MAX_OBJECTS
      · rw [dif_pos h1, dif_pos h1, ih m (i + 1) _ _ (by omega) (by omega)]
      · rw [dif_neg h1, dif_neg h1]

theorem var_loop_fuel (pdo : Fin PDO_MAX_OBJECTS → Nat) :
    ∀ (fuel fuel' i : Nat) (v w : Int), PDO_MAX_OBJECTS ≤ i + fuel →
      PDO_MAX_OBJECTS ≤ i + fuel' → var_loop pdo fuel i v w = var_loop pdo fuel' i v w := by
  intro fuel
  induction fuel with
  | zero =>
    intro fuel' i v w h h'
    have hi : ¬ i < PDO_MAX_OBJECTS := by omega
    cases fuel' with
    | zero => rfl
    | succ m => simp only [var_loop]; rw [dif_neg hi]
  | succ n ih =>
    intro fuel' i v w h h'
    cases fuel' with
    | zero =>
      have hi : ¬ i < PDO_MAX_OBJECTS := by omega
      simp only [var_loop]; rw [dif_neg hi]
    | succ m =>
      simp only [var_loop]
      by_cases h1 : i < PDO_MAX_OBJECTS
      · rw [dif_pos h1, dif_pos h1, ih m (i + 1) _ _ (by omega) (by omega)]
      · rw [dif_neg h1, dif_neg h1]

theorem zero_loop_fuel (pdo : Fin PDO_MAX_OBJECTS → Nat) :
    ∀ (fuel fuel' i : Nat), PDO_MAX_OBJECTS ≤ i + fuel → PDO_MAX_OBJECTS ≤ i + fuel' →
      zero_loop pdo fuel i = zero_loop pdo fuel' i := by
  intro fuel
  induction fuel with
  | zero =>
    intro fuel' i h h'
    have hi : ¬ i < PDO_MAX_OBJECTS := by omega
    cases fuel' with
    | zero => rfl
    | succ m => simp only [zero_loop]; rw [dif_neg hi]
  | succ n ih =>
    intro fuel' i h h'
    cases fuel' with
    | zero =>
      have hi : ¬ i < PDO_MAX_OBJECTS := by omega
      simp only [zero_loop]; rw [dif_neg hi]
    | succ m =>
      simp only [zero_loop]
      by_cases h1 : i < PDO_MAX_OBJECTS
      · rw [dif_pos h1, dif_pos h1, ih m (i + 1) (by omega) (by omega)]
      · rw [dif_neg h1, dif_neg h1]

/-- Totality of the validator: the loops never use more than
`PDO_MAX_OBJECTS` iterations, so any larger fuel gives the same result. -/
theorem check_pdos_fuel_enough (pdo : Fin PDO_MAX_OBJECTS → Nat) (fuel : Nat)
    (hf : PDO_MAX_OBJECTS ≤ fuel) :
    check_pdos_fuel fuel pdo = check_pdos_fuel PDO_MAX_OBJECTS pdo := by
  unfold check_pdos_fuel
  rw [fixed_loop_fuel pdo fuel PDO_MAX_OBJECTS 1 (-1) (by omega) (by omega)]
  split_ifs with h0
  · rfl
  · cases fixed_loop pdo PDO_MAX_OBJECTS 1 (-1) with
    | error e => rfl
    | ok i =>
      simp only
      rw [batt_loop_fuel pdo fuel PDO_MAX_OBJECTS i (-1) (-1) (by omega) (by omega)]
      cases batt_loop pdo PDO_MAX_OBJECTS i (-1) (-1) with
      | error e => rfl
      | ok j =>
        simp only
        rw [var_loop_fuel pdo fuel PDO_MAX_OBJECTS j (-1) (-1) (by omega) (by omega)]
        cases var_loop pdo PDO_MAX_OBJECTS j (-1) (-1) with
        | error e => rfl
        | ok k =>
          simp only
          rw [zero_loop_fuel pdo fuel PDO_MAX_OBJECTS k (by omega) (by omega)]

theorem fixed_loop_error_ne_ok (pdo : Fin PDO_MAX_OBJECTS → Nat) :
    ∀ (fuel i : Nat) (v : Int) (e : check_pdos_res),
      fixed_loop pdo fuel i v = .error e → e ≠ TCPCI_SRC_EMUL_CHECK_PDO_OK := by
  intro fuel
  induction fuel with
  | zero => intro i v e h; simp only [fixed_loop] at h; cases h
  | succ n ih =>
    intro i v e h
    simp only [fixed_loop] at h
    split_ifs at h
    · cases h; decide
    · cases h; decide
    · cases h; decide
    · exact ih _ _ e h

theorem batt_loop_error_ne_ok (pdo : Fin PDO_MAX_OBJECTS → Nat) :
    ∀ (fuel i : Nat) (v w : Int) (e : check_pdos_res),
      batt_loop pdo fuel i v w = .error e → e ≠ TCPCI_SRC_EMUL_CHECK_PDO_OK := by
  intro fuel
  induction fuel with
  | zero => intro i v w e h; simp only [batt_loop] at h; cases h
  | succ n ih =>
    intro i v w e h
    simp only [batt_loop] at h
    split_ifs at h
    · cases h; decide
    · cases h; decide
    · exact ih _ _ _ e h

theorem var_loop_error_ne_ok (pdo : Fin PDO_MAX_OBJECTS → Nat) :
    ∀ (fuel i : Nat) (v w : Int) (e : check_pdos_res),
      var_loop pdo fuel i v w = .error e → e ≠ TCPCI_SRC_EMUL_CHECK_PDO_OK := by
  intro fuel
  induction fuel with
  | zero => intro i v w e h; simp only [var_loop] at h; cases h
  | succ n ih =>
    intro i v w e h
    simp only [var_loop] at h
    split_ifs at h
    · cases h; decide
    · cases h; decide
    · exact ih _ _ _ e h

theorem fixed_loop_stop (pdo : Fin PDO_MAX_OBJECTS → Nat) (i : Nat)
    (hi : i < PDO_MAX_OBJECTS) (hz : pdo ⟨i, hi⟩ = 0) :
    ∀ (fuel j : Nat) (v : Int) (k : Nat),
      j ≤ i → fixed_loop pdo fuel j v = .ok k → k ≤ i := by
  intro fuel
  induction fuel with
  | zero =>
    intro j v k hj h
    simp only [fixed_loop, Except.ok.injEq] at h
    omega
  | succ n ih =>
    intro j v k hj h
    simp only [fixed_loop] at h
    split_ifs at h with h1 h2
    · have hne : j ≠ i := by
        rintro rfl
        exact h2.1 hz
      exact ih (j + 1) _ k (by omega) h
    · simp only [Except.ok.injEq] at h
      omega
    · simp only [Except.ok.injEq] at h
      omega

theorem batt_loop_stop (pdo : Fin PDO_MAX_OBJECTS → Nat) (i : Nat)
    (hi : i < PDO_MAX_OBJECTS) (hz : pdo ⟨i, hi⟩ = 0) :
    ∀ (fuel j : Nat) (v w : Int) (k : Nat),
      j ≤ i → batt_loop pdo fuel j v w = .ok k → k ≤ i := by
  intro fuel
  induction fuel with
  | zero =>
    intro j v w k hj h
    simp only [batt_loop, Except.ok.injEq] at h
    omega
  | succ n ih =>
    intro j v w k hj h
    simp only [batt_loop] at h
    split_ifs at h with h1 h2
    · have hne : j ≠ i := by
        rintro rfl
        exact h2.1 hz
      exact ih (j + 1) _ _ k (by omega) h
    · simp only [Except.ok.injEq] at h
      omega
    · simp only [Except.ok.injEq] at h
      omega

theorem var_loop_stop (pdo : Fin PDO_MAX_OBJECTS → Nat) (i : Nat)
    (hi : i < PDO_MAX_OBJECTS) (hz : pdo ⟨i, hi⟩ = 0) :
    ∀ (fuel j : Nat) (v w : Int) (k : Nat),
      j ≤ i → var_loop pdo fuel j v w = .ok k → k ≤ i := by
  intro fuel
  induction fuel with
  | zero =>
    intro j v w k hj h
    simp only [var_loop, Except.ok.injEq] at h
    omega
  | succ n ih =>
    intro j v w k hj h
    simp only [var_loop] at h
    split_ifs at h with h1 h2
    · have hne : j ≠ i := by
        rintro rfl
        exact h2.1 hz
      exact ih (j + 1) _ _ k (by omega) h
    · simp only [Except.ok.injEq] at h
      omega
    · simp only [Except.ok.injEq] at h
      omega

theorem fixed_loop_congr (pdo pdo' : Fin PDO_MAX_OBJECTS → Nat) (i : Nat)
    (hi : i < PDO_MAX_OBJECTS) (hz : pdo ⟨i, hi⟩ = 0)
    (hagree : ∀ (m : Nat) (hm : m < PDO_MAX_OBJECTS), m ≤ i → pdo' ⟨m, hm⟩ = pdo ⟨m, hm⟩) :
    ∀ (fuel j : Nat) (v : Int), j ≤ i → fixed_loop pdo' fuel j v = fixed_loop pdo fuel j v := by
  intro fuel
  induction fuel with
  | zero => intro j v _; rfl
  | succ n ih =>
    intro j v hj
    simp only [fixed_loop]
    by_cases h1 : j < PDO_MAX_OBJECTS
    · rw [dif_pos h1, dif_pos h1, hagree j h1 hj]
      by_cases h2 : pdo ⟨j, h1⟩ ≠ 0 ∧ (pdo ⟨j, h1⟩ &&& PDO_TYPE_MASK) ≠ PDO_TYPE_FIXED
      · have hne : j ≠ i := by
          rintro rfl
          exact h2.1 hz
        rw [if_pos h2, if_pos h2, ih (j + 1) _ (by omega)]
      · rw [if_neg h2, if_neg h2]
    · rw [dif_neg h1, dif_neg h1]

theorem batt_loop_congr (pdo pdo' : Fin PDO_MAX_OBJECTS → Nat) (i : Nat)
    (hi : i < PDO_MAX_OBJECTS) (hz : pdo ⟨i, hi⟩ = 0)
    (hagree : ∀ (m : Nat) (hm : m < PDO_MAX_OBJECTS), m ≤ i → pdo' ⟨m, hm⟩ = pdo ⟨m, hm⟩) :
    ∀ (fuel j : Nat) (v w : Int), j ≤ i →
      batt_loop pdo' fuel j v w = batt_loop pdo fuel j v w := by
  intro fuel
  induction fuel with
  | zero => intro j v w _; rfl
  | succ n ih =>
    intro j v w hj
    simp only [batt_loop]
    by_cases h1 : j < PDO_MAX_OBJECTS
    · rw [dif_pos h1, dif_pos h1, hagree j h1 hj]
      by_cases h2 : pdo ⟨j, h1⟩ ≠ 0 ∧ (pdo ⟨j, h1⟩ &&& PDO_TYPE_MASK) ≠ PDO_TYPE_BATTERY
      · have hne : j ≠ i := by
          rintro rfl
          exact h2.1 hz
        rw [if_pos h2, if_pos h2, ih (j + 1) _ _ (by omega)]
      · rw [if_neg h2, if_neg h2]
    · rw [dif_neg h1, dif_neg h1]

theorem var_loop_congr (pdo pdo' : Fin PDO_MAX_OBJECTS → Nat) (i : Nat)
    (hi : i < PDO_MAX_OBJECTS) (hz : pdo ⟨i, hi⟩ = 0)
    (hagree : ∀ (m : Nat) (hm : m < PDO_MAX_OBJECTS), m ≤ i → pdo' ⟨m, hm⟩ = pdo ⟨m, hm⟩) :
    ∀ (fuel j : Nat) (v w : Int), j ≤ i →
      var_loop pdo' fuel j v w = var_loop pdo fuel j v w := by
  intro fuel
  induction fuel with
  | zero => intro j v w _; rfl
  | succ n ih =>
    intro j v w hj
    simp only [var_loop]
    by_cases h1 : j < PDO_MAX_OBJECTS
    · rw [dif_pos h1, dif_pos h1, hagree j h1 hj]
      by_cases h2 : pdo ⟨j, h1⟩ ≠ 0 ∧ (pdo ⟨j, h1⟩ &&& PDO_TYPE_MASK) ≠ PDO_TYPE_VARIABLE
      · have hne : j ≠ i := by
          rintro rfl
          exact h2.1 hz
        rw [if_pos h2, if_pos h2, ih (j + 1) _ _ (by omega)]
      · rw [if_neg h2, if_neg h2]
    · rw [dif_neg h1, dif_neg h1]

theorem zero_loop_after (pdo : Fin PDO_MAX_OBJECTS → Nat) (i : Nat)
    (hi : i < PDO_MAX_OBJECTS) (hnz : pdo ⟨i, hi⟩ ≠ 0) :
    ∀ (fuel k : Nat), k ≤ i → i < k + fuel →
      zero_loop pdo fuel k = TCPCI_SRC_EMUL_PDO_AFTER_ZERO := by
  intro fuel
  induction fuel with
  | zero => intro k hk hf; omega
  | succ n ih =>
    intro k hk hf
    have hk7 : k < PDO_MAX_OBJECTS := by omega
    simp only [zero_loop]
    rw [dif_pos hk7]
    by_cases h2 : pdo ⟨k, hk7⟩ ≠ 0
    · rw [if_pos h2]
    · rw [if_neg h2]
      have hne : k ≠ i := by
        rintro rfl
        exact h2 hnz
      exact ih (k + 1) (by omega) (by omega)

theorem zero_loop_codes (pdo : Fin PDO_MAX_OBJECTS → Nat) :
    ∀ (fuel i : Nat),
      zero_loop pdo fuel i = TCPCI_SRC_EMUL_CHECK_PDO_OK ∨
      zero_loop pdo fuel i = TCPCI_SRC_EMUL_PDO_AFTER_ZERO := by
  intro fuel
  induction fuel with
  | zero => intro i; exact Or.inl rfl
  | succ n ih =>
    intro i
    simp only [zero_loop]
    split_ifs
    · exact Or.inr rfl
    · exact ih _
    · exact Or.inl rfl

/-- With a zero at index `i` followed by a non-zero entry, a run of the
validator cannot end in `OK`, and it ends in `PDO_AFTER_ZERO` as soon as some
array that agrees with it up to index `i` is accepted. -/
theorem check_pdos_fuel_after_zero (pdo : Fin PDO_MAX_OBJECTS → Nat) (i : Nat)
    (h : i + 1 < PDO_MAX_OBJECTS) (hz : pdo ⟨i, by omega⟩ = 0) (hnz : pdo ⟨i + 1, h⟩ ≠ 0) :
    check_pdos_fuel PDO_MAX_OBJECTS pdo ≠ TCPCI_SRC_EMUL_CHECK_PDO_OK ∧
    ∀ pdo' : Fin PDO_MAX_OBJECTS → Nat,
      (∀ (m : Nat) (hm : m < PDO_MAX_OBJECTS), m ≤ i → pdo' ⟨m, hm⟩ = pdo ⟨m, hm⟩) →
      check_pdos_fuel PDO_MAX_OBJECTS pdo' = TCPCI_SRC_EMUL_CHECK_PDO_OK →
      check_pdos_fuel PDO_MAX_OBJECTS pdo = TCPCI_SRC_EMUL_PDO_AFTER_ZERO := by
  have hi : i < PDO_MAX_OBJECTS := by omega
  -- the outcome is an error code or `PDO_AFTER_ZERO`
  have key : ∀ pdo' : Fin PDO_MAX_OBJECTS → Nat,
      (∀ (m : Nat) (hm : m < PDO_MAX_OBJECTS), m ≤ i → pdo' ⟨m, hm⟩ = pdo ⟨m, hm⟩) →
      check_pdos_fuel PDO_MAX_OBJECTS pdo ≠ TCPCI_SRC_EMUL_CHECK_PDO_OK ∧
      (check_pdos_fuel PDO_MAX_OBJECTS pdo' = TCPCI_SRC_EMUL_CHECK_PDO_OK →
        check_pdos_fuel PDO_MAX_OBJECTS pdo = TCPCI_SRC_EMUL_PDO_AFTER_ZERO) := by
    intro pdo' hagree
    have h0 : pdo' 0 = pdo 0 := hagree 0 (by omega) (Nat.zero_le i)
    unfold check_pdos_fuel
    rw [h0]
    by_cases hc : (pdo 0 &&& PDO_TYPE_MASK) ≠ PDO_TYPE_FIXED ∨ PDO_FIXED_VOLTAGE (pdo 0) ≠ 5000
    · rw [if_pos hc, if_pos hc]
      exact ⟨by decide, fun hx => by cases hx⟩
    · rw [if_neg hc, if_neg hc]
      have hi1 : 1 ≤ i := by
        rcases Nat.eq_zero_or_pos i with hi0 | hpos
        · exfalso
          subst hi0
          apply hc
          right
          have : pdo 0 = 0 := hz
          rw [this]
          decide
        · exact hpos
      rw [fixed_loop_congr pdo pdo' i hi hz hagree PDO_MAX_OBJECTS 1 (-1) hi1]
      cases hF : fixed_loop pdo PDO_MAX_OBJECTS 1 (-1) with
      | error e =>
        exact ⟨fixed_loop_error_ne_ok pdo _ _ _ e hF,
          fun hx => absurd hx (fixed_loop_error_ne_ok pdo _ _ _ e hF)⟩
      | ok a =>
        have ha : a ≤ i := fixed_loop_stop pdo i hi hz _ _ _ a hi1 hF
        simp only
        rw [batt_loop_congr pdo pdo' i hi hz hagree PDO_MAX_OBJECTS a (-1) (-1) ha]
        cases hB : batt_loop pdo PDO_MAX_OBJECTS a (-1) (-1) with
        | error e =>
          exact ⟨batt_loop_error_ne_ok pdo _ _ _ _ e hB,
            fun hx => absurd hx (batt_loop_error_ne_ok pdo _ _ _ _ e hB)⟩
        | ok b =>
          have hb : b ≤ i := batt_loop_stop pdo i hi hz _ _ _ _ b ha hB
          simp only
          rw [var_loop_congr pdo pdo' i hi hz hagree PDO_MAX_OBJECTS b (-1) (-1) hb]
          cases hV : var_loop pdo PDO_MAX_OBJECTS b (-1) (-1) with
          | error e =>
            exact ⟨var_loop_error_ne_ok pdo _ _ _ _ e hV,
              fun hx => absurd hx (var_loop_error_ne_ok pdo _ _ _ _ e hV)⟩
          | ok c =>
            have hc' : c ≤ i := var_loop_stop pdo i hi hz _ _ _ _ c hb hV
            simp only
            have hZ := zero_loop_after pdo (i + 1) h hnz PDO_MAX_OBJECTS c (by omega) (by omega)
            rw [hZ]
            exact ⟨by decide, fun _ => rfl⟩
  exact ⟨(key pdo (fun _ _ _ => rfl)).1, fun pdo' hagree => (key pdo' hagree).2⟩

theorem take_length_takeWhile (p : Nat → Bool) (l : List Nat) :
    l.take (l.takeWhile p).length = l.takeWhile p := by
  induction l with
  | nil => rfl
  | cons x xs ih =>
    by_cases hx : p x = true
    · simp only [List.takeWhile_cons, hx, if_true, List.length_cons, List.take_succ_cons, ih]
    · simp only [List.takeWhile_cons, hx, List.length_nil, List.take_zero]
      rfl

theorem count_pdos_eq (pdo : Fin PDO_MAX_OBJECTS → Nat) :
    ∀ (fuel pdos : Nat), PDO_MAX_OBJECTS ≤ pdos + fuel → pdos ≤ PDO_MAX_OBJECTS →
      count_pdos pdo fuel pdos =
        pdos + (((List.ofFn pdo).drop pdos).takeWhile (fun p => decide (p ≠ 0))).length := by
  intro fuel
  induction fuel with
  | zero =>
    intro pdos h1 h2
    have hlen : (List.ofFn pdo).length ≤ pdos := by simp only [List.length_ofFn]; omega
    rw [List.drop_eq_nil_of_le hlen]
    rfl
  | succ n ih =>
    intro pdos h1 h2
    simp only [count_pdos]
    by_cases hlt : pdos < PDO_MAX_OBJECTS
    · rw [dif_pos hlt]
      have hlen : pdos < (List.ofFn pdo).length := by simp only [List.length_ofFn]; exact hlt
      rw [List.drop_eq_getElem_cons hlen, List.getElem_ofFn]
      by_cases hz : pdo ⟨pdos, hlt⟩ = 0
      · rw [if_pos hz]
        simp [List.takeWhile_cons, hz]
      · rw [if_neg hz, ih (pdos + 1) (by omega) (by omega)]
        simp [List.takeWhile_cons, hz]
        omega
    · rw [dif_neg hlt]
      have hlen : (List.ofFn pdo).length ≤ pdos := by simp only [List.length_ofFn]; omega
      rw [List.drop_eq_nil_of_le hlen]
      rfl

/-- The counter computed by `tcpci_src_emul_send_capability_msg` selects the
entries of the PDO array that precede its first zero entry. -/
theorem count_pdos_take (pdo : Fin PDO_MAX_OBJECTS → Nat) :
    (List.ofFn pdo).take (count_pdos pdo PDO_MAX_OBJECTS 0) =
      (List.ofFn pdo).takeWhile (fun p => decide (p ≠ 0)) := by
  rw [count_pdos_eq pdo PDO_MAX_OBJECTS 0 (by omega) (by omega), List.drop_zero, Nat.zero_add,
    take_length_takeWhile]

/-! ## Theorems on `tcpci_src_emul_check_pdos` -/

/-- C1, evaluated on the code. The list
`[Fixed 5 V, Fixed 9 V, Battery 9-12.8 V, Variable 9-12.8 V, 0, 0, 0]` is in
canonical order (first entry Fixed 5000 mV, one further Fixed entry with a
higher voltage and no first-PDO flag, one Battery entry, one Variable entry,
zero padding, every entry a 32-bit word), yet the validator returns
`PDO_AFTER_ZERO`; the canonical list `[Fixed 5 V, Battery 5-10 V, 0, ...]`
gets `FIXED_VOLT_REPEATED`. -/
theorem check_pdos_canonical_list_rejected :
    (∀ k, pdo_of_list [PDO_FIXED 5000 3000 0, PDO_FIXED 9000 3000 0,
      PDO_BATT 9000 12800 10000, PDO_VAR 9000 12800 1000] k < 2 ^ 32) ∧
    (PDO_FIXED 5000 3000 0 &&& PDO_TYPE_MASK) = PDO_TYPE_FIXED ∧
    PDO_FIXED_VOLTAGE (PDO_FIXED 5000 3000 0) = 5000 ∧
    (PDO_FIXED 9000 3000 0 &&& PDO_TYPE_MASK) = PDO_TYPE_FIXED ∧
    PDO_FIXED_VOLTAGE (PDO_FIXED 9000 3000 0) = 9000 ∧
    (PDO_FIXED 9000 3000 0 &&& PDO_FIXED_FLAGS_MASK) = 0 ∧
    (PDO_BATT 9000 12800 10000 &&& PDO_TYPE_MASK) = PDO_TYPE_BATTERY ∧
    (PDO_VAR 9000 12800 1000 &&& PDO_TYPE_MASK) = PDO_TYPE_VARIABLE ∧
    tcpci_src_emul_check_pdos (src_data [PDO_FIXED 5000 3000 0, PDO_FIXED 9000 3000 0,
      PDO_BATT 9000 12800 10000, PDO_VAR 9000 12800 1000]) =
      TCPCI_SRC_EMUL_PDO_AFTER_ZERO ∧
    (PDO_BATT 5000 10000 10000 &&& PDO_TYPE_MASK) = PDO_TYPE_BATTERY ∧
    tcpci_src_emul_check_pdos (src_data [PDO_FIXED 5000 3000 0, PDO_BATT 5000 10000 10000]) =
      TCPCI_SRC_EMUL_FIXED_VOLT_REPEATED := by
  decide

/-- C2. When entry 0 is not a Fixed-type PDO, or its voltage is not 5000 mV,
`tcpci_src_emul_check_pdos` returns `FIRST_PDO_NO_FIXED_5V`, whatever the
other six entries are. -/
theorem check_pdos_first_pdo_no_fixed_5v (data : tcpci_src_emul_data)
    (h : (data.pdo 0 &&& PDO_TYPE_MASK) ≠ PDO_TYPE_FIXED ∨
      PDO_FIXED_VOLTAGE (data.pdo 0) ≠ 5000) :
    tcpci_src_emul_check_pdos data = TCPCI_SRC_EMUL_FIRST_PDO_NO_FIXED_5V := by
  unfold tcpci_src_emul_check_pdos check_pdos_fuel
  rw [if_pos h]

/-- C2 at the list `[Fixed 9 V, Fixed 5 V, 0, ...]`, whose entry 0 is Fixed
but not at 5000 mV. -/
theorem check_pdos_first_pdo_no_fixed_5v_witness :
    ((src_data [PDO_FIXED 9000 3000 0, PDO_FIXED 5000 3000 0]).pdo 0 &&& PDO_TYPE_MASK ≠
        PDO_TYPE_FIXED ∨
      PDO_FIXED_VOLTAGE ((src_data [PDO_FIXED 9000 3000 0, PDO_FIXED 5000 3000 0]).pdo 0) ≠
        5000) ∧
    tcpci_src_emul_check_pdos (src_data [PDO_FIXED 9000 3000 0, PDO_FIXED 5000 3000 0]) =
      TCPCI_SRC_EMUL_FIRST_PDO_NO_FIXED_5V :=
  ⟨by decide, check_pdos_first_pdo_no_fixed_5v _ (by decide)⟩

/-- C3, evaluated on the code. With entry 0 Fixed 5000 mV, two adjacent
Fixed PDOs in decreasing order (15 V then 9 V, or 9 V then 5 V) get
`BATT_VOLT_NOT_IN_ORDER`, two equal ones (9 V, 9 V) get
`BATT_VOLT_REPEATED`, and a second Fixed 5000 mV entry is accepted: none of
these lists gets `FIXED_VOLT_NOT_IN_ORDER` or `FIXED_VOLT_REPEATED`. -/
theorem check_pdos_fixed_pair_result :
    tcpci_src_emul_check_pdos (src_data [PDO_FIXED 5000 3000 0, PDO_FIXED 15000 3000 0,
      PDO_FIXED 9000 3000 0]) = TCPCI_SRC_EMUL_BATT_VOLT_NOT_IN_ORDER ∧
    tcpci_src_emul_check_pdos (src_data [PDO_FIXED 5000 3000 0, PDO_FIXED 9000 3000 0,
      PDO_FIXED 9000 3000 0]) = TCPCI_SRC_EMUL_BATT_VOLT_REPEATED ∧
    tcpci_src_emul_check_pdos (src_data [PDO_FIXED 5000 3000 0, PDO_FIXED 9000 3000 0,
      PDO_FIXED 5000 3000 0]) = TCPCI_SRC_EMUL_BATT_VOLT_NOT_IN_ORDER ∧
    tcpci_src_emul_check_pdos (src_data [PDO_FIXED 5000 3000 0, PDO_FIXED 5000 3000 0]) =
      TCPCI_SRC_EMUL_CHECK_PDO_OK := by
  decide

/-- C5, evaluated on the code. With entry 0 Fixed 5000 mV, a second Fixed
entry at 9000 mV that sets the dual-role flag, the unconstrained-power flag,
the communications-capable flag or the data-swap flag is accepted: the
validator returns `OK`, not `NON_FIRST_PDO_FIXED_FLAGS`. -/
theorem check_pdos_fixed_flags_accepted :
    (PDO_FIXED 9000 3000 PDO_FIXED_DUAL_ROLE &&& PDO_TYPE_MASK) = PDO_TYPE_FIXED ∧
    PDO_FIXED_VOLTAGE (PDO_FIXED 9000 3000 PDO_FIXED_DUAL_ROLE) = 9000 ∧
    (PDO_FIXED 9000 3000 PDO_FIXED_DUAL_ROLE &&& PDO_FIXED_FLAGS_MASK) ≠ 0 ∧
    tcpci_src_emul_check_pdos (src_data [PDO_FIXED 5000 3000 0,
      PDO_FIXED 9000 3000 PDO_FIXED_DUAL_ROLE]) = TCPCI_SRC_EMUL_CHECK_PDO_OK ∧
    tcpci_src_emul_check_pdos (src_data [PDO_FIXED 5000 3000 0,
      PDO_FIXED 9000 3000 PDO_FIXED_UNCONSTRAINED]) = TCPCI_SRC_EMUL_CHECK_PDO_OK ∧
    tcpci_src_emul_check_pdos (src_data [PDO_FIXED 5000 3000 0,
      PDO_FIXED 9000 3000 PDO_FIXED_COMM_CAP]) = TCPCI_SRC_EMUL_CHECK_PDO_OK ∧
    tcpci_src_emul_check_pdos (src_data [PDO_FIXED 5000 3000 0,
      PDO_FIXED 9000 3000 PDO_FIXED_DATA_SWAP]) = TCPCI_SRC_EMUL_CHECK_PDO_OK := by
  decide

/-- C6, evaluated on the code. After a valid first PDO and a valid Fixed
block (one Fixed 9 V entry), two Battery entries with the same (min,max)
pair get `VAR_VOLT_REPEATED` and a Battery pair in decreasing order gets
`VAR_VOLT_NOT_IN_ORDER`; with an empty Fixed block the same two pairs get
`FIXED_VOLT_REPEATED` and `FIXED_VOLT_NOT_IN_ORDER`. None gets a `BATT_`
code. -/
theorem check_pdos_batt_pair_result :
    (PDO_BATT 9000 12800 10000 &&& PDO_TYPE_MASK) = PDO_TYPE_BATTERY ∧
    (PDO_BATT 8000 12800 10000 &&& PDO_TYPE_MASK) = PDO_TYPE_BATTERY ∧
    tcpci_src_emul_check_pdos (src_data [PDO_FIXED 5000 3000 0, PDO_FIXED 9000 3000 0,
      PDO_BATT 9000 12800 10000, PDO_BATT 9000 12800 10000]) =
      TCPCI_SRC_EMUL_VAR_VOLT_REPEATED ∧
    tcpci_src_emul_check_pdos (src_data [PDO_FIXED 5000 3000 0, PDO_FIXED 9000 3000 0,
      PDO_BATT 9000 12800 10000, PDO_BATT 8000 12800 10000]) =
      TCPCI_SRC_EMUL_VAR_VOLT_NOT_IN_ORDER ∧
    tcpci_src_emul_check_pdos (src_data [PDO_FIXED 5000 3000 0,
      PDO_BATT 9000 12800 10000, PDO_BATT 9000 12800 10000]) =
      TCPCI_SRC_EMUL_FIXED_VOLT_REPEATED ∧
    tcpci_src_emul_check_pdos (src_data [PDO_FIXED 5000 3000 0,
      PDO_BATT 9000 12800 10000, PDO_BATT 8000 12800 10000]) =
      TCPCI_SRC_EMUL_FIXED_VOLT_NOT_IN_ORDER := by
  decide

/-- C7, evaluated on the code. After a valid first PDO, a valid Fixed block
(one Fixed 9 V entry) and an empty Battery block, two Variable entries with
the same (min,max) pair get `BATT_VOLT_REPEATED` and a Variable pair in
decreasing order gets `BATT_VOLT_NOT_IN_ORDER`; with an empty Fixed block
the same two pairs get `FIXED_VOLT_REPEATED` and `FIXED_VOLT_NOT_IN_ORDER`.
None gets a `VAR_` code. -/
theorem check_pdos_var_pair_result :
    (PDO_VAR 9000 12800 1000 &&& PDO_TYPE_MASK) = PDO_TYPE_VARIABLE ∧
    (PDO_VAR 8000 12800 1000 &&& PDO_TYPE_MASK) = PDO_TYPE_VARIABLE ∧
    tcpci_src_emul_check_pdos (src_data [PDO_FIXED 5000 3000 0, PDO_FIXED 9000 3000 0,
      PDO_VAR 9000 12800 1000, PDO_VAR 9000 12800 1000]) =
      TCPCI_SRC_EMUL_BATT_VOLT_REPEATED ∧
    tcpci_src_emul_check_pdos (src_data [PDO_FIXED 5000 3000 0, PDO_FIXED 9000 3000 0,
      PDO_VAR 9000 12800 1000, PDO_VAR 8000 12800 1000]) =
      TCPCI_SRC_EMUL_BATT_VOLT_NOT_IN_ORDER ∧
    tcpci_src_emul_check_pdos (src_data [PDO_FIXED 5000 3000 0,
      PDO_VAR 9000 12800 1000, PDO_VAR 9000 12800 1000]) =
      TCPCI_SRC_EMUL_FIXED_VOLT_REPEATED ∧
    tcpci_src_emul_check_pdos (src_data [PDO_FIXED 5000 3000 0,
      PDO_VAR 9000 12800 1000, PDO_VAR 8000 12800 1000]) =
      TCPCI_SRC_EMUL_FIXED_VOLT_NOT_IN_ORDER := by
  decide

/-! ## Theorems on `tcpci_src_emul_transmit_op` -/

/-- C8. Whatever the partner state and the behaviour of the send routines,
an inbound SOP message whose header has a non-zero object count and type
Request makes `tcpci_src_emul_transmit_op` issue exactly two send requests,
in this order: Control(Accept) with delay 0, then Control(PS_RDY) with delay
15. -/
theorem transmit_op_request {σ : Type} (api : partner_api σ) (s : emul_run σ)
    (emul : Nat) (tx_msg : tcpci_emul_msg) (retry : Int)
    (hcnt : PD_HEADER_CNT (tx_header tx_msg) ≠ 0)
    (htype : PD_HEADER_TYPE (tx_header tx_msg) = PD_DATA_REQUEST) :
    send_requests (tcpci_src_emul_transmit_op api s emul tx_msg TCPCI_MSG_SOP retry).calls =
      send_requests s.calls ++
        [send_request.Control PD_CTRL_ACCEPT 0, send_request.Control PD_CTRL_PS_RDY 15] := by
  simp [tcpci_src_emul_transmit_op, hcnt, htype, call_send_control_msg,
    call_partner_msg_status, send_requests, emul_call.request, List.filterMap_append]

/-- C8 at the default PDO list and a Request message with one data object
(header bytes 0x42, 0x10). -/
theorem transmit_op_request_witness :
    PD_HEADER_CNT (tx_header (msg_of_bytes [0x42, 0x10, 0x2c, 0xb1, 0x04, 0x11])) ≠ 0 ∧
    PD_HEADER_TYPE (tx_header (msg_of_bytes [0x42, 0x10, 0x2c, 0xb1, 0x04, 0x11])) =
      PD_DATA_REQUEST ∧
    send_requests (tcpci_src_emul_transmit_op counting_api
        ⟨0, src_data [PDO_FIXED 5000 3000 PDO_FIXED_UNCONSTRAINED], []⟩ 0
        (msg_of_bytes [0x42, 0x10, 0x2c, 0xb1, 0x04, 0x11]) TCPCI_MSG_SOP 0).calls =
      send_requests [] ++
        [send_request.Control PD_CTRL_ACCEPT 0, send_request.Control PD_CTRL_PS_RDY 15] :=
  ⟨by decide, by decide, transmit_op_request counting_api _ 0 _ 0 (by decide) (by decide)⟩

/-- C9. Whatever the partner state and the behaviour of the send routines,
an inbound SOP Control(Soft_Reset) makes `tcpci_src_emul_transmit_op` issue
exactly two send requests, in this order: Control(Accept) with delay 0, then
Data(Source_Capabilities) with delay 15 whose data objects are the entries
of the PDO list before its first zero entry. -/
theorem transmit_op_soft_reset {σ : Type} (api : partner_api σ) (s : emul_run σ)
    (emul : Nat) (tx_msg : tcpci_emul_msg) (retry : Int)
    (hcnt : PD_HEADER_CNT (tx_header tx_msg) = 0)
    (htype : PD_HEADER_TYPE (tx_header tx_msg) = PD_CTRL_SOFT_RESET) :
    send_requests (tcpci_src_emul_transmit_op api s emul tx_msg TCPCI_MSG_SOP retry).calls =
      send_requests s.calls ++
        [send_request.Control PD_CTRL_ACCEPT 0,
         send_request.Data PD_DATA_SOURCE_CAP
           ((List.ofFn s.data.pdo).takeWhile (fun p => decide (p ≠ 0))) 15] := by
  have h1 : PD_CTRL_SOFT_RESET ≠ PD_CTRL_GET_SOURCE_CAP := by decide
  have h2 : PD_CTRL_SOFT_RESET ≠ PD_CTRL_GET_SINK_CAP := by decide
  have h3 : PD_CTRL_SOFT_RESET ≠ PD_CTRL_DR_SWAP := by decide
  rw [← count_pdos_take]
  simp [tcpci_src_emul_transmit_op, hcnt, htype, h1, h2, h3, call_send_control_msg,
    call_send_data_msg, tcpci_src_emul_send_capability_msg, call_partner_msg_status,
    send_requests, emul_call.request, List.filterMap_append]

/-- C9 at the list `[Fixed 5 V, Fixed 9 V, 0, ...]` and a Soft_Reset message
(header bytes 0x4d, 0x00). -/
theorem transmit_op_soft_reset_witness :
    PD_HEADER_CNT (tx_header (msg_of_bytes [0x4d, 0x00])) = 0 ∧
    PD_HEADER_TYPE (tx_header (msg_of_bytes [0x4d, 0x00])) = PD_CTRL_SOFT_RESET ∧
    send_requests (tcpci_src_emul_transmit_op counting_api
        ⟨0, src_data [PDO_FIXED 5000 3000 0, PDO_FIXED 9000 2000 0], []⟩ 0
        (msg_of_bytes [0x4d, 0x00]) TCPCI_MSG_SOP 0).calls =
      send_requests [] ++
        [send_request.Control PD_CTRL_ACCEPT 0,
         send_request.Data PD_DATA_SOURCE_CAP
           ((List.ofFn (src_data [PDO_FIXED 5000 3000 0, PDO_FIXED 9000 2000 0]).pdo).takeWhile
             (fun p => decide (p ≠ 0))) 15] :=
  ⟨by decide, by decide, transmit_op_soft_reset counting_api _ 0 _ 0 (by decide) (by decide)⟩

/-- C10. For every prior value of `msg_id`, on an inbound SOP
Control(Soft_Reset) the first call after the status report is the send of
Control(Accept) with delay 0, and the partner data handed to it has
`msg_id = 0` (its other fields as before): the counter is reset before any
response reaches a send routine. -/
theorem transmit_op_soft_reset_msg_id {σ : Type} (api : partner_api σ) (s : emul_run σ)
    (emul : Nat) (tx_msg : tcpci_emul_msg) (retry : Int)
    (hcnt : PD_HEADER_CNT (tx_header tx_msg) = 0)
    (htype : PD_HEADER_TYPE (tx_header tx_msg) = PD_CTRL_SOFT_RESET) :
    ∃ rest : List emul_call,
      (tcpci_src_emul_transmit_op api s emul tx_msg TCPCI_MSG_SOP retry).calls =
        s.calls ++
          (emul_call.partner_msg_status emul tcpci_emul_tx_status.TCPCI_EMUL_TX_SUCCESS ::
            emul_call.send_control_msg { s.data.common_data with msg_id := 0 }
              PD_CTRL_ACCEPT 0 :: rest) ∧
      send_requests rest ≠ [] := by
  have h1 : PD_CTRL_SOFT_RESET ≠ PD_CTRL_GET_SOURCE_CAP := by decide
  have h2 : PD_CTRL_SOFT_RESET ≠ PD_CTRL_GET_SINK_CAP := by decide
  have h3 : PD_CTRL_SOFT_RESET ≠ PD_CTRL_DR_SWAP := by decide
  refine ⟨[emul_call.send_data_msg
    (api.tcpci_partner_send_control_msg
      (api.tcpci_emul_partner_msg_status s.world emul
        tcpci_emul_tx_status.TCPCI_EMUL_TX_SUCCESS)
      { s.data.common_data with msg_id := 0 } PD_CTRL_ACCEPT 0).2.1
    PD_DATA_SOURCE_CAP s.data.pdo (count_pdos s.data.pdo PDO_MAX_OBJECTS 0) 15], ?_, ?_⟩
  · simp [tcpci_src_emul_transmit_op, hcnt, htype, h1, h2, h3, call_send_control_msg,
      call_send_data_msg, tcpci_src_emul_send_capability_msg, call_partner_msg_status]
  · simp [send_requests, emul_call.request]

/-- C10 at a partner whose `msg_id` is 5. -/
theorem transmit_op_soft_reset_msg_id_witness :
    PD_HEADER_CNT (tx_header (msg_of_bytes [0x4d, 0x00])) = 0 ∧
    PD_HEADER_TYPE (tx_header (msg_of_bytes [0x4d, 0x00])) = PD_CTRL_SOFT_RESET ∧
    ∃ rest : List emul_call,
      (tcpci_src_emul_transmit_op counting_api
          ⟨0, ⟨⟨some 0, 5, 0, 0, 0⟩, pdo_of_list [PDO_FIXED 5000 3000 0]⟩, []⟩ 0
          (msg_of_bytes [0x4d, 0x00]) TCPCI_MSG_SOP 0).calls =
        [] ++
          (emul_call.partner_msg_status 0 tcpci_emul_tx_status.TCPCI_EMUL_TX_SUCCESS ::
            emul_call.send_control_msg { (⟨some 0, 5, 0, 0, 0⟩ : tcpci_partner_data) with
              msg_id := 0 } PD_CTRL_ACCEPT 0 :: rest) ∧
      send_requests rest ≠ [] :=
  ⟨by decide, by decide, transmit_op_soft_reset_msg_id counting_api _ 0 _ 0 (by decide)
    (by decide)⟩

/-! ## Further theorems on `tcpci_src_emul_transmit_op` -/

/-- The send requests issued by `tcpci_src_emul_transmit_op` are a function of
the message type, the received header and the PDO array alone. -/
theorem transmit_op_requests {σ : Type} (api : partner_api σ) (s : emul_run σ)
    (emul : Nat) (tx_msg : tcpci_emul_msg) (type : Nat) (retry : Int) :
    send_requests (tcpci_src_emul_transmit_op api s emul tx_msg type retry).calls =
      send_requests s.calls ++
        (if type ≠ TCPCI_MSG_SOP then []
         else if PD_HEADER_CNT (tx_header tx_msg) ≠ 0 then
           if PD_HEADER_TYPE (tx_header tx_msg) = PD_DATA_REQUEST then
             [send_request.Control PD_CTRL_ACCEPT 0, send_request.Control PD_CTRL_PS_RDY 15]
           else if PD_HEADER_TYPE (tx_header tx_msg) = PD_DATA_VENDOR_DEF then []
           else [send_request.Control PD_CTRL_REJECT 0]
         else
           if PD_HEADER_TYPE (tx_header tx_msg) = PD_CTRL_GET_SOURCE_CAP then
             [send_request.Data PD_DATA_SOURCE_CAP
               ((List.ofFn s.data.pdo).take (count_pdos s.data.pdo PDO_MAX_OBJECTS 0)) 0]
           else if PD_HEADER_TYPE (tx_header tx_msg) = PD_CTRL_GET_SINK_CAP then
             [send_request.Control PD_CTRL_REJECT 0]
           else if PD_HEADER_TYPE (tx_header tx_msg) = PD_CTRL_DR_SWAP then
             [send_request.Control PD_CTRL_REJECT 0]
           else if PD_HEADER_TYPE (tx_header tx_msg) = PD_CTRL_SOFT_RESET then
             [send_request.Control PD_CTRL_ACCEPT 0,
              send_request.Data PD_DATA_SOURCE_CAP
               ((List.ofFn s.data.pdo).take (count_pdos s.data.pdo PDO_MAX_OBJECTS 0)) 15]
           else [send_request.Control PD_CTRL_REJECT 0]) := by
  unfold tcpci_src_emul_transmit_op
  simp only [send_requests, call_partner_msg_status, call_send_control_msg, call_send_data_msg,
    tcpci_src_emul_send_capability_msg]
  split_ifs <;>
    simp only [List.filterMap_append, List.filterMap_cons, List.filterMap_nil,
      emul_call.request, List.append_assoc, List.append_nil, List.nil_append,
      List.singleton_append, List.cons_append]

/-- C11. For every PDO list, an inbound SOP Control(Get_Source_Cap) makes
`tcpci_src_emul_transmit_op` issue exactly one send request,
Data(Source_Capabilities) with delay 0, whose data objects are, in order,
the entries of the PDO list before its first zero entry: all 7 entries when
none is zero, and exactly the 2 entries Fixed(5000,3000), Fixed(9000,2000)
for the list `[Fixed(5000,3000), Fixed(9000,2000), 0, 0, 0, 0, 0]`. -/
theorem transmit_op_get_source_cap {σ : Type} (api : partner_api σ) (s : emul_run σ)
    (emul : Nat) (tx_msg : tcpci_emul_msg) (retry : Int)
    (hcnt : PD_HEADER_CNT (tx_header tx_msg) = 0)
    (htype : PD_HEADER_TYPE (tx_header tx_msg) = PD_CTRL_GET_SOURCE_CAP) :
    send_requests (tcpci_src_emul_transmit_op api s emul tx_msg TCPCI_MSG_SOP retry).calls =
      send_requests s.calls ++
        [send_request.Data PD_DATA_SOURCE_CAP
           ((List.ofFn s.data.pdo).takeWhile (fun p => decide (p ≠ 0))) 0] ∧
    ((∀ k, s.data.pdo k ≠ 0) →
      (List.ofFn s.data.pdo).takeWhile (fun p => decide (p ≠ 0)) = List.ofFn s.data.pdo ∧
      ((List.ofFn s.data.pdo).takeWhile (fun p => decide (p ≠ 0))).length = 7) ∧
    (s.data.pdo = pdo_of_list [PDO_FIXED 5000 3000 0, PDO_FIXED 9000 2000 0] →
      (List.ofFn s.data.pdo).takeWhile (fun p => decide (p ≠ 0)) =
        [PDO_FIXED 5000 3000 0, PDO_FIXED 9000 2000 0] ∧
      ((List.ofFn s.data.pdo).takeWhile (fun p => decide (p ≠ 0))).length = 2) := by
  refine ⟨?_, ?_, ?_⟩
  · rw [transmit_op_requests, ← count_pdos_take]
    simp only [ne_eq, not_true_eq_false, if_false, hcnt, htype, if_true]
  · intro hall
    have hself : (List.ofFn s.data.pdo).takeWhile (fun p => decide (p ≠ 0)) =
        List.ofFn s.data.pdo := by
      rw [List.takeWhile_eq_self_iff]
      intro x hx
      rw [List.mem_ofFn] at hx
      obtain ⟨k, rfl⟩ := hx
      simpa using hall k
    rw [hself]
    exact ⟨rfl, List.length_ofFn _⟩
  · intro hpdo
    rw [hpdo]
    decide

/-- C11 at the list `[Fixed(5000,3000), Fixed(9000,2000), 0, 0, 0, 0, 0]` and
a Get_Source_Cap message (header bytes 0x47, 0x00): one Source_Capabilities
request with 2 data objects and delay 0. -/
theorem transmit_op_get_source_cap_witness :
    PD_HEADER_CNT (tx_header (msg_of_bytes [0x47, 0x00])) = 0 ∧
    PD_HEADER_TYPE (tx_header (msg_of_bytes [0x47, 0x00])) = PD_CTRL_GET_SOURCE_CAP ∧
    send_requests (tcpci_src_emul_transmit_op counting_api
        ⟨0, src_data [PDO_FIXED 5000 3000 0, PDO_FIXED 9000 2000 0], []⟩ 0
        (msg_of_bytes [0x47, 0x00]) TCPCI_MSG_SOP 0).calls =
      send_requests [] ++
        [send_request.Data PD_DATA_SOURCE_CAP
           ((List.ofFn (src_data [PDO_FIXED 5000 3000 0, PDO_FIXED 9000 2000 0]).pdo).takeWhile
             (fun p => decide (p ≠ 0))) 0] ∧
    ((List.ofFn (src_data [PDO_FIXED 5000 3000 0, PDO_FIXED 9000 2000 0]).pdo).takeWhile
      (fun p => decide (p ≠ 0))).length = 2 :=
  ⟨by decide, by decide,
    (transmit_op_get_source_cap counting_api
      ⟨0, src_data [PDO_FIXED 5000 3000 0, PDO_FIXED 9000 2000 0], []⟩ 0
      (msg_of_bytes [0x47, 0x00]) 0 (by decide) (by decide)).1,
    ((transmit_op_get_source_cap counting_api
      ⟨0, src_data [PDO_FIXED 5000 3000 0, PDO_FIXED 9000 2000 0], []⟩ 0
      (msg_of_bytes [0x47, 0x00]) 0 (by decide) (by decide)).2.2 rfl).2⟩

/-- C12. For every partner state, an inbound SOP data message of type
Vendor-Defined is ignored: `tcpci_src_emul_transmit_op` only reports the
transmit status, issues no send request and leaves the emulator structure
(msg_id, roles, revision, handle, PDO list) as it was. -/
theorem transmit_op_vendor_def {σ : Type} (api : partner_api σ) (s : emul_run σ)
    (emul : Nat) (tx_msg : tcpci_emul_msg) (retry : Int)
    (hcnt : PD_HEADER_CNT (tx_header tx_msg) ≠ 0)
    (htype : PD_HEADER_TYPE (tx_header tx_msg) = PD_DATA_VENDOR_DEF) :
    (tcpci_src_emul_transmit_op api s emul tx_msg TCPCI_MSG_SOP retry).data = s.data ∧
    (tcpci_src_emul_transmit_op api s emul tx_msg TCPCI_MSG_SOP retry).calls =
      s.calls ++
        [emul_call.partner_msg_status emul tcpci_emul_tx_status.TCPCI_EMUL_TX_SUCCESS] ∧
    send_requests (tcpci_src_emul_transmit_op api s emul tx_msg TCPCI_MSG_SOP retry).calls =
      send_requests s.calls := by
  have h1 : PD_DATA_VENDOR_DEF ≠ PD_DATA_REQUEST := by decide
  refine ⟨?_, ?_, ?_⟩
  · simp [tcpci_src_emul_transmit_op, hcnt, htype, h1, call_partner_msg_status]
  · simp [tcpci_src_emul_transmit_op, hcnt, htype, h1, call_partner_msg_status]
  · rw [transmit_op_requests]
    simp [hcnt, htype, h1]

/-- C12 at a Vendor-Defined message with one data object (header bytes 0x4f,
0x10). -/
theorem transmit_op_vendor_def_witness :
    PD_HEADER_CNT (tx_header (msg_of_bytes [0x4f, 0x10, 0x01, 0x80, 0x00, 0xff])) ≠ 0 ∧
    PD_HEADER_TYPE (tx_header (msg_of_bytes [0x4f, 0x10, 0x01, 0x80, 0x00, 0xff])) =
      PD_DATA_VENDOR_DEF ∧
    (tcpci_src_emul_transmit_op counting_api
        ⟨0, src_data [PDO_FIXED 5000 3000 PDO_FIXED_UNCONSTRAINED], []⟩ 0
        (msg_of_bytes [0x4f, 0x10, 0x01, 0x80, 0x00, 0xff]) TCPCI_MSG_SOP 0).data =
      src_data [PDO_FIXED 5000 3000 PDO_FIXED_UNCONSTRAINED] ∧
    send_requests (tcpci_src_emul_transmit_op counting_api
        ⟨0, src_data [PDO_FIXED 5000 3000 PDO_FIXED_UNCONSTRAINED], []⟩ 0
        (msg_of_bytes [0x4f, 0x10, 0x01, 0x80, 0x00, 0xff]) TCPCI_MSG_SOP 0).calls =
      send_requests [] :=
  ⟨by decide, by decide,
    (transmit_op_vendor_def counting_api
      ⟨0, src_data [PDO_FIXED 5000 3000 PDO_FIXED_UNCONSTRAINED], []⟩ 0
      (msg_of_bytes [0x4f, 0x10, 0x01, 0x80, 0x00, 0xff]) 0 (by decide) (by decide)).1,
    (transmit_op_vendor_def counting_api
      ⟨0, src_data [PDO_FIXED 5000 3000 PDO_FIXED_UNCONSTRAINED], []⟩ 0
      (msg_of_bytes [0x4f, 0x10, 0x01, 0x80, 0x00, 0xff]) 0 (by decide) (by decide)).2.2⟩

/-- C13. Every inbound SOP message that is not Data(Request),
Data(Vendor-Defined), Control(Get_Source_Cap) or Control(Soft_Reset), that
is, every other data message and every other control message, among them
Get_Sink_Cap and DR_Swap, makes `tcpci_src_emul_transmit_op` issue exactly
one send request, Control(Reject) with delay 0. -/
theorem transmit_op_reject {σ : Type} (api : partner_api σ) (s : emul_run σ)
    (emul : Nat) (tx_msg : tcpci_emul_msg) (retry : Int)
    (hdata : PD_HEADER_CNT (tx_header tx_msg) ≠ 0 →
      PD_HEADER_TYPE (tx_header tx_msg) ≠ PD_DATA_REQUEST ∧
      PD_HEADER_TYPE (tx_header tx_msg) ≠ PD_DATA_VENDOR_DEF)
    (hctrl : PD_HEADER_CNT (tx_header tx_msg) = 0 →
      PD_HEADER_TYPE (tx_header tx_msg) ≠ PD_CTRL_GET_SOURCE_CAP ∧
      PD_HEADER_TYPE (tx_header tx_msg) ≠ PD_CTRL_SOFT_RESET) :
    send_requests (tcpci_src_emul_transmit_op api s emul tx_msg TCPCI_MSG_SOP retry).calls =
      send_requests s.calls ++ [send_request.Control PD_CTRL_REJECT 0] := by
  rw [transmit_op_requests]
  by_cases hcnt : PD_HEADER_CNT (tx_header tx_msg) = 0
  · obtain ⟨h1, h2⟩ := hctrl hcnt
    simp only [ne_eq, not_true_eq_false, if_false, hcnt, h1, h2]
    split_ifs <;> rfl
  · obtain ⟨h1, h2⟩ := hdata hcnt
    simp only [ne_eq, not_true_eq_false, if_false, hcnt, not_false_eq_true, if_true, h1, h2]

/-- C13 at a DR_Swap message (0x49, 0x00), a Get_Sink_Cap message (0x48,
0x00), a control message of type PR_Swap (0x4a, 0x00) and a data message of
type Sink_Capabilities with one object (0x44, 0x10). -/
theorem transmit_op_reject_witness :
    send_requests (tcpci_src_emul_transmit_op counting_api
        ⟨0, src_data [PDO_FIXED 5000 3000 0], []⟩ 0
        (msg_of_bytes [0x49, 0x00]) TCPCI_MSG_SOP 0).calls =
      send_requests [] ++ [send_request.Control PD_CTRL_REJECT 0] ∧
    send_requests (tcpci_src_emul_transmit_op counting_api
        ⟨0, src_data [PDO_FIXED 5000 3000 0], []⟩ 0
        (msg_of_bytes [0x48, 0x00]) TCPCI_MSG_SOP 0).calls =
      send_requests [] ++ [send_request.Control PD_CTRL_REJECT 0] ∧
    send_requests (tcpci_src_emul_transmit_op counting_api
        ⟨0, src_data [PDO_FIXED 5000 3000 0], []⟩ 0
        (msg_of_bytes [0x4a, 0x00]) TCPCI_MSG_SOP 0).calls =
      send_requests [] ++ [send_request.Control PD_CTRL_REJECT 0] ∧
    send_requests (tcpci_src_emul_transmit_op counting_api
        ⟨0, src_data [PDO_FIXED 5000 3000 0], []⟩ 0
        (msg_of_bytes [0x44, 0x10, 0x2c, 0x91, 0x01, 0x00]) TCPCI_MSG_SOP 0).calls =
      send_requests [] ++ [send_request.Control PD_CTRL_REJECT 0] :=
  ⟨transmit_op_reject counting_api _ 0 (msg_of_bytes [0x49, 0x00]) 0 (by decide) (by decide),
    transmit_op_reject counting_api _ 0 (msg_of_bytes [0x48, 0x00]) 0 (by decide) (by decide),
    transmit_op_reject counting_api _ 0 (msg_of_bytes [0x4a, 0x00]) 0 (by decide) (by decide),
    transmit_op_reject counting_api _ 0 (msg_of_bytes [0x44, 0x10, 0x2c, 0x91, 0x01, 0x00]) 0
      (by decide) (by decide)⟩

/-! ## Theorems on `tcpci_src_emul_connect_to_tcpci` and `tcpci_src_emul_init` -/

/-- C14. When `tcpci_emul_connect_partner` returns a non-zero code,
`tcpci_src_emul_connect_to_tcpci` returns that code, issues no send request
(no Source_Capabilities message), and leaves the emulator structure,
transport handle included, as it was; the only calls made are the
registration of the partner operations and the failed registration of the
partner. -/
theorem connect_to_tcpci_failure {σ : Type} (sapi : setup_api σ) (api : partner_api σ)
    (s : emul_run σ) (tcpci_emul : Nat)
    (hec : (sapi.tcpci_emul_connect_partner
      (sapi.tcpci_emul_set_partner_ops s.world tcpci_emul) tcpci_emul PD_ROLE_SOURCE
      tcpc_cc_voltage_status.TYPEC_CC_VOLT_RP_3_0 tcpc_cc_voltage_status.TYPEC_CC_VOLT_OPEN
      tcpc_cc_polarity.POLARITY_CC1).2 ≠ 0) :
    (tcpci_src_emul_connect_to_tcpci sapi api s tcpci_emul).2 =
      (sapi.tcpci_emul_connect_partner
        (sapi.tcpci_emul_set_partner_ops s.world tcpci_emul) tcpci_emul PD_ROLE_SOURCE
        tcpc_cc_voltage_status.TYPEC_CC_VOLT_RP_3_0 tcpc_cc_voltage_status.TYPEC_CC_VOLT_OPEN
        tcpc_cc_polarity.POLARITY_CC1).2 ∧
    (tcpci_src_emul_connect_to_tcpci sapi api s tcpci_emul).1.data = s.data ∧
    send_requests (tcpci_src_emul_connect_to_tcpci sapi api s tcpci_emul).1.calls =
      send_requests s.calls ∧
    (tcpci_src_emul_connect_to_tcpci sapi api s tcpci_emul).1.calls =
      s.calls ++
        [emul_call.set_partner_ops tcpci_emul,
         emul_call.connect_partner tcpci_emul PD_ROLE_SOURCE
           tcpc_cc_voltage_status.TYPEC_CC_VOLT_RP_3_0
           tcpc_cc_voltage_status.TYPEC_CC_VOLT_OPEN tcpc_cc_polarity.POLARITY_CC1] := by
  simp [tcpci_src_emul_connect_to_tcpci, call_set_partner_ops, call_connect_partner, hec,
    send_requests, emul_call.request, List.filterMap_append]

/-- C14 at a transport whose registration fails with -22 and a partner
without a handle. -/
theorem connect_to_tcpci_failure_witness :
    ((counting_setup (-22)).tcpci_emul_connect_partner
      ((counting_setup (-22)).tcpci_emul_set_partner_ops (0 : Nat) 7) 7 PD_ROLE_SOURCE
      tcpc_cc_voltage_status.TYPEC_CC_VOLT_RP_3_0 tcpc_cc_voltage_status.TYPEC_CC_VOLT_OPEN
      tcpc_cc_polarity.POLARITY_CC1).2 ≠ 0 ∧
    (tcpci_src_emul_connect_to_tcpci (counting_setup (-22)) counting_api
      ⟨0, src_data [PDO_FIXED 5000 3000 PDO_FIXED_UNCONSTRAINED], []⟩ 7).2 = -22 ∧
    (tcpci_src_emul_connect_to_tcpci (counting_setup (-22)) counting_api
      ⟨0, src_data [PDO_FIXED 5000 3000 PDO_FIXED_UNCONSTRAINED], []⟩ 7).1.data =
      src_data [PDO_FIXED 5000 3000 PDO_FIXED_UNCONSTRAINED] ∧
    send_requests (tcpci_src_emul_connect_to_tcpci (counting_setup (-22)) counting_api
      ⟨0, src_data [PDO_FIXED 5000 3000 PDO_FIXED_UNCONSTRAINED], []⟩ 7).1.calls =
      send_requests [] :=
  ⟨by decide,
    (connect_to_tcpci_failure (counting_setup (-22)) counting_api
      ⟨0, src_data [PDO_FIXED 5000 3000 PDO_FIXED_UNCONSTRAINED], []⟩ 7 (by decide)).1,
    (connect_to_tcpci_failure (counting_setup (-22)) counting_api
      ⟨0, src_data [PDO_FIXED 5000 3000 PDO_FIXED_UNCONSTRAINED], []⟩ 7 (by decide)).2.1,
    (connect_to_tcpci_failure (counting_setup (-22)) counting_api
      ⟨0, src_data [PDO_FIXED 5000 3000 PDO_FIXED_UNCONSTRAINED], []⟩ 7 (by decide)).2.2.1⟩

/-- C15. When `tcpci_emul_connect_partner` returns 0,
`tcpci_src_emul_connect_to_tcpci` has registered the partner operations and
then the partner as a source with Rp 3.0 A on CC1 and CC2 open, records the
transport handle in the partner data, then makes exactly one send call,
Data(Source_Capabilities) with delay 0 over the current PDO list (its data
objects are the entries before the first zero), and returns the result of
that send. -/
theorem connect_to_tcpci_success {σ : Type} (sapi : setup_api σ) (api : partner_api σ)
    (s : emul_run σ) (tcpci_emul : Nat)
    (hec : (sapi.tcpci_emul_connect_partner
      (sapi.tcpci_emul_set_partner_ops s.world tcpci_emul) tcpci_emul PD_ROLE_SOURCE
      tcpc_cc_voltage_status.TYPEC_CC_VOLT_RP_3_0 tcpc_cc_voltage_status.TYPEC_CC_VOLT_OPEN
      tcpc_cc_polarity.POLARITY_CC1).2 = 0) :
    (tcpci_src_emul_connect_to_tcpci sapi api s tcpci_emul).1.calls =
      s.calls ++
        [emul_call.set_partner_ops tcpci_emul,
         emul_call.connect_partner tcpci_emul PD_ROLE_SOURCE
           tcpc_cc_voltage_status.TYPEC_CC_VOLT_RP_3_0
           tcpc_cc_voltage_status.TYPEC_CC_VOLT_OPEN tcpc_cc_polarity.POLARITY_CC1,
         emul_call.send_data_msg { s.data.common_data with tcpci_emul := some tcpci_emul }
           PD_DATA_SOURCE_CAP s.data.pdo (count_pdos s.data.pdo PDO_MAX_OBJECTS 0) 0] ∧
    send_requests (tcpci_src_emul_connect_to_tcpci sapi api s tcpci_emul).1.calls =
      send_requests s.calls ++
        [send_request.Data PD_DATA_SOURCE_CAP
           ((List.ofFn s.data.pdo).takeWhile (fun p => decide (p ≠ 0))) 0] ∧
    (tcpci_src_emul_connect_to_tcpci sapi api s tcpci_emul).2 =
      (api.tcpci_partner_send_data_msg
        (sapi.tcpci_emul_connect_partner
          (sapi.tcpci_emul_set_partner_ops s.world tcpci_emul) tcpci_emul PD_ROLE_SOURCE
          tcpc_cc_voltage_status.TYPEC_CC_VOLT_RP_3_0
          tcpc_cc_voltage_status.TYPEC_CC_VOLT_OPEN tcpc_cc_polarity.POLARITY_CC1).1
        { s.data.common_data with tcpci_emul := some tcpci_emul }
        PD_DATA_SOURCE_CAP s.data.pdo (count_pdos s.data.pdo PDO_MAX_OBJECTS 0) 0).2.2 ∧
    (tcpci_src_emul_connect_to_tcpci sapi api s tcpci_emul).1.data.pdo = s.data.pdo := by
  rw [← count_pdos_take]
  simp [tcpci_src_emul_connect_to_tcpci, call_set_partner_ops, call_connect_partner, hec,
    tcpci_src_emul_send_capability_msg, call_send_data_msg,
    send_requests, emul_call.request, List.filterMap_append]

/-- C15 on the structure produced by `tcpci_src_emul_init`, with a transport
whose registration succeeds, once with sends that succeed (result 0) and
once with sends that fail (result -12). -/
theorem connect_to_tcpci_success_witness :
    send_requests (tcpci_src_emul_connect_to_tcpci (counting_setup 0) counting_api
      (tcpci_src_emul_init (counting_setup 0) ⟨0, src_data [], []⟩) 7).1.calls =
      send_requests (tcpci_src_emul_init (counting_setup 0) ⟨0, src_data [], []⟩).calls ++
        [send_request.Data PD_DATA_SOURCE_CAP
           ((List.ofFn (tcpci_src_emul_init (counting_setup 0)
             ⟨0, src_data [], []⟩).data.pdo).takeWhile (fun p => decide (p ≠ 0))) 0] ∧
    (tcpci_src_emul_connect_to_tcpci (counting_setup 0) counting_api
      (tcpci_src_emul_init (counting_setup 0) ⟨0, src_data [], []⟩) 7).2 = 0 ∧
    (tcpci_src_emul_connect_to_tcpci (counting_setup 0) failing_api
      (tcpci_src_emul_init (counting_setup 0) ⟨0, src_data [], []⟩) 7).2 = -12 :=
  ⟨(connect_to_tcpci_success (counting_setup 0) counting_api
      (tcpci_src_emul_init (counting_setup 0) ⟨0, src_data [], []⟩) 7 (by decide)).2.1,
    (connect_to_tcpci_success (counting_setup 0) counting_api
      (tcpci_src_emul_init (counting_setup 0) ⟨0, src_data [], []⟩) 7 (by decide)).2.2.1,
    (connect_to_tcpci_success (counting_setup 0) failing_api
      (tcpci_src_emul_init (counting_setup 0) ⟨0, src_data [], []⟩) 7 (by decide)).2.2.1⟩

theorem init_pdo_loop_eq :
    ∀ (fuel i : Nat) (pdo : Fin PDO_MAX_OBJECTS → Nat), PDO_MAX_OBJECTS ≤ i + fuel →
      ∀ k : Fin PDO_MAX_OBJECTS,
        init_pdo_loop pdo fuel i k = if i ≤ k.val then 0 else pdo k := by
  intro fuel
  induction fuel with
  | zero =>
    intro i pdo h k
    have hk : ¬ i ≤ k.val := by have := k.isLt; omega
    rw [if_neg hk]
    rfl
  | succ n ih =>
    intro i pdo h k
    simp only [init_pdo_loop]
    by_cases hi : i < PDO_MAX_OBJECTS
    · rw [dif_pos hi, ih (i + 1) _ (by omega) k]
      by_cases h1 : i + 1 ≤ k.val
      · rw [if_pos h1, if_pos (by omega)]
      · rw [if_neg h1]
        by_cases h2 : i ≤ k.val
        · have hki : k = ⟨i, hi⟩ := Fin.ext (by simp only; omega)
          rw [if_pos h2]
          simp only [pdo_set, hki, if_true]
        · rw [if_neg h2]
          have hki : k ≠ ⟨i, hi⟩ := by
            intro hx
            apply h2
            rw [hx]
          simp only [pdo_set, hki, if_false]
    · rw [dif_neg hi]
      have hk : ¬ i ≤ k.val := by have := k.isLt; omega
      rw [if_neg hk]

/-- The PDO array written by `tcpci_src_emul_init`, whatever it held before. -/
theorem init_pdo_eq (pdo : Fin PDO_MAX_OBJECTS → Nat) :
    init_pdo_loop (pdo_set pdo 0 (PDO_FIXED 5000 3000 PDO_FIXED_UNCONSTRAINED))
        PDO_MAX_OBJECTS 1 =
      pdo_of_list [PDO_FIXED 5000 3000 PDO_FIXED_UNCONSTRAINED] := by
  funext k
  rw [init_pdo_loop_eq _ _ _ (by omega)]
  by_cases hk : 1 ≤ k.val
  · rw [if_pos hk]
    obtain ⟨n, hn⟩ := k
    cases n with
    | zero => simp at hk
    | succ m => simp [pdo_of_list]
  · rw [if_neg hk]
    have hk0 : k = 0 := Fin.ext (by simp only [Fin.val_zero]; omega)
    subst hk0
    simp [pdo_set, pdo_of_list]

/-- C16. For every prior content of the emulator structure and every
behaviour of `tcpci_partner_init`, after `tcpci_src_emul_init` the power
role is SOURCE, the data role is UFP, the revision is PD_REV20, and the PDO
list is `PDO_FIXED(5000, 3000, PDO_FIXED_UNCONSTRAINED)`, a Fixed PDO at
5000 mV and 3000 mA, in entry 0 followed by six zero entries. -/
theorem init_result {σ : Type} (sapi : setup_api σ) (s : emul_run σ) :
    (tcpci_src_emul_init sapi s).data.common_data.power_role = PD_ROLE_SOURCE ∧
    (tcpci_src_emul_init sapi s).data.common_data.data_role = PD_ROLE_UFP ∧
    (tcpci_src_emul_init sapi s).data.common_data.rev = PD_REV20 ∧
    (tcpci_src_emul_init sapi s).data.pdo =
      pdo_of_list [PDO_FIXED 5000 3000 PDO_FIXED_UNCONSTRAINED] ∧
    ((tcpci_src_emul_init sapi s).data.pdo 0 &&& PDO_TYPE_MASK) = PDO_TYPE_FIXED ∧
    PDO_FIXED_VOLTAGE ((tcpci_src_emul_init sapi s).data.pdo 0) = 5000 ∧
    ((tcpci_src_emul_init sapi s).data.pdo 0 &&& 0x3FF) * 10 = 3000 ∧
    (∀ k : Fin PDO_MAX_OBJECTS, k ≠ 0 → (tcpci_src_emul_init sapi s).data.pdo k = 0) := by
  have hpdo : (tcpci_src_emul_init sapi s).data.pdo =
      pdo_of_list [PDO_FIXED 5000 3000 PDO_FIXED_UNCONSTRAINED] := by
    simp only [tcpci_src_emul_init, call_partner_init]
    exact init_pdo_eq _
  refine ⟨rfl, rfl, rfl, hpdo, ?_, ?_, ?_, ?_⟩
  · rw [hpdo]; decide
  · rw [hpdo]; decide
  · rw [hpdo]; decide
  · rw [hpdo]; decide

/-! ## Frame and failure properties of `tcpci_src_emul_transmit_op` -/

/-- C17. For every inbound message of every SOP type,
`tcpci_src_emul_transmit_op` leaves the power role, the data role, the
revision and the PDO list as they were, given that the send routines do not
write the role and revision fields of the partner data; the function itself
writes only `msg_id`. -/
theorem transmit_op_roles_pdo_unchanged {σ : Type} (api : partner_api σ) (s : emul_run σ)
    (emul : Nat) (tx_msg : tcpci_emul_msg) (type : Nat) (retry : Int)
    (hk : api_keeps_roles api) :
    (tcpci_src_emul_transmit_op api s emul tx_msg type retry).data.common_data.power_role =
      s.data.common_data.power_role ∧
    (tcpci_src_emul_transmit_op api s emul tx_msg type retry).data.common_data.data_role =
      s.data.common_data.data_role ∧
    (tcpci_src_emul_transmit_op api s emul tx_msg type retry).data.common_data.rev =
      s.data.common_data.rev ∧
    (tcpci_src_emul_transmit_op api s emul tx_msg type retry).data.pdo = s.data.pdo := by
  obtain ⟨hc, hd⟩ := hk
  have hc1 := fun w cd t d => (hc w cd t d).1
  have hc2 := fun w cd t d => (hc w cd t d).2.1
  have hc3 := fun w cd t d => (hc w cd t d).2.2
  have hd1 := fun w cd t o n d => (hd w cd t o n d).1
  have hd2 := fun w cd t o n d => (hd w cd t o n d).2.1
  have hd3 := fun w cd t o n d => (hd w cd t o n d).2.2
  unfold tcpci_src_emul_transmit_op
  simp only [call_partner_msg_status, call_send_control_msg, call_send_data_msg,
    tcpci_src_emul_send_capability_msg]
  split_ifs <;> simp only [hc1, hc2, hc3, hd1, hd2, hd3, and_self]

/-- C17 with the example message layer, whose sends advance `msg_id` only, at
a Soft_Reset message. -/
theorem transmit_op_roles_pdo_unchanged_witness :
    api_keeps_roles counting_api ∧
    (tcpci_src_emul_transmit_op counting_api
        ⟨0, ⟨⟨some 7, 5, PD_ROLE_SOURCE, PD_ROLE_UFP, PD_REV20⟩,
          pdo_of_list [PDO_FIXED 5000 3000 0]⟩, []⟩ 7
        (msg_of_bytes [0x4d, 0x00]) TCPCI_MSG_SOP 0).data.common_data.power_role =
      PD_ROLE_SOURCE ∧
    (tcpci_src_emul_transmit_op counting_api
        ⟨0, ⟨⟨some 7, 5, PD_ROLE_SOURCE, PD_ROLE_UFP, PD_REV20⟩,
          pdo_of_list [PDO_FIXED 5000 3000 0]⟩, []⟩ 7
        (msg_of_bytes [0x4d, 0x00]) TCPCI_MSG_SOP 0).data.pdo =
      pdo_of_list [PDO_FIXED 5000 3000 0] :=
  ⟨⟨fun _ _ _ _ => ⟨rfl, rfl, rfl⟩, fun _ _ _ _ _ _ => ⟨rfl, rfl, rfl⟩⟩,
    (transmit_op_roles_pdo_unchanged counting_api
      ⟨0, ⟨⟨some 7, 5, PD_ROLE_SOURCE, PD_ROLE_UFP, PD_REV20⟩,
        pdo_of_list [PDO_FIXED 5000 3000 0]⟩, []⟩ 7
      (msg_of_bytes [0x4d, 0x00]) TCPCI_MSG_SOP 0
      ⟨fun _ _ _ _ => ⟨rfl, rfl, rfl⟩, fun _ _ _ _ _ _ => ⟨rfl, rfl, rfl⟩⟩).1,
    (transmit_op_roles_pdo_unchanged counting_api
      ⟨0, ⟨⟨some 7, 5, PD_ROLE_SOURCE, PD_ROLE_UFP, PD_REV20⟩,
        pdo_of_list [PDO_FIXED 5000 3000 0]⟩, []⟩ 7
      (msg_of_bytes [0x4d, 0x00]) TCPCI_MSG_SOP 0
      ⟨fun _ _ _ _ => ⟨rfl, rfl, rfl⟩, fun _ _ _ _ _ _ => ⟨rfl, rfl, rfl⟩⟩).2.2.2⟩

/-- C18. A failed send is a soft failure. Two runs of
`tcpci_src_emul_transmit_op` on the same message and the same PDO list, with
send routines that behave and return in any two ways (one succeeding, one
failing, say), issue the same send requests; and for an inbound Request,
respectively Soft_Reset, the second response (PS_RDY, respectively
Source_Capabilities) is issued after the Accept whatever the sends return. -/
theorem transmit_op_send_failure_soft {σ τ : Type} (api : partner_api σ)
    (api' : partner_api τ) (s : emul_run σ) (s' : emul_run τ) (emul emul' : Nat)
    (tx_msg : tcpci_emul_msg) (type : Nat) (retry retry' : Int)
    (hpdo : s'.data.pdo = s.data.pdo)
    (hcalls : send_requests s'.calls = send_requests s.calls) :
    send_requests (tcpci_src_emul_transmit_op api' s' emul' tx_msg type retry').calls =
      send_requests (tcpci_src_emul_transmit_op api s emul tx_msg type retry).calls ∧
    (type = TCPCI_MSG_SOP → PD_HEADER_CNT (tx_header tx_msg) ≠ 0 →
      PD_HEADER_TYPE (tx_header tx_msg) = PD_DATA_REQUEST →
      send_requests (tcpci_src_emul_transmit_op api s emul tx_msg type retry).calls =
        send_requests s.calls ++
          [send_request.Control PD_CTRL_ACCEPT 0, send_request.Control PD_CTRL_PS_RDY 15]) ∧
    (type = TCPCI_MSG_SOP → PD_HEADER_CNT (tx_header tx_msg) = 0 →
      PD_HEADER_TYPE (tx_header tx_msg) = PD_CTRL_SOFT_RESET →
      send_requests (tcpci_src_emul_transmit_op api s emul tx_msg type retry).calls =
        send_requests s.calls ++
          [send_request.Control PD_CTRL_ACCEPT 0,
           send_request.Data PD_DATA_SOURCE_CAP
             ((List.ofFn s.data.pdo).takeWhile (fun p => decide (p ≠ 0))) 15]) := by
  refine ⟨?_, ?_, ?_⟩
  · rw [transmit_op_requests, transmit_op_requests, hpdo, hcalls]
  · intro ht hcnt htype
    rw [transmit_op_requests]
    simp only [ht, ne_eq, not_true_eq_false, if_false, hcnt, not_false_eq_true, if_true, htype]
  · intro ht hcnt htype
    have h1 : PD_CTRL_SOFT_RESET ≠ PD_CTRL_GET_SOURCE_CAP := by decide
    have h2 : PD_CTRL_SOFT_RESET ≠ PD_CTRL_GET_SINK_CAP := by decide
    have h3 : PD_CTRL_SOFT_RESET ≠ PD_CTRL_DR_SWAP := by decide
    rw [transmit_op_requests, ← count_pdos_take]
    simp only [ht, ne_eq, not_true_eq_false, if_false, hcnt, htype, h1, h2, h3, if_true]

/-- C18 at a Request message: the run whose sends all fail with -12 issues
the same two requests, Accept then PS_RDY, as the run whose sends succeed. -/
theorem transmit_op_send_failure_soft_witness :
    (failing_api.tcpci_partner_send_control_msg 1 (src_data [PDO_FIXED 5000 3000 0]).common_data
      PD_CTRL_ACCEPT 0).2.2 = -12 ∧
    send_requests (tcpci_src_emul_transmit_op failing_api
        ⟨0, src_data [PDO_FIXED 5000 3000 0], []⟩ 0
        (msg_of_bytes [0x42, 0x10, 0x2c, 0xb1, 0x04, 0x11]) TCPCI_MSG_SOP 0).calls =
      send_requests (tcpci_src_emul_transmit_op counting_api
        ⟨0, src_data [PDO_FIXED 5000 3000 0], []⟩ 0
        (msg_of_bytes [0x42, 0x10, 0x2c, 0xb1, 0x04, 0x11]) TCPCI_MSG_SOP 0).calls ∧
    send_requests (tcpci_src_emul_transmit_op failing_api
        ⟨0, src_data [PDO_FIXED 5000 3000 0], []⟩ 0
        (msg_of_bytes [0x42, 0x10, 0x2c, 0xb1, 0x04, 0x11]) TCPCI_MSG_SOP 0).calls =
      send_requests [] ++
        [send_request.Control PD_CTRL_ACCEPT 0, send_request.Control PD_CTRL_PS_RDY 15] :=
  ⟨by decide,
    (transmit_op_send_failure_soft counting_api failing_api
      ⟨0, src_data [PDO_FIXED 5000 3000 0], []⟩ ⟨0, src_data [PDO_FIXED 5000 3000 0], []⟩ 0 0
      (msg_of_bytes [0x42, 0x10, 0x2c, 0xb1, 0x04, 0x11]) TCPCI_MSG_SOP 0 0 rfl rfl).1,
    (transmit_op_send_failure_soft failing_api counting_api
      ⟨0, src_data [PDO_FIXED 5000 3000 0], []⟩ ⟨0, src_data [PDO_FIXED 5000 3000 0], []⟩ 0 0
      (msg_of_bytes [0x42, 0x10, 0x2c, 0xb1, 0x04, 0x11]) TCPCI_MSG_SOP 0 0 rfl rfl).2.1
      rfl (by decide) (by decide)⟩

/-- C19. For every inbound message, of any SOP type and any content, the
first call made by `tcpci_src_emul_transmit_op` is the report of
`TCPCI_EMUL_TX_SUCCESS` to the transport, and every later call is a send
request: the status is reported exactly once, before any response. -/
theorem transmit_op_tx_success_once {σ : Type} (api : partner_api σ) (s : emul_run σ)
    (emul : Nat) (tx_msg : tcpci_emul_msg) (type : Nat) (retry : Int) :
    ∃ rest : List emul_call,
      (tcpci_src_emul_transmit_op api s emul tx_msg type retry).calls =
        s.calls ++
          (emul_call.partner_msg_status emul tcpci_emul_tx_status.TCPCI_EMUL_TX_SUCCESS ::
            rest) ∧
      ∀ c ∈ rest, c.request ≠ none := by
  unfold tcpci_src_emul_transmit_op
  simp only [call_partner_msg_status, call_send_control_msg, call_send_data_msg,
    tcpci_src_emul_send_capability_msg]
  split_ifs
  · exact ⟨[], rfl, by simp⟩
  · exact ⟨[_, _], by simp only [List.append_assoc, List.singleton_append]; rfl,
      by simp [emul_call.request]⟩
  · exact ⟨[], rfl, by simp⟩
  · exact ⟨[_], by simp only [List.append_assoc, List.singleton_append]; rfl,
      by simp [emul_call.request]⟩
  · exact ⟨[_], by simp only [List.append_assoc, List.singleton_append]; rfl,
      by simp [emul_call.request]⟩
  · exact ⟨[_], by simp only [List.append_assoc, List.singleton_append]; rfl,
      by simp [emul_call.request]⟩
  · exact ⟨[_], by simp only [List.append_assoc, List.singleton_append]; rfl,
      by simp [emul_call.request]⟩
  · exact ⟨[_, _], by simp only [List.append_assoc, List.singleton_append]; rfl,
      by simp [emul_call.request]⟩
  · exact ⟨[_], by simp only [List.append_assoc, List.singleton_append]; rfl,
      by simp [emul_call.request]⟩

/-- C20. Only SOP messages are handled: for every inbound message whose type
is not `TCPCI_MSG_SOP`, whatever its header and payload,
`tcpci_src_emul_transmit_op` only reports the transmit status, issues no
send request and leaves the emulator structure, `msg_id` included, as it
was. -/
theorem transmit_op_not_sop {σ : Type} (api : partner_api σ) (s : emul_run σ)
    (emul : Nat) (tx_msg : tcpci_emul_msg) (type : Nat) (retry : Int)
    (htype : type ≠ TCPCI_MSG_SOP) :
    (tcpci_src_emul_transmit_op api s emul tx_msg type retry).data = s.data ∧
    (tcpci_src_emul_transmit_op api s emul tx_msg type retry).calls =
      s.calls ++
        [emul_call.partner_msg_status emul tcpci_emul_tx_status.TCPCI_EMUL_TX_SUCCESS] ∧
    send_requests (tcpci_src_emul_transmit_op api s emul tx_msg type retry).calls =
      send_requests s.calls := by
  refine ⟨?_, ?_, ?_⟩
  · simp [tcpci_src_emul_transmit_op, htype, call_partner_msg_status]
  · simp [tcpci_src_emul_transmit_op, htype, call_partner_msg_status]
  · rw [transmit_op_requests]
    simp [htype]

/-- C20 at a Soft_Reset header received with message type 1 (not SOP) by a
partner whose `msg_id` is 5. -/
theorem transmit_op_not_sop_witness :
    (1 : Nat) ≠ TCPCI_MSG_SOP ∧
    (tcpci_src_emul_transmit_op counting_api
        ⟨0, ⟨⟨some 7, 5, PD_ROLE_SOURCE, PD_ROLE_UFP, PD_REV20⟩,
          pdo_of_list [PDO_FIXED 5000 3000 0]⟩, []⟩ 7
        (msg_of_bytes [0x4d, 0x00]) 1 0).data.common_data.msg_id = 5 ∧
    send_requests (tcpci_src_emul_transmit_op counting_api
        ⟨0, ⟨⟨some 7, 5, PD_ROLE_SOURCE, PD_ROLE_UFP, PD_REV20⟩,
          pdo_of_list [PDO_FIXED 5000 3000 0]⟩, []⟩ 7
        (msg_of_bytes [0x4d, 0x00]) 1 0).calls = send_requests [] :=
  ⟨by decide,
    congrArg (fun d => d.common_data.msg_id)
      (transmit_op_not_sop counting_api
        ⟨0, ⟨⟨some 7, 5, PD_ROLE_SOURCE, PD_ROLE_UFP, PD_REV20⟩,
          pdo_of_list [PDO_FIXED 5000 3000 0]⟩, []⟩ 7
        (msg_of_bytes [0x4d, 0x00]) 1 0 (by decide)).1,
    (transmit_op_not_sop counting_api
      ⟨0, ⟨⟨some 7, 5, PD_ROLE_SOURCE, PD_ROLE_UFP, PD_REV20⟩,
        pdo_of_list [PDO_FIXED 5000 3000 0]⟩, []⟩ 7
      (msg_of_bytes [0x4d, 0x00]) 1 0 (by decide)).2.2⟩

/-! ## Accepted PDO lists and the capability message -/

theorem batt_loop_error_codes (pdo : Fin PDO_MAX_OBJECTS → Nat) :
    ∀ (fuel i : Nat) (v w : Int) (e : check_pdos_res),
      batt_loop pdo fuel i v w = .error e →
        e = TCPCI_SRC_EMUL_BATT_VOLT_REPEATED ∨ e = TCPCI_SRC_EMUL_BATT_VOLT_NOT_IN_ORDER := by
  intro fuel
  induction fuel with
  | zero => intro i v w e h; simp only [batt_loop] at h; cases h
  | succ n ih =>
    intro i v w e h
    simp only [batt_loop] at h
    split_ifs at h
    · cases h; exact Or.inl rfl
    · cases h; exact Or.inr rfl
    · exact ih _ _ _ e h

theorem var_loop_error_codes (pdo : Fin PDO_MAX_OBJECTS → Nat) :
    ∀ (fuel i : Nat) (v w : Int) (e : check_pdos_res),
      var_loop pdo fuel i v w = .error e →
        e = TCPCI_SRC_EMUL_VAR_VOLT_REPEATED ∨ e = TCPCI_SRC_EMUL_VAR_VOLT_NOT_IN_ORDER := by
  intro fuel
  induction fuel with
  | zero => intro i v w e h; simp only [var_loop] at h; cases h
  | succ n ih =>
    intro i v w e h
    simp only [var_loop] at h
    split_ifs at h
    · cases h; exact Or.inl rfl
    · cases h; exact Or.inr rfl
    · exact ih _ _ _ e h

/-- On a list in which only zeros follow a zero, the leading non-zero
entries are all the non-zero entries. -/
theorem takeWhile_eq_filter_of_zero_tail (l : List Nat)
    (h : l.Pairwise (fun a b => a = 0 → b = 0)) :
    l.takeWhile (fun p => decide (p ≠ 0)) = l.filter (fun p => decide (p ≠ 0)) := by
  induction l with
  | nil => rfl
  | cons x xs ih =>
    rw [List.pairwise_cons] at h
    by_cases hx : x = 0
    · have hnil : xs.filter (fun p => decide (p ≠ 0)) = [] := by
        rw [List.filter_eq_nil_iff]
        intro b hb
        simp [h.1 b hb hx]
      rw [List.takeWhile_cons, List.filter_cons, hnil]
      simp [hx]
    · have hd : decide (x ≠ 0) = true := by simp [hx]
      rw [List.takeWhile_cons, List.filter_cons, if_pos hd, if_pos hd, ih h.2]

/-- An accepted PDO list has a non-zero entry 0 and only zeros after a zero. -/
theorem check_pdos_ok_shape (pdo : Fin PDO_MAX_OBJECTS → Nat)
    (hok : check_pdos_fuel PDO_MAX_OBJECTS pdo = TCPCI_SRC_EMUL_CHECK_PDO_OK) :
    pdo 0 ≠ 0 ∧ ∀ i j : Fin PDO_MAX_OBJECTS, i < j → pdo i = 0 → pdo j = 0 := by
  have hadj : ∀ (i : Nat) (h : i + 1 < PDO_MAX_OBJECTS),
      pdo ⟨i, by omega⟩ = 0 → pdo ⟨i + 1, h⟩ = 0 := by
    intro i h hz
    by_contra hnz
    exact (check_pdos_fuel_after_zero pdo i h hz hnz).1 hok
  refine ⟨?_, ?_⟩
  · intro h0
    unfold check_pdos_fuel at hok
    have hc : (pdo 0 &&& PDO_TYPE_MASK) ≠ PDO_TYPE_FIXED ∨ PDO_FIXED_VOLTAGE (pdo 0) ≠ 5000 := by
      rw [h0]
      decide
    rw [if_pos hc] at hok
    cases hok
  · intro i j hij hz
    have hgen : ∀ (d : Nat) (h : i.val + d < PDO_MAX_OBJECTS), pdo ⟨i.val + d, h⟩ = 0 := by
      intro d
      induction d with
      | zero => intro h; exact hz
      | succ n ih =>
        intro h
        exact hadj (i.val + n) h (ih (by omega))
    have hj : j = ⟨i.val + (j.val - i.val), by have := j.isLt; have : i.val < j.val := hij; omega⟩ :=
      Fin.ext (by have : i.val < j.val := hij; simp only; omega)
    rw [hj]
    exact hgen _ _

/-- C26. For every PDO list on which `tcpci_src_emul_check_pdos` returns
`OK`, entry 0 is non-zero and no non-zero entry follows a zero entry; hence
the Source_Capabilities message that
`tcpci_src_emul_send_capability_msg` builds from the list carries at least
one data object and exactly the non-zero PDOs of the list, in order. -/
theorem check_pdos_ok_capability_msg {σ : Type} (api : partner_api σ) (s : emul_run σ)
    (delay : Nat)
    (hok : tcpci_src_emul_check_pdos s.data = TCPCI_SRC_EMUL_CHECK_PDO_OK) :
    s.data.pdo 0 ≠ 0 ∧
    (∀ i j : Fin PDO_MAX_OBJECTS, i < j → s.data.pdo i = 0 → s.data.pdo j = 0) ∧
    send_requests (tcpci_src_emul_send_capability_msg api s delay).1.calls =
      send_requests s.calls ++
        [send_request.Data PD_DATA_SOURCE_CAP
           ((List.ofFn s.data.pdo).filter (fun p => decide (p ≠ 0))) delay] ∧
    1 ≤ ((List.ofFn s.data.pdo).filter (fun p => decide (p ≠ 0))).length := by
  obtain ⟨h0, htail⟩ := check_pdos_ok_shape s.data.pdo hok
  have hpw : (List.ofFn s.data.pdo).Pairwise (fun a b => a = 0 → b = 0) := by
    rw [List.pairwise_ofFn]
    exact htail
  refine ⟨h0, htail, ?_, ?_⟩
  · rw [← takeWhile_eq_filter_of_zero_tail _ hpw, ← count_pdos_take]
    simp only [tcpci_src_emul_send_capability_msg, call_send_data_msg, send_requests,
      List.filterMap_append, List.filterMap_cons, List.filterMap_nil, emul_call.request]
  · have hmem : s.data.pdo 0 ∈ (List.ofFn s.data.pdo).filter (fun p => decide (p ≠ 0)) := by
      rw [List.mem_filter]
      exact ⟨(List.mem_ofFn _ _).2 ⟨0, rfl⟩, by simpa using h0⟩
    exact List.length_pos_of_mem hmem

/-- C26 at the accepted list `[Fixed 5 V, Fixed 9 V, 0, ...]`: the message
carries the two non-zero PDOs. -/
theorem check_pdos_ok_capability_msg_witness :
    tcpci_src_emul_check_pdos (src_data [PDO_FIXED 5000 3000 0, PDO_FIXED 9000 2000 0]) =
      TCPCI_SRC_EMUL_CHECK_PDO_OK ∧
    send_requests (tcpci_src_emul_send_capability_msg counting_api
        ⟨0, src_data [PDO_FIXED 5000 3000 0, PDO_FIXED 9000 2000 0], []⟩ 0).1.calls =
      send_requests [] ++
        [send_request.Data PD_DATA_SOURCE_CAP
           ((List.ofFn (src_data [PDO_FIXED 5000 3000 0, PDO_FIXED 9000 2000 0]).pdo).filter
             (fun p => decide (p ≠ 0))) 0] ∧
    (List.ofFn (src_data [PDO_FIXED 5000 3000 0, PDO_FIXED 9000 2000 0]).pdo).filter
        (fun p => decide (p ≠ 0)) = [PDO_FIXED 5000 3000 0, PDO_FIXED 9000 2000 0] :=
  ⟨by decide,
    (check_pdos_ok_capability_msg counting_api
      ⟨0, src_data [PDO_FIXED 5000 3000 0, PDO_FIXED 9000 2000 0], []⟩ 0 (by decide)).2.2.1,
    by decide⟩

/-- C27. The fixed-entry checks run only over leading entries whose type
field is not Fixed: for every PDO list whose entry 0 is Fixed at 5000 mV and
whose entry 1 is zero or of Fixed type, the first loop ends at index 1
without a check, and the result of `tcpci_src_emul_check_pdos` is none of
`FIXED_VOLT_REPEATED`, `FIXED_VOLT_NOT_IN_ORDER` and
`NON_FIRST_PDO_FIXED_FLAGS`. -/
theorem check_pdos_fixed_checks_skipped (data : tcpci_src_emul_data)
    (h0 : (data.pdo 0 &&& PDO_TYPE_MASK) = PDO_TYPE_FIXED ∧
      PDO_FIXED_VOLTAGE (data.pdo 0) = 5000)
    (h1 : data.pdo 1 = 0 ∨ (data.pdo 1 &&& PDO_TYPE_MASK) = PDO_TYPE_FIXED) :
    fixed_loop data.pdo PDO_MAX_OBJECTS 1 (-1) = .ok 1 ∧
    tcpci_src_emul_check_pdos data ≠ TCPCI_SRC_EMUL_FIXED_VOLT_REPEATED ∧
    tcpci_src_emul_check_pdos data ≠ TCPCI_SRC_EMUL_FIXED_VOLT_NOT_IN_ORDER ∧
    tcpci_src_emul_check_pdos data ≠ TCPCI_SRC_EMUL_NON_FIRST_PDO_FIXED_FLAGS := by
  have hc : ¬ ((data.pdo 0 &&& PDO_TYPE_MASK) ≠ PDO_TYPE_FIXED ∨
      PDO_FIXED_VOLTAGE (data.pdo 0) ≠ 5000) := by
    rintro (h | h)
    · exact h h0.1
    · exact h h0.2
  have hcond : ¬ (data.pdo ⟨1, by decide⟩ ≠ 0 ∧
      (data.pdo ⟨1, by decide⟩ &&& PDO_TYPE_MASK) ≠ PDO_TYPE_FIXED) := by
    rintro ⟨ha, hb⟩
    rcases h1 with h | h
    · exact ha h
    · exact hb h
  have hF : fixed_loop data.pdo PDO_MAX_OBJECTS 1 (-1) = .ok 1 := by
    simp only [fixed_loop]
    rw [dif_pos (by decide), if_neg hcond]
  refine ⟨hF, ?_⟩
  unfold tcpci_src_emul_check_pdos check_pdos_fuel
  rw [if_neg hc, hF]
  simp only
  cases hB : batt_loop data.pdo PDO_MAX_OBJECTS 1 (-1) (-1) with
  | error e =>
    simp only
    rcases batt_loop_error_codes _ _ _ _ _ e hB with h | h <;> rw [h] <;> decide
  | ok b =>
    simp only
    cases hV : var_loop data.pdo PDO_MAX_OBJECTS b (-1) (-1) with
    | error e =>
      simp only
      rcases var_loop_error_codes _ _ _ _ _ e hV with h | h <;> rw [h] <;> decide
    | ok c =>
      simp only
      rcases zero_loop_codes data.pdo PDO_MAX_OBJECTS c with h | h <;> rw [h] <;> decide

/-- C27 at the list `[Fixed 5 V, Fixed 9 V with the dual-role flag, Fixed 9 V,
0, ...]`, whose Fixed block repeats a voltage and sets a first-PDO flag: the
result is `BATT_VOLT_REPEATED`. -/
theorem check_pdos_fixed_checks_skipped_witness :
    tcpci_src_emul_check_pdos (src_data [PDO_FIXED 5000 3000 0,
      PDO_FIXED 9000 3000 PDO_FIXED_DUAL_ROLE, PDO_FIXED 9000 3000 PDO_FIXED_DUAL_ROLE]) =
      TCPCI_SRC_EMUL_BATT_VOLT_REPEATED ∧
    tcpci_src_emul_check_pdos (src_data [PDO_FIXED 5000 3000 0,
      PDO_FIXED 9000 3000 PDO_FIXED_DUAL_ROLE, PDO_FIXED 9000 3000 PDO_FIXED_DUAL_ROLE]) ≠
      TCPCI_SRC_EMUL_FIXED_VOLT_REPEATED ∧
    tcpci_src_emul_check_pdos (src_data [PDO_FIXED 5000 3000 0,
      PDO_FIXED 9000 3000 PDO_FIXED_DUAL_ROLE, PDO_FIXED 9000 3000 PDO_FIXED_DUAL_ROLE]) ≠
      TCPCI_SRC_EMUL_NON_FIRST_PDO_FIXED_FLAGS :=
  ⟨by decide,
    (check_pdos_fixed_checks_skipped (src_data [PDO_FIXED 5000 3000 0,
      PDO_FIXED 9000 3000 PDO_FIXED_DUAL_ROLE, PDO_FIXED 9000 3000 PDO_FIXED_DUAL_ROLE])
      (by decide) (by decide)).2.1,
    (check_pdos_fixed_checks_skipped (src_data [PDO_FIXED 5000 3000 0,
      PDO_FIXED 9000 3000 PDO_FIXED_DUAL_ROLE, PDO_FIXED 9000 3000 PDO_FIXED_DUAL_ROLE])
      (by decide) (by decide)).2.2.2⟩

/-- C28. The default configuration is valid: on the structure produced by
`tcpci_src_emul_init`, whatever it held before, `tcpci_src_emul_check_pdos`
returns `OK` although the first PDO sets the unconstrained-power flag, and
the Source_Capabilities message built from it carries exactly one data
object, the default PDO. -/
theorem init_check_pdos_ok {σ : Type} (sapi : setup_api σ) (api : partner_api σ)
    (s : emul_run σ) (delay : Nat) :
    tcpci_src_emul_check_pdos (tcpci_src_emul_init sapi s).data =
      TCPCI_SRC_EMUL_CHECK_PDO_OK ∧
    ((tcpci_src_emul_init sapi s).data.pdo 0 &&& PDO_FIXED_UNCONSTRAINED) ≠ 0 ∧
    send_requests
        (tcpci_src_emul_send_capability_msg api (tcpci_src_emul_init sapi s) delay).1.calls =
      send_requests (tcpci_src_emul_init sapi s).calls ++
        [send_request.Data PD_DATA_SOURCE_CAP
           [PDO_FIXED 5000 3000 PDO_FIXED_UNCONSTRAINED] delay] := by
  have hpdo : (tcpci_src_emul_init sapi s).data.pdo =
      pdo_of_list [PDO_FIXED 5000 3000 PDO_FIXED_UNCONSTRAINED] := by
    simp only [tcpci_src_emul_init, call_partner_init]
    exact init_pdo_eq _
  refine ⟨?_, ?_, ?_⟩
  · unfold tcpci_src_emul_check_pdos
    rw [hpdo]
    decide
  · rw [hpdo]
    decide
  · have hobj : (List.ofFn (tcpci_src_emul_init sapi s).data.pdo).take
        (count_pdos (tcpci_src_emul_init sapi s).data.pdo PDO_MAX_OBJECTS 0) =
        [PDO_FIXED 5000 3000 PDO_FIXED_UNCONSTRAINED] := by
      rw [hpdo]
      decide
    simp only [tcpci_src_emul_send_capability_msg, call_send_data_msg, send_requests,
      List.filterMap_append, List.filterMap_cons, List.filterMap_nil, emul_call.request, hobj]

/-! ## Theorems on the ISL923x emulator -/

/-- Reading both bytes of a register gives back its low 16 bits. -/
theorem read_reg_16_both (R : Nat) :
    (((READ_REG_16 R 1) <<< 8) ||| READ_REG_16 R 0) % 2 ^ 16 = R % 2 ^ 16 := by
  have h255 : (0xff : Nat) = 2 ^ 8 - 1 := by decide
  have hlo : READ_REG_16 R 0 = R % 256 := by
    simp only [READ_REG_16, if_true, h255, Nat.and_pow_two_sub_one_eq_mod]
    omega
  have hhi : READ_REG_16 R 1 = R / 256 % 256 := by
    have h10 : ¬ ((1 : Int) = 0) := by decide
    simp only [READ_REG_16, if_neg h10, h255, Nat.and_pow_two_sub_one_eq_mod,
      Nat.shiftRight_eq_div_pow]
    omega
  have hlt : R % 256 < 2 ^ 8 := by omega
  rw [hlo, hhi, Nat.shiftLeft_eq, Nat.mul_comm, ← Nat.mul_add_lt_is_or hlt]
  omega

/-- Writing the low byte and then the high byte of `v` leaves `v AND MASK` in
the register. -/
theorem write_reg_16_both (R v M : Nat) (hv : v < 2 ^ 16) (hM : M < 2 ^ 16) :
    WRITE_REG_16 (WRITE_REG_16 R 1 ((v &&& 0xff) % 256) M) 2 ((v >>> 8) % 256) M =
      v &&& M := by
  have h255 : (0xff : Nat) = 2 ^ 8 - 1 := by decide
  have h21 : ¬ ((2 : Int) = 1) := by decide
  have hlo : (v &&& 0xff) % 256 = v % 256 := by
    rw [h255, Nat.and_pow_two_sub_one_eq_mod]
    omega
  have hhi : (v >>> 8) % 256 = v / 256 := by
    rw [Nat.shiftRight_eq_div_pow]
    omega
  have hlt : v % 256 < 2 ^ 8 := by omega
  have h1 : (v % 256 &&& M) % 2 ^ 16 = v % 256 &&& M :=
    Nat.mod_eq_of_lt (Nat.and_lt_two_pow _ hM)
  have hv' : (v / 256) <<< 8 ||| v % 256 = v := by
    rw [Nat.shiftLeft_eq, Nat.mul_comm, ← Nat.mul_add_lt_is_or hlt]
    omega
  simp only [WRITE_REG_16, if_true, if_neg h21, hlo, hhi, h1]
  rw [Nat.or_comm, ← Nat.and_distrib_right, hv']
  exact Nat.mod_eq_of_lt (Nat.and_lt_two_pow _ hM)

theorem isl923x_reg_mask_lt (r : isl923x_reg) : isl923x_reg_mask r < 2 ^ 16 := by
  cases r <;> first | decide | simp [isl923x_reg_mask]

/-- C23. In the ISL923x emulator, for every writable register `r` and every
16-bit value `v`, writing the low byte of `v` (byte index 1) and then the
high byte (byte index 2) with `isl923x_emul_write_byte` succeeds and makes
`isl923x_emul_peek_reg(r)` return `v AND mask(r)`; bit 0 of CONTROL0 and bit
7 of CONTROL1 then read 0, and writing all ones to both reads back as 0xfffe
and 0xff7f (the halves of the option word 0xff7ffffe). -/
theorem isl923x_write_then_peek (data : isl923x_emul_data) (r : isl923x_reg) (v : Nat)
    (hw : isl923x_reg_writable r = true) (hv : v < 2 ^ 16) :
    (isl923x_emul_write_byte data r (v &&& 0xff) 1).2 = 0 ∧
    (isl923x_emul_write_byte (isl923x_emul_write_byte data r (v &&& 0xff) 1).1 r
      (v >>> 8) 2).2 = 0 ∧
    isl923x_emul_peek_reg
      (isl923x_emul_write_byte (isl923x_emul_write_byte data r (v &&& 0xff) 1).1 r
        (v >>> 8) 2).1 r = some (v &&& isl923x_reg_mask r) ∧
    (v &&& isl923x_reg_mask isl923x_reg.ISL923X_REG_CONTROL0).testBit 0 = false ∧
    (v &&& isl923x_reg_mask isl923x_reg.ISL923X_REG_CONTROL1).testBit 7 = false ∧
    0xffff &&& isl923x_reg_mask isl923x_reg.ISL923X_REG_CONTROL0 = 0xfffe ∧
    0xffff &&& isl923x_reg_mask isl923x_reg.ISL923X_REG_CONTROL1 = 0xff7f ∧
    ((0xff7f <<< 16) ||| 0xfffe : Nat) = 0xff7ffffe := by
  have hpeek : isl923x_emul_peek_reg
      (isl923x_emul_write_byte (isl923x_emul_write_byte data r (v &&& 0xff) 1).1 r
        (v >>> 8) 2).1 r = some (v &&& isl923x_reg_mask r) := by
    have hM := isl923x_reg_mask_lt r
    have hmod : (v &&& isl923x_reg_mask r) % 2 ^ 16 = v &&& isl923x_reg_mask r :=
      Nat.mod_eq_of_lt (Nat.and_lt_two_pow _ hM)
    cases r <;> first
      | (simp only [isl923x_emul_write_byte, isl923x_emul_peek_reg, isl923x_emul_read_byte,
          read_reg_16_both]
         simp only [isl923x_reg_mask] at hM hmod ⊢
         rw [write_reg_16_both _ v _ hv hM, hmod])
      | (exact absurd hw (by simp [isl923x_reg_writable]))
  have hbit0 : (v &&& isl923x_reg_mask isl923x_reg.ISL923X_REG_CONTROL0).testBit 0 = false := by
    rw [Nat.testBit_and]
    have : (isl923x_reg_mask isl923x_reg.ISL923X_REG_CONTROL0).testBit 0 = false := by decide
    rw [this, Bool.and_false]
  have hbit7 : (v &&& isl923x_reg_mask isl923x_reg.ISL923X_REG_CONTROL1).testBit 7 = false := by
    rw [Nat.testBit_and]
    have : (isl923x_reg_mask isl923x_reg.ISL923X_REG_CONTROL1).testBit 7 = false := by decide
    rw [this, Bool.and_false]
  refine ⟨?_, ?_, hpeek, hbit0, hbit7, by decide, by decide, by decide⟩
  · cases r <;> first | rfl | (exact absurd hw (by simp [isl923x_reg_writable]))
  · cases r <;> first | rfl | (exact absurd hw (by simp [isl923x_reg_writable]))

/-- C23 at the control 1 register in a state whose registers all hold
0xffff, with all ones written: the register reads back as 0xff7f. -/
theorem isl923x_write_then_peek_witness :
    isl923x_reg_writable isl923x_reg.ISL923X_REG_CONTROL1 = true ∧
    (0xffff : Nat) < 2 ^ 16 ∧
    isl923x_emul_peek_reg
      (isl923x_emul_write_byte
        (isl923x_emul_write_byte isl923x_all_ones isl923x_reg.ISL923X_REG_CONTROL1
          (0xffff &&& 0xff) 1).1
        isl923x_reg.ISL923X_REG_CONTROL1 (0xffff >>> 8) 2).1
      isl923x_reg.ISL923X_REG_CONTROL1 =
      some (0xffff &&& isl923x_reg_mask isl923x_reg.ISL923X_REG_CONTROL1) ∧
    0xffff &&& isl923x_reg_mask isl923x_reg.ISL923X_REG_CONTROL1 = 0xff7f :=
  ⟨by decide, by decide,
    (isl923x_write_then_peek isl923x_all_ones isl923x_reg.ISL923X_REG_CONTROL1 0xffff
      (by decide) (by decide)).2.2.1,
    by decide⟩

theorem and_two_pow_ne_zero_iff (x n : Nat) : (x &&& 2 ^ n) ≠ 0 ↔ x.testBit n = true := by
  constructor
  · intro h
    by_contra hb
    apply h
    apply Nat.eq_of_testBit_eq
    intro i
    rw [Nat.testBit_and, Nat.testBit_two_pow, Nat.zero_testBit]
    by_cases hi : n = i
    · subst hi
      simp [hb]
    · simp [hi]
  · intro hb h
    have : (x &&& 2 ^ n).testBit n = true := by
      rw [Nat.testBit_and, Nat.testBit_two_pow_self, hb]
      rfl
    rw [h, Nat.zero_testBit] at this
    cases this

/-- C24. In the ISL923x emulator, for every register state (the control 1
register a 16-bit value) and every boolean `e`, after
`isl923x_emul_set_learn_mode_enabled(e)` the query
`isl923x_emul_is_learn_mode_enabled` returns `e`, every bit of the control 1
register other than the learn-mode bit is as before, and every other field
of the structure is unchanged. -/
theorem isl923x_set_learn_mode (data : isl923x_emul_data) (e : Bool)
    (hr : data.control_1_reg < 2 ^ 16) :
    isl923x_emul_is_learn_mode_enabled (isl923x_emul_set_learn_mode_enabled data e) = e ∧
    (∀ k : Nat, ISL923X_C1_LEARN_MODE_ENABLE.testBit k = false →
      (isl923x_emul_set_learn_mode_enabled data e).control_1_reg.testBit k =
        data.control_1_reg.testBit k) ∧
    { isl923x_emul_set_learn_mode_enabled data e with control_1_reg := data.control_1_reg } =
      data := by
  have hhigh : ∀ k, 16 ≤ k → data.control_1_reg.testBit k = false := by
    intro k hk
    apply Nat.testBit_lt_two_pow
    exact Nat.lt_of_lt_of_le hr (Nat.pow_le_pow_right (by decide) hk)
  cases e with
  | true =>
    refine ⟨?_, ?_, ?_⟩
    · simp only [isl923x_emul_is_learn_mode_enabled, isl923x_emul_set_learn_mode_enabled,
        if_true, ISL923X_C1_LEARN_MODE_ENABLE, BIT, decide_eq_true_eq]
      rw [and_two_pow_ne_zero_iff, Nat.testBit_mod_two_pow, Nat.testBit_or,
        Nat.testBit_two_pow_self]
      simp
    · intro k hk
      simp only [ISL923X_C1_LEARN_MODE_ENABLE, BIT] at hk
      simp only [isl923x_emul_set_learn_mode_enabled, if_true, ISL923X_C1_LEARN_MODE_ENABLE,
        BIT]
      rw [Nat.testBit_mod_two_pow, Nat.testBit_or, hk, Bool.or_false]
      by_cases h16 : k < 16
      · simp [h16]
      · simp [h16, hhigh k (by omega)]
    · rfl
  | false =>
    have hf : ¬ (false = true) := by decide
    refine ⟨?_, ?_, ?_⟩
    · simp only [isl923x_emul_is_learn_mode_enabled, isl923x_emul_set_learn_mode_enabled,
        ISL923X_C1_LEARN_MODE_ENABLE, BIT, decide_eq_false_iff_not, not_not]
      rw [if_neg hf]
      by_contra hne
      have hb := (and_two_pow_ne_zero_iff _ 12).1 hne
      rw [Nat.testBit_mod_two_pow, Nat.testBit_and, Nat.testBit_xor,
        Nat.testBit_two_pow_sub_one, Nat.testBit_two_pow_self] at hb
      simp at hb
    · intro k hk
      simp only [ISL923X_C1_LEARN_MODE_ENABLE, BIT] at hk
      simp only [isl923x_emul_set_learn_mode_enabled, ISL923X_C1_LEARN_MODE_ENABLE, BIT]
      rw [if_neg hf]
      simp only []
      rw [Nat.testBit_mod_two_pow, Nat.testBit_and, Nat.testBit_xor,
        Nat.testBit_two_pow_sub_one, hk]
      by_cases h16 : k < 16
      · have h32 : k < 32 := by omega
        simp [h16, h32]
      · simp [h16, hhigh k (by omega)]
    · rfl

/-- C24 at a state whose control 1 register is 0xffff: disabling learn mode
clears bit 12 and nothing else. -/
theorem isl923x_set_learn_mode_witness :
    isl923x_all_ones.control_1_reg < 2 ^ 16 ∧
    isl923x_emul_is_learn_mode_enabled
      (isl923x_emul_set_learn_mode_enabled isl923x_all_ones false) = false ∧
    (isl923x_emul_set_learn_mode_enabled isl923x_all_ones false).control_1_reg = 0xefff ∧
    isl923x_emul_is_learn_mode_enabled
      (isl923x_emul_set_learn_mode_enabled
        (isl923x_emul_set_learn_mode_enabled isl923x_all_ones false) true) = true :=
  ⟨by decide,
    (isl923x_set_learn_mode isl923x_all_ones false (by decide)).1,
    by decide,
    (isl923x_set_learn_mode (isl923x_emul_set_learn_mode_enabled isl923x_all_ones false) true
      (by decide)).1⟩

/-- C25. For every state of the ISL923x emulator, after `isl923x_emul_reset`
every emulated register reads back as 0 through `isl923x_emul_peek_reg`, the
adapter current limit registers among them, while the common I2C data and
`battery_ord` keep their previous values. -/
theorem isl923x_reset_registers (data : isl923x_emul_data) (r : isl923x_reg)
    (hr : isl923x_reg_emulated r = true) :
    isl923x_emul_peek_reg (isl923x_emul_reset data) r = some 0 ∧
    isl923x_emul_peek_reg (isl923x_emul_reset data)
      isl923x_reg.ISL923X_REG_ADAPTER_CURRENT_LIMIT1 = some 0 ∧
    isl923x_emul_peek_reg (isl923x_emul_reset data)
      isl923x_reg.ISL923X_REG_ADAPTER_CURRENT_LIMIT2 = some 0 ∧
    (isl923x_emul_reset data).common = data.common ∧
    (isl923x_emul_reset data).battery_ord = data.battery_ord := by
  have hread : ∀ b : Int, READ_REG_16 0 b = 0 := by
    intro b
    unfold READ_REG_16
    split_ifs <;> rfl
  refine ⟨?_, ?_, ?_, rfl, rfl⟩
  · cases r <;> first
      | (simp only [isl923x_emul_peek_reg, isl923x_emul_read_byte, isl923x_emul_reset, hread]
         rfl)
      | exact absurd hr (by simp [isl923x_reg_emulated])
  · simp only [isl923x_emul_peek_reg, isl923x_emul_read_byte, isl923x_emul_reset, hread]
    rfl
  · simp only [isl923x_emul_peek_reg, isl923x_emul_read_byte, isl923x_emul_reset, hread]
    rfl

/-- C25 at a state whose registers all hold 0xffff, read at the control 1
register. -/
theorem isl923x_reset_registers_witness :
    isl923x_reg_emulated isl923x_reg.ISL923X_REG_CONTROL1 = true ∧
    isl923x_emul_peek_reg isl923x_all_ones isl923x_reg.ISL923X_REG_CONTROL1 = some 0xffff ∧
    isl923x_emul_peek_reg (isl923x_emul_reset isl923x_all_ones)
      isl923x_reg.ISL923X_REG_CONTROL1 = some 0 ∧
    (isl923x_emul_reset isl923x_all_ones).common = 3 ∧
    (isl923x_emul_reset isl923x_all_ones).battery_ord = 5 :=
  ⟨by decide, by decide,
    (isl923x_reset_registers isl923x_all_ones isl923x_reg.ISL923X_REG_CONTROL1
      (by decide)).1,
    (isl923x_reset_registers isl923x_all_ones isl923x_reg.ISL923X_REG_CONTROL1
      (by decide)).2.2.2.1,
    (isl923x_reset_registers isl923x_all_ones isl923x_reg.ISL923X_REG_CONTROL1
      (by decide)).2.2.2.2⟩

/-! ## Theorems on the fan shim -/

/-- The last call of `fan_set_duty` hands the duty to the PWM driver. -/
theorem fan_set_duty_calls {σ : Type} (t : fan_tables) (api : fan_api σ) (s : fan_run σ)
    (ch : Nat) (percent : Int) :
    ∃ pre : List fan_call,
      (fan_set_duty t api s ch percent).calls =
        pre ++ [fan_call.pwm_set_duty (t.pwm_id ch) percent] := by
  unfold fan_set_duty
  exact ⟨_, rfl⟩

/-- C29. For every current duty in 0..100 and every rpm difference of
magnitude below 2^30, the duty that `fan_adjust_duty` passes to
`fan_set_duty` (and that reaches the PWM driver) lies in 1..100, is not
lower than the current duty when the difference is positive, and is not
higher than max(current duty, 1) otherwise; the step is 20, 10, 5, 3 or 1
for magnitudes of at least 2000, 1000, 500, 250 and below 250, and the duty
passed is the current duty plus that step, capped at 100, when the
difference is positive, and the current duty minus that step, held at 1 or
above, otherwise. -/
theorem fan_adjust_duty_bounds {σ : Type} (t : fan_tables) (api : fan_api σ)
    (s : fan_run σ) (ch : Nat) (rpm_diff duty : Int)
    (hd : 0 ≤ duty ∧ duty ≤ 100) (hr : -(2 ^ 30) < rpm_diff ∧ rpm_diff < 2 ^ 30) :
    fan_adjust_duty t api s ch rpm_diff duty =
      fan_set_duty t api s ch (fan_adjust_duty_value rpm_diff duty) ∧
    (∃ pre : List fan_call,
      (fan_adjust_duty t api s ch rpm_diff duty).calls =
        pre ++ [fan_call.pwm_set_duty (t.pwm_id ch) (fan_adjust_duty_value rpm_diff duty)]) ∧
    1 ≤ fan_adjust_duty_value rpm_diff duty ∧
    fan_adjust_duty_value rpm_diff duty ≤ 100 ∧
    (0 < rpm_diff → duty ≤ fan_adjust_duty_value rpm_diff duty) ∧
    (rpm_diff ≤ 0 → fan_adjust_duty_value rpm_diff duty ≤ max duty 1) ∧
    (2000 ≤ |rpm_diff| → fan_adjust_duty_step rpm_diff = 20) ∧
    (1000 ≤ |rpm_diff| → |rpm_diff| < 2000 → fan_adjust_duty_step rpm_diff = 10) ∧
    (500 ≤ |rpm_diff| → |rpm_diff| < 1000 → fan_adjust_duty_step rpm_diff = 5) ∧
    (250 ≤ |rpm_diff| → |rpm_diff| < 500 → fan_adjust_duty_step rpm_diff = 3) ∧
    (|rpm_diff| < 250 → fan_adjust_duty_step rpm_diff = 1) ∧
    fan_adjust_duty_value rpm_diff duty =
      (if 0 < rpm_diff then min (duty + fan_adjust_duty_step rpm_diff) 100
       else max (duty - fan_adjust_duty_step rpm_diff) 1) ∧
    (0 < rpm_diff → 2000 ≤ rpm_diff →
      fan_adjust_duty_value rpm_diff duty = min (duty + 20) 100) ∧
    (0 < rpm_diff → 1000 ≤ rpm_diff → rpm_diff < 2000 →
      fan_adjust_duty_value rpm_diff duty = min (duty + 10) 100) ∧
    (0 < rpm_diff → 500 ≤ rpm_diff → rpm_diff < 1000 →
      fan_adjust_duty_value rpm_diff duty = min (duty + 5) 100) ∧
    (0 < rpm_diff → 250 ≤ rpm_diff → rpm_diff < 500 →
      fan_adjust_duty_value rpm_diff duty = min (duty + 3) 100) ∧
    (0 < rpm_diff → rpm_diff < 250 →
      fan_adjust_duty_value rpm_diff duty = min (duty + 1) 100) ∧
    (rpm_diff ≤ -2000 → fan_adjust_duty_value rpm_diff duty = max (duty - 20) 1) ∧
    (rpm_diff ≤ -1000 → -2000 < rpm_diff →
      fan_adjust_duty_value rpm_diff duty = max (duty - 10) 1) ∧
    (rpm_diff ≤ -500 → -1000 < rpm_diff →
      fan_adjust_duty_value rpm_diff duty = max (duty - 5) 1) ∧
    (rpm_diff ≤ -250 → -500 < rpm_diff →
      fan_adjust_duty_value rpm_diff duty = max (duty - 3) 1) ∧
    (rpm_diff ≤ 0 → -250 < rpm_diff →
      fan_adjust_duty_value rpm_diff duty = max (duty - 1) 1) := by
  obtain ⟨hd0, hd1⟩ := hd
  have habs : ABS rpm_diff = |rpm_diff| := by
    unfold ABS
    split_ifs with h
    · exact (abs_of_nonneg h).symm
    · exact (abs_of_neg (by omega)).symm
  have hstep : 1 ≤ fan_adjust_duty_step rpm_diff ∧ fan_adjust_duty_step rpm_diff ≤ 20 := by
    unfold fan_adjust_duty_step
    split_ifs <;> omega
  have hval : ∀ st : Int, fan_adjust_duty_step rpm_diff = st →
      fan_adjust_duty_value rpm_diff duty =
        (if 0 < rpm_diff then min (duty + st) 100 else max (duty - st) 1) := by
    intro st hst
    unfold fan_adjust_duty_value MIN MAX
    simp only [hst]
    split_ifs <;> omega
  have hpos : ∀ st : Int, 0 < rpm_diff → fan_adjust_duty_step rpm_diff = st →
      fan_adjust_duty_value rpm_diff duty = min (duty + st) 100 := by
    intro st h0 hst
    rw [hval st hst, if_pos h0]
  have hneg : ∀ st : Int, rpm_diff ≤ 0 → fan_adjust_duty_step rpm_diff = st →
      fan_adjust_duty_value rpm_diff duty = max (duty - st) 1 := by
    intro st h0 hst
    rw [hval st hst, if_neg (by omega)]
  have hst : ∀ (st : Int), (st = 20 ∧ (2000 ≤ rpm_diff ∨ rpm_diff ≤ -2000)) ∨
      (st = 10 ∧ ((1000 ≤ rpm_diff ∧ rpm_diff < 2000) ∨
        (rpm_diff ≤ -1000 ∧ -2000 < rpm_diff))) ∨
      (st = 5 ∧ ((500 ≤ rpm_diff ∧ rpm_diff < 1000) ∨ (rpm_diff ≤ -500 ∧ -1000 < rpm_diff))) ∨
      (st = 3 ∧ ((250 ≤ rpm_diff ∧ rpm_diff < 500) ∨ (rpm_diff ≤ -250 ∧ -500 < rpm_diff))) ∨
      (st = 1 ∧ -250 < rpm_diff ∧ rpm_diff < 250) →
      fan_adjust_duty_step rpm_diff = st := by
    intro st hcase
    unfold fan_adjust_duty_step ABS
    split_ifs <;> omega
  refine ⟨rfl, fan_set_duty_calls _ _ _ _ _, ?_, ?_, ?_, ?_, ?_, ?_, ?_, ?_, ?_,
    hval _ rfl,
    fun h0 h1 => hpos 20 h0 (hst 20 (by omega)),
    fun h0 h1 h2 => hpos 10 h0 (hst 10 (by omega)),
    fun h0 h1 h2 => hpos 5 h0 (hst 5 (by omega)),
    fun h0 h1 h2 => hpos 3 h0 (hst 3 (by omega)),
    fun h0 h1 => hpos 1 h0 (hst 1 (by omega)),
    fun h1 => hneg 20 (by omega) (hst 20 (by omega)),
    fun h1 h2 => hneg 10 (by omega) (hst 10 (by omega)),
    fun h1 h2 => hneg 5 (by omega) (hst 5 (by omega)),
    fun h1 h2 => hneg 3 (by omega) (hst 3 (by omega)),
    fun h1 h2 => hneg 1 h1 (hst 1 (by omega))⟩
  · unfold fan_adjust_duty_value MIN MAX
    simp only
    split_ifs <;> omega
  · unfold fan_adjust_duty_value MIN MAX
    simp only
    split_ifs <;> omega
  · intro hpos
    unfold fan_adjust_duty_value MIN MAX
    simp only
    split_ifs <;> omega
  · intro hneg
    unfold fan_adjust_duty_value MIN MAX
    simp only
    rw [if_neg (by omega)]
    split_ifs <;> omega
  · intro h
    unfold fan_adjust_duty_step
    rw [habs]
    split_ifs <;> omega
  · intro h1 h2
    unfold fan_adjust_duty_step
    rw [habs]
    split_ifs <;> omega
  · intro h1 h2
    unfold fan_adjust_duty_step
    rw [habs]
    split_ifs <;> omega
  · intro h1 h2
    unfold fan_adjust_duty_step
    rw [habs]
    split_ifs <;> omega
  · intro h
    unfold fan_adjust_duty_step
    rw [habs]
    split_ifs <;> omega

/-- C29 away from the caps: from duty 50, a fan 1500 rpm too slow gets duty
60 (step 10), a fan 300 rpm too fast gets duty 47 (step 3), a fan 2500 rpm
too slow gets duty 70 (step 20) and a fan 100 rpm too fast gets duty 49
(step 1); and at the caps: duty 95 with the fan 1500 rpm too slow gets 100,
duty 2 with the fan 300 rpm too fast gets 1. -/
theorem fan_adjust_duty_bounds_witness :
    fan_adjust_duty_value 1500 50 = 60 ∧ fan_adjust_duty_value (-300) 50 = 47 ∧
    fan_adjust_duty_value 2500 50 = 70 ∧ fan_adjust_duty_value (-100) 50 = 49 ∧
    fan_adjust_duty_value 1500 95 = 100 ∧ fan_adjust_duty_value (-300) 2 = 1 ∧
    fan_adjust_duty_value 1500 50 = min (50 + 10) 100 ∧
    fan_adjust_duty_value (-300) 50 = max (50 - 3) 1 ∧
    fan_adjust_duty_value 2500 50 = min (50 + 20) 100 ∧
    fan_adjust_duty_value (-100) 50 = max (50 - 1) 1 ∧
    (1 ≤ fan_adjust_duty_value 1500 95 ∧ fan_adjust_duty_value 1500 95 ≤ 100) ∧
    (1 ≤ fan_adjust_duty_value (-300) 2 ∧ fan_adjust_duty_value (-300) 2 ≤ 100) :=
  ⟨by decide, by decide, by decide, by decide, by decide, by decide,
    (fan_adjust_duty_bounds simple_fan_tables simple_fan_api simple_fan_run 0 1500 50
      (by decide) (by decide)).2.2.2.2.2.2.2.2.2.2.2.2.2.1 (by decide) (by decide) (by decide),
    (fan_adjust_duty_bounds simple_fan_tables simple_fan_api simple_fan_run 0 (-300) 50
      (by decide) (by decide)).2.2.2.2.2.2.2.2.2.2.2.2.2.2.2.2.2.2.2.2.1 (by decide)
      (by decide),
    (fan_adjust_duty_bounds simple_fan_tables simple_fan_api simple_fan_run 0 2500 50
      (by decide) (by decide)).2.2.2.2.2.2.2.2.2.2.2.2.1 (by decide) (by decide),
    (fan_adjust_duty_bounds simple_fan_tables simple_fan_api simple_fan_run 0 (-100) 50
      (by decide) (by decide)).2.2.2.2.2.2.2.2.2.2.2.2.2.2.2.2.2.2.2.2.2 (by decide)
      (by decide),
    ⟨(fan_adjust_duty_bounds simple_fan_tables simple_fan_api simple_fan_run 0 1500 95
        (by decide) (by decide)).2.2.1,
      (fan_adjust_duty_bounds simple_fan_tables simple_fan_api simple_fan_run 0 1500 95
        (by decide) (by decide)).2.2.2.1⟩,
    ⟨(fan_adjust_duty_bounds simple_fan_tables simple_fan_api simple_fan_run 0 (-300) 2
        (by decide) (by decide)).2.2.1,
      (fan_adjust_duty_bounds simple_fan_tables simple_fan_api simple_fan_run 0 (-300) 2
        (by decide) (by decide)).2.2.2.1⟩⟩

/-- C30. For every channel with `rpm_min <= rpm_max` and every requested
rpm, after `fan_set_rpm_target` the stored target is 0 when the request is 0
(and the duty 0 is handed to the PWM driver), and otherwise is the request
clamped into [rpm_min, rpm_max]; `fan_get_rpm_target` then returns that
stored value. -/
theorem fan_set_rpm_target_clamped {σ : Type} (t : fan_tables) (api : fan_api σ)
    (s : fan_run σ) (ch : Nat) (rpm : Int)
    (hmm : (t.rpm ch).rpm_min ≤ (t.rpm ch).rpm_max) :
    ((fan_set_rpm_target t api s ch rpm).fan_status ch).rpm_target =
      (if rpm = 0 then 0 else max (t.rpm ch).rpm_min (min rpm (t.rpm ch).rpm_max)) ∧
    fan_get_rpm_target (fan_set_rpm_target t api s ch rpm) ch =
      ((fan_set_rpm_target t api s ch rpm).fan_status ch).rpm_target ∧
    (rpm = 0 →
      ∃ pre : List fan_call,
        (fan_set_rpm_target t api s ch rpm).calls =
          pre ++ [fan_call.pwm_set_duty (t.pwm_id ch) 0]) ∧
    (rpm ≠ 0 →
      (t.rpm ch).rpm_min ≤ ((fan_set_rpm_target t api s ch rpm).fan_status ch).rpm_target ∧
      ((fan_set_rpm_target t api s ch rpm).fan_status ch).rpm_target ≤
        (t.rpm ch).rpm_max) := by
  have htarget : ((fan_set_rpm_target t api s ch rpm).fan_status ch).rpm_target =
      (if rpm = 0 then 0 else max (t.rpm ch).rpm_min (min rpm (t.rpm ch).rpm_max)) := by
    unfold fan_set_rpm_target
    simp only [fan_status_set, if_true]
    split_ifs <;> simp only [] <;> omega
  refine ⟨htarget, rfl, ?_, ?_⟩
  · intro h0
    obtain ⟨pre, hpre⟩ := fan_set_duty_calls t api s ch 0
    refine ⟨pre, ?_⟩
    unfold fan_set_rpm_target
    simp only [h0, if_true]
    exact hpre
  · intro hne
    rw [htarget, if_neg hne]
    omega

/-- C30 on a fan limited to 1000..5000 rpm: a request of 7000 is stored as
5000, a request of 200 as 1000, a request of 3000 as 3000 and a request of 0
as 0. -/
theorem fan_set_rpm_target_clamped_witness :
    (simple_fan_tables.rpm 0).rpm_min ≤ (simple_fan_tables.rpm 0).rpm_max ∧
    fan_get_rpm_target (fan_set_rpm_target simple_fan_tables simple_fan_api simple_fan_run 0
      7000) 0 = 5000 ∧
    fan_get_rpm_target (fan_set_rpm_target simple_fan_tables simple_fan_api simple_fan_run 0
      200) 0 = 1000 ∧
    fan_get_rpm_target (fan_set_rpm_target simple_fan_tables simple_fan_api simple_fan_run 0
      3000) 0 = 3000 ∧
    fan_get_rpm_target (fan_set_rpm_target simple_fan_tables simple_fan_api simple_fan_run 0
      0) 0 = 0 ∧
    ((fan_set_rpm_target simple_fan_tables simple_fan_api simple_fan_run 0 7000).fan_status
      0).rpm_target =
      (if (7000 : Int) = 0 then 0
       else max (simple_fan_tables.rpm 0).rpm_min (min 7000 (simple_fan_tables.rpm 0).rpm_max)) :=
  ⟨by decide, by decide, by decide, by decide, by decide,
    (fan_set_rpm_target_clamped simple_fan_tables simple_fan_api simple_fan_run 0 7000
      (by decide)).1⟩

/-! ## Theorems on the delayed send queue -/

theorem to_send_insert_perm (m : tcpci_partner_msg) (l : List tcpci_partner_msg) :
    (to_send_insert m l).Perm (m :: l) := by
  induction l with
  | nil => exact List.Perm.refl _
  | cons x xs ih =>
    simp only [to_send_insert]
    split_ifs
    · exact (List.Perm.cons x ih).trans (List.Perm.swap m x xs)
    · exact List.Perm.refl _

theorem to_send_insert_sorted (m : tcpci_partner_msg) (l : List tcpci_partner_msg)
    (h : l.Pairwise (fun a b => a.time ≤ b.time)) :
    (to_send_insert m l).Pairwise (fun a b => a.time ≤ b.time) := by
  induction l with
  | nil => simp [to_send_insert]
  | cons x xs ih =>
    rw [List.pairwise_cons] at h
    simp only [to_send_insert]
    split_ifs with hx
    · rw [List.pairwise_cons]
      refine ⟨?_, ih h.2⟩
      intro y hy
      rw [(to_send_insert_perm m xs).mem_iff, List.mem_cons] at hy
      rcases hy with rfl | hy
      · exact hx
      · exact h.1 y hy
    · rw [List.pairwise_cons, List.pairwise_cons]
      refine ⟨?_, h.1, h.2⟩
      intro y hy
      rw [List.mem_cons] at hy
      rcases hy with rfl | hy
      · omega
      · have := h.1 y hy
        omega

theorem queue_step_ok (s : queue_run) (T now : Nat) (op : queue_op)
    (hs : queue_ok s T) (hT : T ≤ now) : queue_ok (queue_step s now op) now := by
  obtain ⟨h1, h2, h3, h4, h5⟩ := hs
  cases op with
  | schedule msg delay =>
    refine ⟨to_send_insert_sorted _ _ h1, h2, h3, ?_, ?_⟩
    · intro e he
      exact Nat.le_trans (h4 e he) hT
    · intro e he m hm
      simp only [queue_step, tcpci_partner_send_msg] at hm
      rw [(to_send_insert_perm _ _).mem_iff, List.mem_cons] at hm
      rcases hm with rfl | hm
      · have := h3 e he
        have := h4 e he
        simp only
        omega
      · exact h5 e he m hm
  | dispatch =>
    simp only [queue_ok, queue_step, dispatch_due]
    refine ⟨h1.sublist (List.filter_sublist _), ?_, ?_, ?_, ?_⟩
    · rw [List.pairwise_append]
      refine ⟨h2, ?_, ?_⟩
      · rw [List.pairwise_map]
        exact h1.sublist (List.filter_sublist _)
      · intro a ha b hb
        rw [List.mem_map] at hb
        obtain ⟨m, hm, rfl⟩ := hb
        exact h5 a ha m (List.mem_of_mem_filter hm)
    · intro e he
      rw [List.mem_append] at he
      rcases he with he | he
      · exact h3 e he
      · rw [List.mem_map] at he
        obtain ⟨m, hm, rfl⟩ := he
        have := (List.mem_filter.1 hm).2
        simpa using this
    · intro e he
      rw [List.mem_append] at he
      rcases he with he | he
      · exact Nat.le_trans (h4 e he) hT
      · rw [List.mem_map] at he
        obtain ⟨m, hm, rfl⟩ := he
        exact Nat.le_refl _
    · intro e he m hm
      have hm2 := (List.mem_filter.1 hm).2
      have hm1 := (List.mem_filter.1 hm).1
      rw [List.mem_append] at he
      rcases he with he | he
      · exact h5 e he m hm1
      · rw [List.mem_map] at he
        obtain ⟨m', hm', rfl⟩ := he
        have h' := (List.mem_filter.1 hm').2
        simp only [decide_eq_true_eq] at h'
        simp only [Bool.not_eq_true', decide_eq_false_iff_not, Nat.not_le] at hm2
        simp only
        omega

theorem queue_exec_ok :
    ∀ (trace : List (Nat × queue_op)) (s : queue_run) (T : Nat),
      queue_ok s T → (∀ p ∈ trace, T ≤ p.1) → (trace.map Prod.fst).Pairwise (· ≤ ·) →
      ∃ T', queue_ok (queue_exec s trace) T' := by
  intro trace
  induction trace with
  | nil => intro s T hs _ _; exact ⟨T, hs⟩
  | cons p rest ih =>
    intro s T hs hT hadv
    rw [List.map_cons, List.pairwise_cons] at hadv
    simp only [queue_exec]
    refine ih (queue_step s p.1 p.2) p.1
      (queue_step_ok s T p.1 p.2 hs (hT p (List.mem_cons_self _ _))) ?_ hadv.2
    intro q hq
    exact hadv.1 q.1 (List.mem_map_of_mem _ hq)

theorem queue_exec_perm :
    ∀ (trace : List (Nat × queue_op)) (s : queue_run),
      ((queue_exec s trace).delivered.map Prod.snd ++ (queue_exec s trace).to_send).Perm
        (s.delivered.map Prod.snd ++ s.to_send ++ scheduled_msgs trace) := by
  intro trace
  induction trace with
  | nil => intro s; simp [queue_exec, scheduled_msgs]
  | cons p rest ih =>
    intro s
    obtain ⟨now, op⟩ := p
    simp only [queue_exec]
    refine (ih _).trans ?_
    cases op with
    | schedule msg delay =>
      simp only [queue_step, tcpci_partner_send_msg, scheduled_msgs]
      have h1 := to_send_insert_perm { msg with time := now + delay } s.to_send
      have h2 : (s.delivered.map Prod.snd ++
          to_send_insert { msg with time := now + delay } s.to_send).Perm
          (s.delivered.map Prod.snd ++ ({ msg with time := now + delay } :: s.to_send)) :=
        List.Perm.append_left _ h1
      refine (List.Perm.append_right _ h2).trans ?_
      rw [List.append_assoc, List.append_assoc]
      refine List.Perm.append_left _ ?_
      simp only [List.cons_append]
      exact (List.perm_middle).symm
    | dispatch =>
      simp only [queue_step, dispatch_due, scheduled_msgs, List.map_append, List.map_map]
      refine List.Perm.append_right _ ?_
      rw [List.append_assoc]
      refine List.Perm.append_left _ ?_
      have hid : (Prod.snd ∘ fun m : tcpci_partner_msg => (now, m)) = id := rfl
      rw [hid, List.map_id]
      exact List.filter_append_perm _ _

theorem queue_exec_append (s : queue_run) (t1 t2 : List (Nat × queue_op)) :
    queue_exec s (t1 ++ t2) = queue_exec (queue_exec s t1) t2 := by
  induction t1 generalizing s with
  | nil => rfl
  | cons p rest ih =>
    rw [List.cons_append]
    simp only [queue_exec]
    exact ih _

theorem queue_exec_delivered :
    ∀ (trace : List (Nat × queue_op)) (q : List tcpci_partner_msg)
      (d d' : List (Nat × tcpci_partner_msg)),
      (queue_exec ⟨q, d ++ d'⟩ trace).delivered = d ++ (queue_exec ⟨q, d'⟩ trace).delivered ∧
      (queue_exec ⟨q, d ++ d'⟩ trace).to_send = (queue_exec ⟨q, d'⟩ trace).to_send := by
  intro trace
  induction trace with
  | nil => intro q d d'; exact ⟨rfl, rfl⟩
  | cons p rest ih =>
    intro q d d'
    obtain ⟨now, op⟩ := p
    cases op with
    | schedule msg delay =>
      simp only [queue_exec, queue_step]
      exact ih _ d d'
    | dispatch =>
      simp only [queue_exec, queue_step, List.append_assoc]
      exact ih _ d _

/-- C21. Over the queue modelled from the spec, started empty: for every
sequence of `schedule` calls and dispatcher runs performed at advancing
times, the messages are handed off in non-decreasing order of scheduled
time, none before its scheduled time, and the messages handed off together
with those still pending are exactly the scheduled messages, so each is
handed off at most once (no message twice when the scheduled messages are
distinct, as they are with distinct delays); after a dispatcher run at time
`T` every pending message is due after `T`, and once `T` has reached every
scheduled time the queue is empty and every scheduled message has been
handed off exactly once. -/
theorem queue_release_order (trace : List (Nat × queue_op))
    (hadv : (trace.map Prod.fst).Pairwise (· ≤ ·)) :
    (queue_exec ⟨[], []⟩ trace).delivered.Pairwise (fun a b => a.2.time ≤ b.2.time) ∧
    (∀ e ∈ (queue_exec ⟨[], []⟩ trace).delivered, e.2.time ≤ e.1) ∧
    ((queue_exec ⟨[], []⟩ trace).delivered.map Prod.snd ++
        (queue_exec ⟨[], []⟩ trace).to_send).Perm (scheduled_msgs trace) ∧
    ((scheduled_msgs trace).Nodup →
      ((queue_exec ⟨[], []⟩ trace).delivered.map Prod.snd).Nodup) ∧
    (∀ (pre : List (Nat × queue_op)) (T : Nat), trace = pre ++ [(T, queue_op.dispatch)] →
      (∀ m ∈ (queue_exec ⟨[], []⟩ trace).to_send, T < m.time) ∧
      ((∀ m ∈ scheduled_msgs trace, m.time ≤ T) →
        (queue_exec ⟨[], []⟩ trace).to_send = [] ∧
        ((queue_exec ⟨[], []⟩ trace).delivered.map Prod.snd).Perm (scheduled_msgs trace))) := by
  have h0 : queue_ok ⟨[], []⟩ 0 := by
    refine ⟨List.Pairwise.nil, List.Pairwise.nil, ?_, ?_, ?_⟩ <;> intro e he <;> cases he
  obtain ⟨T', hok⟩ := queue_exec_ok trace ⟨[], []⟩ 0 h0 (fun _ _ => Nat.zero_le _) hadv
  have hperm : ((queue_exec ⟨[], []⟩ trace).delivered.map Prod.snd ++
      (queue_exec ⟨[], []⟩ trace).to_send).Perm (scheduled_msgs trace) := by
    have := queue_exec_perm trace ⟨[], []⟩
    simpa using this
  refine ⟨hok.2.1, hok.2.2.1, hperm, ?_, ?_⟩
  · intro hnd
    exact ((hperm.nodup_iff.2 hnd).sublist (List.sublist_append_left _ _))
  · intro pre T htr
    have hpending : ∀ m ∈ (queue_exec ⟨[], []⟩ trace).to_send, T < m.time := by
      intro m hm
      rw [htr, queue_exec_append] at hm
      simp only [queue_exec, queue_step, dispatch_due] at hm
      have := (List.mem_filter.1 hm).2
      simpa using this
    refine ⟨hpending, ?_⟩
    intro hall
    have hnil : (queue_exec ⟨[], []⟩ trace).to_send = [] := by
      rw [List.eq_nil_iff_forall_not_mem]
      intro m hm
      have h1 := hpending m hm
      have h2 := hall m (hperm.mem_iff.1 (List.mem_append_right _ hm))
      omega
    refine ⟨hnil, ?_⟩
    have := hperm
    rw [hnil, List.append_nil] at this
    exact this

/-- C21 at a run that schedules Accept with delay 15 and PS_RDY with delay 5
at time 0 and dispatches at times 3, 10 and 20: PS_RDY is handed off at 10,
Accept at 20, and the queue ends empty. -/
theorem queue_release_order_witness :
    (([(0, queue_op.schedule (ctrl_msg 3) 15), (0, queue_op.schedule (ctrl_msg 6) 5),
        (3, queue_op.dispatch), (10, queue_op.dispatch), (20, queue_op.dispatch)] :
        List (Nat × queue_op)).map Prod.fst).Pairwise (· ≤ ·) ∧
    (queue_exec ⟨[], []⟩
      [(0, queue_op.schedule (ctrl_msg 3) 15), (0, queue_op.schedule (ctrl_msg 6) 5),
        (3, queue_op.dispatch), (10, queue_op.dispatch), (20, queue_op.dispatch)]).delivered =
      [(10, { ctrl_msg 6 with time := 5 }), (20, { ctrl_msg 3 with time := 15 })] ∧
    (queue_exec ⟨[], []⟩
      [(0, queue_op.schedule (ctrl_msg 3) 15), (0, queue_op.schedule (ctrl_msg 6) 5),
        (3, queue_op.dispatch), (10, queue_op.dispatch), (20, queue_op.dispatch)]).to_send =
      [] ∧
    (queue_exec ⟨[], []⟩
      [(0, queue_op.schedule (ctrl_msg 3) 15), (0, queue_op.schedule (ctrl_msg 6) 5),
        (3, queue_op.dispatch), (10, queue_op.dispatch),
        (20, queue_op.dispatch)]).delivered.Pairwise (fun a b => a.2.time ≤ b.2.time) :=
  ⟨by decide, by decide, by decide,
    (queue_release_order
      [(0, queue_op.schedule (ctrl_msg 3) 15), (0, queue_op.schedule (ctrl_msg 6) 5),
        (3, queue_op.dispatch), (10, queue_op.dispatch), (20, queue_op.dispatch)]
      (by decide)).1⟩

/-- C22. Over the queue modelled from the spec: after
`tcpci_partner_clear_msg_queue` returns (with 0), the queue is empty, and in
every later sequence of operations the dispatcher hands off only messages
scheduled after the clear: the later hand-offs together with the messages
then pending are exactly the messages scheduled after the clear. -/
theorem queue_clear_drops_pending (trace1 trace2 : List (Nat × queue_op)) :
    (tcpci_partner_clear_msg_queue (queue_exec ⟨[], []⟩ trace1).to_send).1 = [] ∧
    (tcpci_partner_clear_msg_queue (queue_exec ⟨[], []⟩ trace1).to_send).2 = 0 ∧
    ∃ later : List (Nat × tcpci_partner_msg),
      (queue_exec
        ⟨(tcpci_partner_clear_msg_queue (queue_exec ⟨[], []⟩ trace1).to_send).1,
          (queue_exec ⟨[], []⟩ trace1).delivered⟩ trace2).delivered =
        (queue_exec ⟨[], []⟩ trace1).delivered ++ later ∧
      (later.map Prod.snd ++
        (queue_exec
          ⟨(tcpci_partner_clear_msg_queue (queue_exec ⟨[], []⟩ trace1).to_send).1,
            (queue_exec ⟨[], []⟩ trace1).delivered⟩ trace2).to_send).Perm
        (scheduled_msgs trace2) := by
  refine ⟨rfl, rfl, (queue_exec ⟨[], []⟩ trace2).delivered, ?_, ?_⟩
  · have h := (queue_exec_delivered trace2 [] (queue_exec ⟨[], []⟩ trace1).delivered []).1
    rw [List.append_nil] at h
    exact h
  · have h := (queue_exec_delivered trace2 [] (queue_exec ⟨[], []⟩ trace1).delivered []).2
    rw [List.append_nil] at h
    have hto : (queue_exec
        ⟨(tcpci_partner_clear_msg_queue (queue_exec ⟨[], []⟩ trace1).to_send).1,
          (queue_exec ⟨[], []⟩ trace1).delivered⟩ trace2).to_send =
        (queue_exec ⟨[], []⟩ trace2).to_send := h
    rw [hto]
    have := queue_exec_perm trace2 ⟨[], []⟩
    simpa using this
